import Mathlib

/-! Bio sensor hub (MAX32664) transaction codec.

Shallow embedding of the low level I2C transaction functions of
`bio_sensor.c` (the write / sleep / read cycle and the decoding of the
response buffer), followed by the properties proved about them.

Conventions of the embedding
* `uint8_t`, `uint16_t` values are `Nat`; `int32_t` values are `Int` kept in
  the range `[-2^31, 2^31)` by `toInt32`.
* The external bus driver and the clock are a `World`: a script of replies
  the bus will give to the coming transfers, and a log of what the program
  did (transfers and sleeps, oldest first).
* A C array is a `List`; an access outside the array is a `Fault`.
* An out parameter (`*statusByte`, `*arraytoFill`, `*numArray`) is returned
  next to the return value.
-/

namespace BioSensor

/-! ## Constants of `bio_sensor.h` -/

/-- Status byte `SUCCESS` of `enum READ_STATUS_BYTE_VALUE`. -/
@[simp] def SUCCESS : Nat := 0x00
/-- Status byte `ERR_UNAVAIL_CMD`. -/
@[simp] def ERR_UNAVAIL_CMD : Nat := 0x01
/-- Status byte `ERR_UNAVAIL_FUNC`. -/
@[simp] def ERR_UNAVAIL_FUNC : Nat := 0x02
/-- Status byte `ERR_DATA_FORMAT`. -/
@[simp] def ERR_DATA_FORMAT : Nat := 0x03
/-- Status byte `ERR_INPUT_VALUE`. -/
@[simp] def ERR_INPUT_VALUE : Nat := 0x04
/-- Status byte `ERR_TRY_AGAIN`. -/
@[simp] def ERR_TRY_AGAIN : Nat := 0x05
/-- Status byte `ERR_BTLDR_GENERAL`. -/
@[simp] def ERR_BTLDR_GENERAL : Nat := 0x80
/-- Status byte `ERR_BTLDR_CHECKSUM`. -/
@[simp] def ERR_BTLDR_CHECKSUM : Nat := 0x81
/-- Status byte `ERR_BTLDR_AUTH`. -/
@[simp] def ERR_BTLDR_AUTH : Nat := 0x82
/-- Status byte `ERR_BTLDR_INVALID_APP`. -/
@[simp] def ERR_BTLDR_INVALID_APP : Nat := 0x83
/-- Status byte `ERR_UNKNOWN`. -/
@[simp] def ERR_UNKNOWN : Nat := 0xFF

/-- Settle delay of the enable commands, in milliseconds. -/
@[simp] def ENABLE_CMD_DELAY : Nat := 50
/-- Settle delay of the ordinary commands, in milliseconds. -/
@[simp] def CMD_DELAY : Nat := 6
/-- Number of bytes of the standard algorithm output. -/
@[simp] def MAXFAST_ARRAY_SIZE : Nat := 6
/-- Number of bytes of the extended algorithm output. -/
@[simp] def MAXFAST_EXTENDED_DATA : Nat := 5
/-- Number of bytes of the MAX30101 LED values. -/
@[simp] def MAX30101_LED_ARRAY : Nat := 12
/-- Peripheral address of the sensor hub. -/
@[simp] def BIO_ADDRESS : Nat := 0x55
/-- Number of status bytes at the head of every response. -/
@[simp] def I2_READ_STATUS_BYTE_COUNT : Nat := 0x01

/-- The non-success status bytes the hub firmware defines
(`ERR_UNAVAIL_CMD` .. `ERR_TRY_AGAIN`, `ERR_BTLDR_GENERAL` ..
`ERR_BTLDR_INVALID_APP`). -/
def hubErrorCodes : List Nat :=
  [ERR_UNAVAIL_CMD, ERR_UNAVAIL_FUNC, ERR_DATA_FORMAT, ERR_INPUT_VALUE, ERR_TRY_AGAIN,
   ERR_BTLDR_GENERAL, ERR_BTLDR_CHECKSUM, ERR_BTLDR_AUTH, ERR_BTLDR_INVALID_APP]

/-- Every value of `enum READ_STATUS_BYTE_VALUE`. -/
def statusEnumeration : List Nat :=
  SUCCESS :: hubErrorCodes ++ [ERR_UNKNOWN]

/-! ## The bus and the clock -/

/-- Memory fault: an array was accessed outside its bounds. -/
inductive Fault where
  | outOfBounds
  deriving DecidableEq

/-- Fields of the driver's `I2C_Transaction` the library sets. `writeBuf` and
`readBuf` are the arrays the C pointers designate. -/
structure I2C_Transaction where
  slaveAddress : Nat
  writeBuf : List Nat
  writeCount : Nat
  readBuf : List Nat
  readCount : Nat

/-- What the bus answers to one transfer: whether the transfer completed, and
the bytes it delivers to the read buffer. -/
structure BusReply where
  ok : Bool
  data : List Nat
  deriving DecidableEq

/-- Observable action of the library on its collaborators. -/
inductive Event where
  | transfer (slaveAddress : Nat) (written : List Nat) (readCount : Nat)
  | sleep (usec : Nat)
  deriving DecidableEq

/-- State of the external collaborators: the replies the bus gives to the
coming transfers (a transfer past the end of the script fails), and the
actions performed so far, oldest first. -/
structure World where
  script : List BusReply
  log : List Event
  deriving DecidableEq

/-- Read of `buf[i]`. -/
def rd {α : Type} (buf : List α) (i : Nat) : Except Fault α :=
  match buf[i]? with
  | some b => .ok b
  | none => .error .outOfBounds

/-- Assignment `arr[i] = v`. -/
def wr {α : Type} (arr : List α) (i : Nat) (v : α) : Except Fault (List α) :=
  if i < arr.length then .ok (arr.set i v) else .error .outOfBounds

/-- Loop `for (i = 0; i < n; i++) body` over a state `s`. -/
def forLoop {σ : Type} (n : Nat) (body : σ → Nat → Except Fault σ) (s : σ) : Except Fault σ :=
  (List.range n).foldlM body s

/-- Read buffer after the driver stored the `n` bytes of a transfer in it:
byte `i < n` is the `i`-th byte the bus delivered (a byte the script does not
give reads 0), the rest of the buffer is untouched. -/
def rxFill (buf : List Nat) (data : List Nat) (n : Nat) : List Nat :=
  (List.range n).map (fun i => data.getD i 0 % 256) ++ buf.drop n

/-- Driver call `I2C_transfer(gi2cHandle, &gi2cTransaction)`: sends the first
`writeCount` bytes of `writeBuf`, stores `readCount` bytes in `readBuf`, and
reports whether the transfer completed. Returns the report, the read buffer
and the new world. The library sets every field of the global
`gi2cTransaction` before each call, so the descriptor is passed as a value.
The read buffer receives the bytes of the reply whether or not the transfer
is reported as completed: after a failure its content is arbitrary. -/
def I2C_transfer (w : World) (t : I2C_Transaction) : Except Fault (Bool × List Nat × World) :=
  if t.writeBuf.length < t.writeCount ∨ t.readBuf.length < t.readCount then
    .error .outOfBounds
  else
    let r := w.script.headD ⟨false, []⟩
    .ok (r.ok, rxFill t.readBuf r.data t.readCount,
         { script := w.script.tail,
           log := w.log ++ [.transfer t.slaveAddress (t.writeBuf.take t.writeCount) t.readCount] })

/-- Library call `usleep(usec)`. -/
def usleep (usec : Nat) (w : World) : World :=
  { w with log := w.log ++ [.sleep usec] }

/-- Library call `sleep(seconds)`; the log counts microseconds. -/
def sleep (seconds : Nat) (w : World) : World :=
  { w with log := w.log ++ [.sleep (seconds * 1000000)] }

/-- Number of bus transfers in a log. -/
def transferCount : List Event → Nat
  | [] => 0
  | .transfer _ _ _ :: l => transferCount l + 1
  | .sleep _ :: l => transferCount l

/-! ## Machine integers -/

/-- Value of the 32 bits of `x` read as a two's complement `int32_t`. -/
def toInt32 (x : Int) : Int :=
  if x % 4294967296 < 2147483648 then x % 4294967296 else x % 4294967296 - 4294967296

/-- The 32 bits of an `int32_t`, as a natural number. -/
def bits32 (x : Int) : Nat := (x % 4294967296).toNat

/-- Shift `a << k` on `int32_t`, as the two's complement targets of the
library compute it: the bits shifted out are lost, bit 31 becomes the sign. -/
def int32_shl (a : Int) (k : Nat) : Int := toInt32 (a * 2 ^ k)

/-- Bitwise `a | b` on `int32_t`. -/
def int32_or (a b : Int) : Int := toInt32 ((bits32 a ||| bits32 b : Nat) : Int)

/-- Cast `(int32_t)b` of an unsigned value. -/
def castInt32 (b : Nat) : Int := toInt32 (b : Int)

/-- Conversion to `uint16_t`. -/
def toUInt16 (x : Nat) : Nat := x % 65536

/-! ## Floating point

The one floating point computation of the library is `rValue /= 10.0` on the
`float` field `rValue`, whose operand is a 16 bit word. All the values
involved are finite, so a `float` or `double` is held as the rational number
it stands for, and each operation rounds its exact result to the format, to
the nearest value with ties to the even mantissa, as IEEE 754 arithmetic
does. -/

/-- Type `float`, on its finite values. -/
abbrev float : Type := ℚ

/-- Type `double`, on its finite values. -/
abbrev double : Type := ℚ

/-- Position of the leading binary digit of `n`, 0 when `n < 2`; `fuel`
bounds the number of halvings. -/
def leadingBit : Nat → Nat → Nat
  | 0, _ => 0
  | fuel + 1, n => if 2 ≤ n then leadingBit fuel (n / 2) + 1 else 0

/-- The power `2 ^ e` for an integer exponent. -/
def twoPow (e : Int) : ℚ :=
  if 0 ≤ e then ((2 ^ e.toNat : Nat) : ℚ) else 1 / ((2 ^ (-e).toNat : Nat) : ℚ)

/-- The exponent `e` with `2 ^ e ≤ a < 2 ^ (e + 1)`, for `0 < a`. -/
def binaryExponent (a : ℚ) : Int :=
  let c : Int := (leadingBit a.num.toNat a.num.toNat : Int) - (leadingBit a.den a.den : Int)
  if twoPow c ≤ a then c else c - 1

/-- The integer nearest to `m`; half way between two integers, the even one. -/
def roundHalfEven (m : ℚ) : Int :=
  if m - (Rat.floor m : ℚ) < 1 / 2 then Rat.floor m
  else if 1 / 2 < m - (Rat.floor m : ℚ) then Rat.floor m + 1
  else if Rat.floor m % 2 = 0 then Rat.floor m
  else Rat.floor m + 1

/-- Rounding of `x` to the binary format with `precision` mantissa bits and
least normal exponent `emin`: the mantissa of `x` at the exponent of `x`, or
at `emin` for a subnormal result, is rounded to the nearest integer, ties to
even. Values beyond the largest finite value of the format do not occur in
the library (the operands are 16 bit words) and are not treated. -/
def roundBinary (precision : Nat) (emin : Int) (x : ℚ) : ℚ :=
  if x = 0 then 0
  else
    let a := if x < 0 then -x else x
    let q := max (binaryExponent a) emin - ((precision : Int) - 1)
    let m := roundHalfEven (a / twoPow q)
    if x < 0 then -((m : ℚ) * twoPow q) else (m : ℚ) * twoPow q

/-- Rounding to `float`, IEEE 754 binary32: 24 mantissa bits, least normal
exponent -126. -/
def toFloat (x : ℚ) : float := roundBinary 24 (-126) x

/-- Rounding to `double`, IEEE 754 binary64: 53 mantissa bits, least normal
exponent -1022. -/
def toDouble (x : ℚ) : double := roundBinary 53 (-1022) x

/-- Conversion `(float)n` of an unsigned integer. -/
def floatOfUInt (n : Nat) : float := toFloat (n : ℚ)

/-- Compound assignment `x /= 10.0` on a `float`: the operand is converted to
`double`, divided by the `double` constant `10.0`, and the quotient is
converted back to `float`. -/
def floatDivTen (x : float) : float := toFloat (toDouble (toDouble x / toDouble 10))

/-! ## Low level I2C transaction functions of `bio_sensor.c` -/

/-- Function `I2CReadByte`: returns the read byte, `*statusByte` and the world. -/
def I2CReadByte (familyByte indexByte : Nat) (w : World) : Except Fault (Nat × Nat × World) := do
  let localTxBuffer := [familyByte, indexByte]
  let localRxBuffer := List.replicate 2 0
  let (ok, localRxBuffer, w) ← I2C_transfer w
    { slaveAddress := BIO_ADDRESS, writeBuf := localTxBuffer, writeCount := 2,
      readBuf := localRxBuffer, readCount := 0 }
  if !ok then
    return (0, ERR_UNKNOWN, w)
  else
    let w := usleep (CMD_DELAY * 1000) w
    let (ok, localRxBuffer, w) ← I2C_transfer w
      { slaveAddress := BIO_ADDRESS, writeBuf := localTxBuffer, writeCount := 0,
        readBuf := localRxBuffer, readCount := 2 }
    if !ok then
      return (0, ERR_UNKNOWN, w)
    else
      let statusByte ← rd localRxBuffer 0
      if (← rd localRxBuffer 0) != SUCCESS then
        return (0, statusByte, w)
      else
        return (← rd localRxBuffer 1, statusByte, w)

/-- Function `I2CReadBytewithWriteByte`: returns the read byte, `*statusByte`
and the world. -/
def I2CReadBytewithWriteByte (familyByte indexByte dataByte : Nat) (w : World) :
    Except Fault (Nat × Nat × World) := do
  let localTxBuffer := [familyByte, indexByte, dataByte]
  let localRxBuffer := List.replicate 2 0
  let (ok, localRxBuffer, w) ← I2C_transfer w
    { slaveAddress := BIO_ADDRESS, writeBuf := localTxBuffer, writeCount := 3,
      readBuf := localRxBuffer, readCount := 0 }
  if !ok then
    return (0, ERR_UNKNOWN, w)
  else
    let w := usleep (CMD_DELAY * 1000) w
    let (ok, localRxBuffer, w) ← I2C_transfer w
      { slaveAddress := BIO_ADDRESS, writeBuf := localTxBuffer, writeCount := 0,
        readBuf := localRxBuffer, readCount := 2 }
    if !ok then
      return (0, ERR_UNKNOWN, w)
    else
      let statusByte ← rd localRxBuffer 0
      if (← rd localRxBuffer 0) != SUCCESS then
        return (0, statusByte, w)
      else
        return (← rd localRxBuffer 1, statusByte, w)

/-- Function `I2CReadFillArray`: returns the status byte, the array
`arraytoFill` points to, and the world. -/
def I2CReadFillArray (familyByte indexByte arraySize : Nat) (arraytoFill : List Nat) (w : World) :
    Except Fault (Nat × List Nat × World) := do
  let localTxBuffer := [familyByte, indexByte]
  let localRxBuffer :=
    List.replicate (1 + MAX30101_LED_ARRAY + MAXFAST_ARRAY_SIZE + MAXFAST_EXTENDED_DATA) 0
  let (ok, localRxBuffer, w) ← I2C_transfer w
    { slaveAddress := BIO_ADDRESS, writeBuf := localTxBuffer, writeCount := 2,
      readBuf := localRxBuffer, readCount := 0 }
  if !ok then
    let arraytoFill ← forLoop arraySize
      (fun arraytoFill arrayCount => wr arraytoFill arrayCount 0) arraytoFill
    return (ERR_UNKNOWN, arraytoFill, w)
  else
    let w := usleep (CMD_DELAY * 1000) w
    let (ok, localRxBuffer, w) ← I2C_transfer w
      { slaveAddress := BIO_ADDRESS, writeBuf := localTxBuffer, writeCount := 0,
        readBuf := localRxBuffer, readCount := I2_READ_STATUS_BYTE_COUNT + arraySize }
    if !ok then
      let arraytoFill ← forLoop arraySize
        (fun arraytoFill arrayCount => wr arraytoFill arrayCount 0) arraytoFill
      return (ERR_UNKNOWN, arraytoFill, w)
    else
      if (← rd localRxBuffer 0) != 0 then
        let arraytoFill ← forLoop arraySize
          (fun arraytoFill arrayCount => wr arraytoFill arrayCount 0) arraytoFill
        return (← rd localRxBuffer 0, arraytoFill, w)
      else
        let arraytoFill ← forLoop arraySize
          (fun arraytoFill arrayCount => do
            wr arraytoFill arrayCount (← rd localRxBuffer (I2_READ_STATUS_BYTE_COUNT + arrayCount)))
          arraytoFill
        return (← rd localRxBuffer 0, arraytoFill, w)

/-- Function `I2CReadInt`: returns the 16-bit value, `*statusByte` and the
world. -/
def I2CReadInt (familyByte indexByte : Nat) (w : World) : Except Fault (Nat × Nat × World) := do
  let localTxBuffer := [familyByte, indexByte]
  let localRxBuffer := List.replicate 3 0
  let (ok, localRxBuffer, w) ← I2C_transfer w
    { slaveAddress := BIO_ADDRESS, writeBuf := localTxBuffer, writeCount := 2,
      readBuf := localRxBuffer, readCount := 0 }
  if !ok then
    return (0, ERR_UNKNOWN, w)
  else
    let w := usleep (CMD_DELAY * 1000) w
    let (ok, localRxBuffer, w) ← I2C_transfer w
      { slaveAddress := BIO_ADDRESS, writeBuf := localTxBuffer, writeCount := 0,
        readBuf := localRxBuffer, readCount := 3 }
    if !ok then
      return (0, ERR_UNKNOWN, w)
    else
      let statusByte ← rd localRxBuffer 0
      if (← rd localRxBuffer 0) != 0 then
        let returnInt := 0
        return (returnInt, statusByte, w)
      else
        let returnInt := toUInt16 (toUInt16 (← rd localRxBuffer 1) <<< 8)
        let returnInt := toUInt16 (returnInt ||| toUInt16 (← rd localRxBuffer 2))
        return (returnInt, statusByte, w)

/-- Function `I2CReadIntWithWriteByte`: returns the 16-bit value,
`*statusByte` and the world. -/
def I2CReadIntWithWriteByte (familyByte indexByte writeByte : Nat) (w : World) :
    Except Fault (Nat × Nat × World) := do
  let localTxBuffer := [familyByte, indexByte, writeByte]
  let localRxBuffer := List.replicate 3 0
  let (ok, localRxBuffer, w) ← I2C_transfer w
    { slaveAddress := BIO_ADDRESS, writeBuf := localTxBuffer, writeCount := 3,
      readBuf := localRxBuffer, readCount := 0 }
  if !ok then
    return (0, ERR_UNKNOWN, w)
  else
    let w := usleep (CMD_DELAY * 1000) w
    let (ok, localRxBuffer, w) ← I2C_transfer w
      { slaveAddress := BIO_ADDRESS, writeBuf := localTxBuffer, writeCount := 0,
        readBuf := localRxBuffer, readCount := 3 }
    if !ok then
      return (0, ERR_UNKNOWN, w)
    else
      let statusByte ← rd localRxBuffer 0
      if (← rd localRxBuffer 0) != 0 then
        let returnInt := 0
        return (returnInt, statusByte, w)
      else
        let returnInt := toUInt16 (toUInt16 (← rd localRxBuffer 1) <<< 8)
        let returnInt := toUInt16 (returnInt ||| toUInt16 (← rd localRxBuffer 2))
        return (returnInt, statusByte, w)

/-- Function `I2CRead32BitValue`: returns the signed 32-bit value,
`*statusByte` and the world. -/
def I2CRead32BitValue (familyByte indexByte dataByte : Nat) (w : World) :
    Except Fault (Int × Nat × World) := do
  let localTxBuffer := [familyByte, indexByte, dataByte]
  let localRxBuffer := List.replicate (I2_READ_STATUS_BYTE_COUNT + 4) 0
  let (ok, localRxBuffer, w) ← I2C_transfer w
    { slaveAddress := BIO_ADDRESS, writeBuf := localTxBuffer, writeCount := 3,
      readBuf := localRxBuffer, readCount := 0 }
  if !ok then
    return (0, ERR_UNKNOWN, w)
  else
    let w := usleep (CMD_DELAY * 1000) w
    let (ok, localRxBuffer, w) ← I2C_transfer w
      { slaveAddress := BIO_ADDRESS, writeBuf := localTxBuffer, writeCount := 0,
        readBuf := localRxBuffer, readCount := I2_READ_STATUS_BYTE_COUNT + 4 }
    if !ok then
      return (0, ERR_UNKNOWN, w)
    else
      let statusByte ← rd localRxBuffer 0
      if (← rd localRxBuffer 0) != 0 then
        let value := 0
        return (value, statusByte, w)
      else
        let value :=
          int32_shl (castInt32 (← rd localRxBuffer I2_READ_STATUS_BYTE_COUNT)) 24
        let value := int32_or value
          (int32_shl (castInt32 (← rd localRxBuffer (I2_READ_STATUS_BYTE_COUNT + 1))) 16)
        let value := int32_or value
          (int32_shl (castInt32 (← rd localRxBuffer (I2_READ_STATUS_BYTE_COUNT + 2))) 8)
        let value := int32_or value
          (castInt32 (← rd localRxBuffer (I2_READ_STATUS_BYTE_COUNT + 3)))
        return (value, statusByte, w)

/-- Body of the decoding loop of `I2CReadMultiple32BitValues`: the four
assignments to `numArray[arrayCount]`. -/
def decode32Body (localRxBuffer : List Nat) (numArray : List Int) (arrayCount : Nat) :
    Except Fault (List Int) := do
  let numArray ← wr numArray arrayCount
    (int32_shl (castInt32 (← rd localRxBuffer (I2_READ_STATUS_BYTE_COUNT + arrayCount * 4))) 24)
  let numArray ← wr numArray arrayCount
    (int32_or (← rd numArray arrayCount)
      (int32_shl (castInt32 (← rd localRxBuffer (I2_READ_STATUS_BYTE_COUNT + arrayCount * 4 + 1))) 16))
  let numArray ← wr numArray arrayCount
    (int32_or (← rd numArray arrayCount)
      (int32_shl (castInt32 (← rd localRxBuffer (I2_READ_STATUS_BYTE_COUNT + arrayCount * 4 + 2))) 8))
  wr numArray arrayCount
    (int32_or (← rd numArray arrayCount)
      (castInt32 (← rd localRxBuffer (I2_READ_STATUS_BYTE_COUNT + arrayCount * 4 + 3))))

/-- Function `I2CReadMultiple32BitValues`: returns the status byte, the array
`numArray` points to, and the world. -/
def I2CReadMultiple32BitValues (familyByte indexByte dataByte numReads : Nat)
    (numArray : List Int) (w : World) : Except Fault (Nat × List Int × World) := do
  let localTxBuffer := [familyByte, indexByte, dataByte]
  let localRxBuffer := List.replicate (I2_READ_STATUS_BYTE_COUNT + 4 * 3) 0
  let (ok, localRxBuffer, w) ← I2C_transfer w
    { slaveAddress := BIO_ADDRESS, writeBuf := localTxBuffer, writeCount := 3,
      readBuf := localRxBuffer, readCount := 0 }
  if !ok then
    let numArray ← forLoop numReads
      (fun numArray arrayCount => wr numArray arrayCount 0) numArray
    return (ERR_UNKNOWN, numArray, w)
  else
    let w := usleep (CMD_DELAY * 1000) w
    let (ok, localRxBuffer, w) ← I2C_transfer w
      { slaveAddress := BIO_ADDRESS, writeBuf := localTxBuffer, writeCount := 0,
        readBuf := localRxBuffer, readCount := I2_READ_STATUS_BYTE_COUNT + 4 * numReads }
    if !ok then
      let numArray ← forLoop numReads
        (fun numArray arrayCount => wr numArray arrayCount 0) numArray
      return (ERR_UNKNOWN, numArray, w)
    else
      if (← rd localRxBuffer 0) != 0 then
        let numArray ← forLoop numReads
          (fun numArray arrayCount => wr numArray arrayCount 0) numArray
        return (← rd localRxBuffer 0, numArray, w)
      else
        let numArray ← forLoop numReads (decode32Body localRxBuffer) numArray
        return (← rd localRxBuffer 0, numArray, w)

/-- Function `I2CWriteByte`: returns the status byte and the world. -/
def I2CWriteByte (familyByte indexByte dataByte : Nat) (w : World) :
    Except Fault (Nat × World) := do
  let localTxBuffer := [familyByte, indexByte, dataByte]
  let localRxBuffer := List.replicate 1 0
  let (ok, localRxBuffer, w) ← I2C_transfer w
    { slaveAddress := BIO_ADDRESS, writeBuf := localTxBuffer, writeCount := 3,
      readBuf := localRxBuffer, readCount := 0 }
  if !ok then
    return (ERR_UNKNOWN, w)
  else
    let w := usleep (CMD_DELAY * 1000) w
    let (ok, localRxBuffer, w) ← I2C_transfer w
      { slaveAddress := BIO_ADDRESS, writeBuf := localTxBuffer, writeCount := 0,
        readBuf := localRxBuffer, readCount := 1 }
    if !ok then
      return (ERR_UNKNOWN, w)
    else
      return (← rd localRxBuffer 0, w)

/-- Function `I2CWrite2Bytes`: returns the status byte and the world. -/
def I2CWrite2Bytes (familyByte indexByte dataByte0 dataByte1 : Nat) (w : World) :
    Except Fault (Nat × World) := do
  let localTxBuffer := [familyByte, indexByte, dataByte0, dataByte1]
  let localRxBuffer := List.replicate 1 0
  let (ok, localRxBuffer, w) ← I2C_transfer w
    { slaveAddress := BIO_ADDRESS, writeBuf := localTxBuffer, writeCount := 4,
      readBuf := localRxBuffer, readCount := 0 }
  if !ok then
    return (ERR_UNKNOWN, w)
  else
    let w := usleep (CMD_DELAY * 1000) w
    let (ok, localRxBuffer, w) ← I2C_transfer w
      { slaveAddress := BIO_ADDRESS, writeBuf := localTxBuffer, writeCount := 0,
        readBuf := localRxBuffer, readCount := 1 }
    if !ok then
      return (ERR_UNKNOWN, w)
    else
      return (← rd localRxBuffer 0, w)

/-- Function `I2CenableWriteByte`: returns the status byte and the world. -/
def I2CenableWriteByte (familyByte indexByte dataByte : Nat) (w : World) :
    Except Fault (Nat × World) := do
  let localTxBuffer := [familyByte, indexByte, dataByte]
  let localRxBuffer := List.replicate 1 0
  let (ok, localRxBuffer, w) ← I2C_transfer w
    { slaveAddress := BIO_ADDRESS, writeBuf := localTxBuffer, writeCount := 3,
      readBuf := localRxBuffer, readCount := 0 }
  if !ok then
    return (ERR_UNKNOWN, w)
  else
    let w := usleep (ENABLE_CMD_DELAY * 1000) w
    let (ok, localRxBuffer, w) ← I2C_transfer w
      { slaveAddress := BIO_ADDRESS, writeBuf := localTxBuffer, writeCount := 0,
        readBuf := localRxBuffer, readCount := 1 }
    if !ok then
      return (ERR_UNKNOWN, w)
    else
      return (← rd localRxBuffer 0, w)

/-! ## Command constants of `bio_sensor.h` -/

/-- Value `DISABLE`. -/
@[simp] def DISABLE : Nat := 0x00
/-- Value `ENABLE`. -/
@[simp] def ENABLE : Nat := 0x01
/-- Algorithm mode `MODE_ONE`. -/
@[simp] def MODE_ONE : Nat := 0x01
/-- Algorithm mode `MODE_TWO`. -/
@[simp] def MODE_TWO : Nat := 0x02
/-- Status `INCORR_PARAM` of a rejected argument. -/
@[simp] def INCORR_PARAM : Nat := 0xEE
/-- Index byte `SET_FORMAT`. -/
@[simp] def SET_FORMAT : Nat := 0x00
/-- Index byte `WRITE_SET_THRESHOLD`. -/
@[simp] def WRITE_SET_THRESHOLD : Nat := 0x01

/-- Family byte `HUB_STATUS`. -/
@[simp] def HUB_STATUS : Nat := 0x00
/-- Family byte `SET_DEVICE_MODE`. -/
@[simp] def SET_DEVICE_MODE : Nat := 0x01
/-- Family byte `READ_DEVICE_MODE`. -/
@[simp] def READ_DEVICE_MODE : Nat := 0x02
/-- Family byte `OUTPUT_MODE`. -/
@[simp] def OUTPUT_MODE : Nat := 0x10
/-- Family byte `READ_DATA_OUTPUT`. -/
@[simp] def READ_DATA_OUTPUT : Nat := 0x12
/-- Family byte `WRITE_REGISTER`. -/
@[simp] def WRITE_REGISTER : Nat := 0x40
/-- Family byte `READ_REGISTER`. -/
@[simp] def READ_REGISTER : Nat := 0x41
/-- Family byte `READ_ATTRIBUTES_AFE`. -/
@[simp] def READ_ATTRIBUTES_AFE : Nat := 0x42
/-- Family byte `ENABLE_SENSOR`. -/
@[simp] def ENABLE_SENSOR : Nat := 0x44
/-- Family byte `READ_SENSOR_MODE`. -/
@[simp] def READ_SENSOR_MODE : Nat := 0x45
/-- Family byte `READ_ALGORITHM_CONFIG`. -/
@[simp] def READ_ALGORITHM_CONFIG : Nat := 0x51
/-- Family byte `ENABLE_ALGORITHM`. -/
@[simp] def ENABLE_ALGORITHM : Nat := 0x52
/-- Family byte `BOOTLOADER_INFO`. -/
@[simp] def BOOTLOADER_INFO : Nat := 0x81
/-- Family byte `IDENTITY`. -/
@[simp] def IDENTITY : Nat := 0xFF

/-- Device mode `EXIT_BOOTLOADER` (application mode). -/
@[simp] def EXIT_BOOTLOADER : Nat := 0x00
/-- Device mode `RESET`. -/
@[simp] def RESET : Nat := 0x02
/-- Device mode `ENTER_BOOTLOADER`. -/
@[simp] def ENTER_BOOTLOADER : Nat := 0x08

/-- Output mode `SENSOR_DATA`. -/
@[simp] def SENSOR_DATA : Nat := 0x01
/-- Output mode `ALGO_DATA`. -/
@[simp] def ALGO_DATA : Nat := 0x02
/-- Output mode `SENSOR_AND_ALGORITHM`. -/
@[simp] def SENSOR_AND_ALGORITHM : Nat := 0x03

/-- Index byte `NUM_SAMPLES`. -/
@[simp] def NUM_SAMPLES : Nat := 0x00
/-- Index byte `READ_DATA`. -/
@[simp] def READ_DATA : Nat := 0x01
/-- Index byte `WRITE_MAX30101`. -/
@[simp] def WRITE_MAX30101 : Nat := 0x03
/-- Index byte `READ_MAX30101`. -/
@[simp] def READ_MAX30101 : Nat := 0x03
/-- Index byte `RETRIEVE_AFE_MAX30101`. -/
@[simp] def RETRIEVE_AFE_MAX30101 : Nat := 0x03
/-- Index byte `RETRIEVE_AFE_ACCELEROMETER`. -/
@[simp] def RETRIEVE_AFE_ACCELEROMETER : Nat := 0x04
/-- Index byte `ENABLE_MAX30101`. -/
@[simp] def ENABLE_MAX30101 : Nat := 0x03
/-- Index byte `READ_ENABLE_MAX30101`. -/
@[simp] def READ_ENABLE_MAX30101 : Nat := 0x03
/-- Index byte `READ_ENABLE_ACCELEROMETER`. -/
@[simp] def READ_ENABLE_ACCELEROMETER : Nat := 0x04
/-- Index byte `READ_AGC_PERCENTAGE`. -/
@[simp] def READ_AGC_PERCENTAGE : Nat := 0x00
/-- Index byte `READ_AGC_STEP_SIZE`. -/
@[simp] def READ_AGC_STEP_SIZE : Nat := 0x00
/-- Index byte `READ_AGC_SENSITIVITY`. -/
@[simp] def READ_AGC_SENSITIVITY : Nat := 0x00
/-- Index byte `READ_AGC_NUM_SAMPLES`. -/
@[simp] def READ_AGC_NUM_SAMPLES : Nat := 0x00
/-- Index byte `READ_MAX_FAST_COEF`. -/
@[simp] def READ_MAX_FAST_COEF : Nat := 0x02
/-- Write byte `READ_AGC_PERC_ID`. -/
@[simp] def READ_AGC_PERC_ID : Nat := 0x00
/-- Write byte `READ_AGC_STEP_SIZE_ID`. -/
@[simp] def READ_AGC_STEP_SIZE_ID : Nat := 0x01
/-- Write byte `READ_AGC_SENSITIVITY_ID`. -/
@[simp] def READ_AGC_SENSITIVITY_ID : Nat := 0x02
/-- Write byte `READ_AGC_NUM_SAMPLES_ID`. -/
@[simp] def READ_AGC_NUM_SAMPLES_ID : Nat := 0x03
/-- Write byte `READ_MAX_FAST_COEF_ID`. -/
@[simp] def READ_MAX_FAST_COEF_ID : Nat := 0x0B
/-- Index byte `ENABLE_AGC_ALGO`. -/
@[simp] def ENABLE_AGC_ALGO : Nat := 0x00
/-- Index byte `ENABLE_WHRM_ALGO`. -/
@[simp] def ENABLE_WHRM_ALGO : Nat := 0x02
/-- Index byte `BOOTLOADER_VERS`. -/
@[simp] def BOOTLOADER_VERS : Nat := 0x00
/-- Index byte `READ_MCU_TYPE`. -/
@[simp] def READ_MCU_TYPE : Nat := 0x00
/-- Index byte `READ_SENSOR_HUB_VERS`. -/
@[simp] def READ_SENSOR_HUB_VERS : Nat := 0x03
/-- Index byte `READ_ALGO_VERS`. -/
@[simp] def READ_ALGO_VERS : Nat := 0x07
/-- Index byte `READ_MAX_FAST_RATE`. -/
@[simp] def READ_MAX_FAST_RATE : Nat := 0x02
/-- Write byte `READ_MAX_FAST_RATE_ID`. -/
@[simp] def READ_MAX_FAST_RATE_ID : Nat := 0x00
/-- Number of Maxim Fast coefficients, `NUM_MAXIM_FAST_COEF`. -/
@[simp] def NUM_MAXIM_FAST_COEF : Nat := 0x03

/-- MAX30101 register `MODE_REGISTER`. -/
@[simp] def MODE_REGISTER : Nat := 0x09
/-- Mask `READ_MODE_MASK` of the mode bits [2:0]. -/
@[simp] def READ_MODE_MASK : Nat := 0x07
/-- Mask `RESET_MASK`: every bit of the mode register but the reset bit. -/
@[simp] def RESET_MASK : Nat := 0xBF
/-- Mask `SET_RESET_BIT`: the reset bit [6]. -/
@[simp] def SET_RESET_BIT : Nat := 0x40
/-- MAX30101 register `CONFIGURATION_REGISTER`. -/
@[simp] def CONFIGURATION_REGISTER : Nat := 0x0A
/-- Mask `READ_PULSE_MASK`. -/
@[simp] def READ_PULSE_MASK : Nat := 0x03
/-- Mask `READ_SAMP_MASK`. -/
@[simp] def READ_SAMP_MASK : Nat := 0x1C
/-- Mask `READ_ADC_MASK`. -/
@[simp] def READ_ADC_MASK : Nat := 0x60
/-- MAX30101 register `LED1_REGISTER`. -/
@[simp] def LED1_REGISTER : Nat := 0x0C
/-- MAX30101 register `LED2_REGISTER`. -/
@[simp] def LED2_REGISTER : Nat := 0x0D
/-- MAX30101 register `LED3_REGISTER`. -/
@[simp] def LED3_REGISTER : Nat := 0x0E
/-- MAX30101 register `LED4_REGISTER`. -/
@[simp] def LED4_REGISTER : Nat := 0x0F

/-! ## Library operations of `bio_sensor.c`: commands and single reads -/

/-- Function `setOutputMode`: returns the status and the world. -/
def setOutputMode (outputType : Nat) (w : World) : Except Fault (Nat × World) := do
  if outputType > 0x07 then
    return (INCORR_PARAM, w)
  else
    let (outputModeStatus, w) ← I2CWriteByte OUTPUT_MODE SET_FORMAT outputType w
    if outputModeStatus != SUCCESS then
      return (outputModeStatus, w)
    else
      return (SUCCESS, w)

/-- Function `setFifoThreshold`: returns the status and the world. -/
def setFifoThreshold (intThresh : Nat) (w : World) : Except Fault (Nat × World) := do
  let (fifoThreshStatus, w) ← I2CWriteByte OUTPUT_MODE WRITE_SET_THRESHOLD intThresh w
  if fifoThreshStatus != SUCCESS then
    return (fifoThreshStatus, w)
  else
    return (SUCCESS, w)

/-- Function `numSamplesOutFifo`: returns the number of samples,
`*statusByte` and the world. -/
def numSamplesOutFifo (w : World) : Except Fault (Nat × Nat × World) := do
  let (sampAvail, statusByte, w) ← I2CReadByte READ_DATA_OUTPUT NUM_SAMPLES w
  return (sampAvail, statusByte, w)

/-- Function `agcAlgoControl`: returns the status and the world. -/
def agcAlgoControl (enable : Nat) (w : World) : Except Fault (Nat × World) := do
  if enable == 0 || enable == 1 then
    let (agcStatusByte, w) ← I2CenableWriteByte ENABLE_ALGORITHM ENABLE_AGC_ALGO enable w
    if agcStatusByte != SUCCESS then
      return (agcStatusByte, w)
    else
      return (SUCCESS, w)
  else
    return (INCORR_PARAM, w)

/-- Function `max30101Control`: returns the status and the world. -/
def max30101Control (senSwitch : Nat) (w : World) : Except Fault (Nat × World) := do
  if senSwitch == 0 || senSwitch == 1 then
    let (maxStatusByte, w) ← I2CenableWriteByte ENABLE_SENSOR ENABLE_MAX30101 senSwitch w
    if maxStatusByte != SUCCESS then
      return (maxStatusByte, w)
    else
      return (SUCCESS, w)
  else
    return (INCORR_PARAM, w)

/-- Function `readMAX30101State`: returns the state, `*statusByte` and the
world. -/
def readMAX30101State (w : World) : Except Fault (Nat × Nat × World) := do
  let (maxState, statusByte, w) ← I2CReadByte READ_SENSOR_MODE READ_ENABLE_MAX30101 w
  return (maxState, statusByte, w)

/-- Function `maximFastAlgoControl`: returns the status and the world. -/
def maximFastAlgoControl (mode : Nat) (w : World) : Except Fault (Nat × World) := do
  if mode == 0 || mode == 1 || mode == 2 then
    let (maximAlgoStatusByte, w) ← I2CenableWriteByte ENABLE_ALGORITHM ENABLE_WHRM_ALGO mode w
    if maximAlgoStatusByte != SUCCESS then
      return (maximAlgoStatusByte, w)
    else
      return (SUCCESS, w)
  else
    return (INCORR_PARAM, w)

/-- Function `readDeviceMode`: returns the mode, `*statusByte` and the
world. -/
def readDeviceMode (w : World) : Except Fault (Nat × Nat × World) := do
  let (deviceMode, statusByte, w) ← I2CReadByte READ_DEVICE_MODE 0x00 w
  return (deviceMode, statusByte, w)

/-- Function `setDeviceMode`: returns the mode or an error value,
`*statusByte` and the world. -/
def setDeviceMode (operatingMode : Nat) (w : World) : Except Fault (Nat × Nat × World) := do
  if operatingMode != EXIT_BOOTLOADER && operatingMode != RESET
      && operatingMode != ENTER_BOOTLOADER then
    return (INCORR_PARAM, INCORR_PARAM, w)
  else
    let (setModeStatus, w) ← I2CWriteByte SET_DEVICE_MODE 0x00 operatingMode w
    if setModeStatus != 0 then
      return (ERR_UNKNOWN, setModeStatus, w)
    else
      let (deviceMode, statusByte, w) ← I2CReadByte READ_DEVICE_MODE 0x00 w
      if deviceMode != operatingMode then
        return (ERR_UNKNOWN, statusByte, w)
      else
        return (deviceMode, statusByte, w)

/-- Function `readSensorHubStatus`: returns the hub status, `*statusByte` and
the world. -/
def readSensorHubStatus (w : World) : Except Fault (Nat × Nat × World) := do
  let (status, statusByte, w) ← I2CReadByte HUB_STATUS 0x00 w
  return (status, statusByte, w)

/-- Function `readAlgoSamples`: returns the number of samples, `*statusByte`
and the world. -/
def readAlgoSamples (w : World) : Except Fault (Nat × Nat × World) := do
  let (samples, statusByte, w) ←
    I2CReadBytewithWriteByte READ_ALGORITHM_CONFIG READ_AGC_NUM_SAMPLES READ_AGC_NUM_SAMPLES_ID w
  return (samples, statusByte, w)

/-- Function `readAlgoRange`: returns the range, `*statusByte` and the
world. -/
def readAlgoRange (w : World) : Except Fault (Nat × Nat × World) := do
  let (range, statusByte, w) ←
    I2CReadBytewithWriteByte READ_ALGORITHM_CONFIG READ_AGC_PERCENTAGE READ_AGC_PERC_ID w
  return (range, statusByte, w)

/-- Function `readAlgoStepSize`: returns the step size, `*statusByte` and the
world. -/
def readAlgoStepSize (w : World) : Except Fault (Nat × Nat × World) := do
  let (stepSize, statusByte, w) ←
    I2CReadBytewithWriteByte READ_ALGORITHM_CONFIG READ_AGC_STEP_SIZE READ_AGC_STEP_SIZE_ID w
  return (stepSize, statusByte, w)

/-- Function `readAlgoSensitivity`: returns the sensitivity, `*statusByte` and
the world. -/
def readAlgoSensitivity (w : World) : Except Fault (Nat × Nat × World) := do
  let (algoSens, statusByte, w) ←
    I2CReadBytewithWriteByte READ_ALGORITHM_CONFIG READ_AGC_SENSITIVITY READ_AGC_SENSITIVITY_ID w
  return (algoSens, statusByte, w)

/-- Function `readAlgoSampleRate`: returns the sample rate, `*statusByte` and
the world. -/
def readAlgoSampleRate (w : World) : Except Fault (Nat × Nat × World) := do
  let (algoSampleRate, statusByte, w) ←
    I2CReadIntWithWriteByte READ_ALGORITHM_CONFIG READ_MAX_FAST_RATE READ_MAX_FAST_RATE_ID w
  if statusByte != 0 then
    let algoSampleRate := 0
    return (algoSampleRate, statusByte, w)
  else
    return (algoSampleRate, statusByte, w)

/-- Function `readMaximFastCoef`: returns the status byte, the array
`coefArray` points to, and the world. -/
def readMaximFastCoef (coefArray : List Int) (w : World) :
    Except Fault (Nat × List Int × World) := do
  let numOfReads := NUM_MAXIM_FAST_COEF
  let (statusByte, coefArray, w) ←
    I2CReadMultiple32BitValues READ_ALGORITHM_CONFIG READ_MAX_FAST_COEF READ_MAX_FAST_COEF_ID
      numOfReads coefArray w
  return (statusByte, coefArray, w)

/-- Function `getMcuType`: returns the MCU type or `ERR_UNKNOWN`,
`*statusByte` and the world. -/
def getMcuType (w : World) : Except Fault (Nat × Nat × World) := do
  let (mcuType, statusByte, w) ← I2CReadByte IDENTITY READ_MCU_TYPE w
  if mcuType != SUCCESS && mcuType != 0x01 then
    return (ERR_UNKNOWN, statusByte, w)
  else
    return (mcuType, statusByte, w)

/-- Function `readRegisterMAX30101`: returns the register value,
`*statusByte` and the world. -/
def readRegisterMAX30101 (regAddr : Nat) (w : World) : Except Fault (Nat × Nat × World) := do
  let (regCont, statusByte, w) ← I2CReadBytewithWriteByte READ_REGISTER READ_MAX30101 regAddr w
  return (regCont, statusByte, w)

/-- Function `writeRegisterMAX30101`: returns the status and the world. -/
def writeRegisterMAX30101 (regAddr regVal : Nat) (w : World) : Except Fault (Nat × World) := do
  let (status, w) ← I2CWrite2Bytes WRITE_REGISTER WRITE_MAX30101 regAddr regVal w
  return (status, w)


/-! ## Library operations of `bio_sensor.c`: structured reads

Local arrays that the source leaves uninitialised start as zeros here;
`I2CReadFillArray` assigns each of their elements before any of them is read.
The globals `userOutputMode` and `userAlgoMode` are parameters of the
operations that read them. -/

/-- Conversion to `uint8_t`. -/
def toUInt8 (x : Nat) : Nat := x % 256

/-- Conversion to `uint32_t`. -/
def toUInt32 (x : Nat) : Nat := x % 4294967296

/-- Conversion of a `uint8_t` to `int8_t` (two's complement). -/
def toInt8 (x : Nat) : Int := if x % 256 < 128 then (x % 256 : Nat) else (x % 256 : Nat) - 256

/-- Type `struct version`. -/
structure version where
  major : Nat
  minor : Nat
  revision : Nat
  deriving DecidableEq

/-- Type `struct sensorAttr`. -/
structure sensorAttr where
  byteWord : Nat
  availRegisters : Nat
  deriving DecidableEq

/-- Type `struct bioData`, without the two reserve bytes, which the library
never assigns. -/
structure bioData where
  irLed : Nat
  redLed : Nat
  heartRate : Nat
  confidence : Nat
  oxygen : Nat
  status : Nat
  rValue : float
  extStatus : Int
  deriving DecidableEq

/-- The eight assignments `x.irLed = 0; x.redLed = 0; x.heartRate = 0;
x.confidence = 0; x.oxygen = 0; x.status = 0; x.rValue = 0.00;
x.extStatus = 0;` of the readers. -/
def allZero : bioData :=
  { irLed := 0, redLed := 0, heartRate := 0, confidence := 0, oxygen := 0, status := 0,
    rValue := 0, extStatus := 0 }

/-- Function `readSensorHubVersion`: returns the version, `*statusByte` and
the world. -/
def readSensorHubVersion (w : World) : Except Fault (version × Nat × World) := do
  let versionArray := List.replicate 3 0
  let (readStatus, versionArray, w) ←
    I2CReadFillArray IDENTITY READ_SENSOR_HUB_VERS 3 versionArray w
  if readStatus != SUCCESS then
    return ({ major := 0, minor := 0, revision := 0 }, readStatus, w)
  else
    return ({ major := ← rd versionArray 0, minor := ← rd versionArray 1,
              revision := ← rd versionArray 2 }, SUCCESS, w)

/-- Function `readAlgorithmVersion`: returns the version, `*statusByte` and
the world. -/
def readAlgorithmVersion (w : World) : Except Fault (version × Nat × World) := do
  let versionArray := List.replicate 3 0
  let (readStatus, versionArray, w) ← I2CReadFillArray IDENTITY READ_ALGO_VERS 3 versionArray w
  if readStatus != 0 then
    return ({ major := 0, minor := 0, revision := 0 }, readStatus, w)
  else
    return ({ major := ← rd versionArray 0, minor := ← rd versionArray 1,
              revision := ← rd versionArray 2 }, SUCCESS, w)

/-- Function `readBootloaderVersion`: returns the version, `*statusByte` and
the world. -/
def readBootloaderVersion (w : World) : Except Fault (version × Nat × World) := do
  let versionArray := List.replicate 3 0
  let (readStatus, versionArray, w) ←
    I2CReadFillArray BOOTLOADER_INFO BOOTLOADER_VERS 3 versionArray w
  if readStatus != 0 then
    return ({ major := 0, minor := 0, revision := 0 }, readStatus, w)
  else
    return ({ major := ← rd versionArray 0, minor := ← rd versionArray 1,
              revision := ← rd versionArray 2 }, SUCCESS, w)

/-- Function `readADCSampleRate`: returns the sample rate or `ERR_UNKNOWN`,
`*statusByte` and the world. -/
def readADCSampleRate (w : World) : Except Fault (Nat × Nat × World) := do
  let (regVal, statusByte, w) ← readRegisterMAX30101 CONFIGURATION_REGISTER w
  let regVal := toUInt8 (regVal &&& READ_SAMP_MASK)
  let regVal := toUInt8 (regVal >>> 2)
  if statusByte != 0 then
    return (ERR_UNKNOWN, statusByte, w)
  else if regVal == 0 then return (50, statusByte, w)
  else if regVal == 1 then return (100, statusByte, w)
  else if regVal == 2 then return (200, statusByte, w)
  else if regVal == 3 then return (400, statusByte, w)
  else if regVal == 4 then return (800, statusByte, w)
  else if regVal == 5 then return (1000, statusByte, w)
  else if regVal == 6 then return (1600, statusByte, w)
  else if regVal == 7 then return (3200, statusByte, w)
  else return (ERR_UNKNOWN, statusByte, w)

/-- Function `readADCRange`: returns the range or `ERR_UNKNOWN`, `*statusByte`
and the world. -/
def readADCRange (w : World) : Except Fault (Nat × Nat × World) := do
  let (regVal, statusByte, w) ← readRegisterMAX30101 CONFIGURATION_REGISTER w
  let regVal := toUInt8 (regVal &&& READ_ADC_MASK)
  let regVal := toUInt8 (regVal >>> 5)
  if statusByte != 0 then
    return (ERR_UNKNOWN, statusByte, w)
  else if regVal == 0 then return (2048, statusByte, w)
  else if regVal == 1 then return (4096, statusByte, w)
  else if regVal == 2 then return (8192, statusByte, w)
  else if regVal == 3 then return (16384, statusByte, w)
  else return (ERR_UNKNOWN, statusByte, w)

/-- Function `readPulseWidth`: returns the pulse width or `ERR_UNKNOWN`,
`*statusByte` and the world. -/
def readPulseWidth (w : World) : Except Fault (Nat × Nat × World) := do
  let (regVal, statusByte, w) ← readRegisterMAX30101 CONFIGURATION_REGISTER w
  let regVal := toUInt8 (regVal &&& READ_PULSE_MASK)
  if statusByte != 0 then
    return (ERR_UNKNOWN, statusByte, w)
  else if regVal == 0 then return (69, statusByte, w)
  else if regVal == 1 then return (118, statusByte, w)
  else if regVal == 2 then return (215, statusByte, w)
  else if regVal == 3 then return (411, statusByte, w)
  else return (ERR_UNKNOWN, statusByte, w)

/-- Function `readPulseAmp`: returns `SUCCESS` or `ERR_UNKNOWN`, the array
`ledArray` points to, `*statusByte` and the world. -/
def readPulseAmp (ledArray : List Nat) (w : World) :
    Except Fault (Nat × List Nat × Nat × World) := do
  let success := 0x00
  let (regVal, statusByte, w) ← readRegisterMAX30101 LED1_REGISTER w
  if statusByte != 0 then
    let ledArray ← wr ledArray 0 0
    return (ERR_UNKNOWN, ledArray, statusByte, w)
  else
    let ledArray ← wr ledArray 0 regVal
    let success := toUInt8 (success ||| regVal)
    let (regVal, statusByte, w) ← readRegisterMAX30101 LED2_REGISTER w
    if statusByte != 0 then
      let ledArray ← wr ledArray 1 0
      return (ERR_UNKNOWN, ledArray, statusByte, w)
    else
      let ledArray ← wr ledArray 1 regVal
      let success := toUInt8 (success ||| regVal)
      let (regVal, statusByte, w) ← readRegisterMAX30101 LED3_REGISTER w
      if statusByte != 0 then
        let ledArray ← wr ledArray 2 0
        return (ERR_UNKNOWN, ledArray, statusByte, w)
      else
        let ledArray ← wr ledArray 2 regVal
        let success := toUInt8 (success ||| regVal)
        let (regVal, statusByte, w) ← readRegisterMAX30101 LED4_REGISTER w
        if statusByte != 0 then
          let ledArray ← wr ledArray 3 0
          return (ERR_UNKNOWN, ledArray, statusByte, w)
        else
          let ledArray ← wr ledArray 3 regVal
          let success := toUInt8 (success ||| regVal)
          if success != 0 then
            return (SUCCESS, ledArray, statusByte, w)
          else
            return (ERR_UNKNOWN, ledArray, statusByte, w)

/-- Function `readMAX30101Mode`: returns the mode or `ERR_UNKNOWN`,
`*statusByte` and the world. -/
def readMAX30101Mode (w : World) : Except Fault (Nat × Nat × World) := do
  let (regVal, statusByte, w) ← readRegisterMAX30101 MODE_REGISTER w
  let regVal := toUInt8 (regVal &&& READ_MODE_MASK)
  if statusByte != 0 then
    return (ERR_UNKNOWN, statusByte, w)
  else if regVal == 2 then return (2, statusByte, w)
  else if regVal == 3 then return (3, statusByte, w)
  else if regVal == 7 then return (7, statusByte, w)
  else return (ERR_UNKNOWN, statusByte, w)

/-- Function `getAfeAttributesMAX30101`: returns the attributes,
`*statusByte` and the world. -/
def getAfeAttributesMAX30101 (w : World) : Except Fault (sensorAttr × Nat × World) := do
  let tempArray := [0, 0]
  let (status, tempArray, w) ←
    I2CReadFillArray READ_ATTRIBUTES_AFE RETRIEVE_AFE_MAX30101 2 tempArray w
  if status != SUCCESS then
    return ({ byteWord := 0, availRegisters := 0 }, status, w)
  else
    return ({ byteWord := ← rd tempArray 0, availRegisters := ← rd tempArray 1 }, status, w)

/-- Function `getAfeAttributesAccelerometer`: returns the attributes,
`*statusByte` and the world. -/
def getAfeAttributesAccelerometer (w : World) : Except Fault (sensorAttr × Nat × World) := do
  let tempArray := [0, 0]
  let (statusByte, tempArray, w) ←
    I2CReadFillArray READ_ATTRIBUTES_AFE RETRIEVE_AFE_ACCELEROMETER 2 tempArray w
  if statusByte != SUCCESS then
    return ({ byteWord := 0, availRegisters := 0 }, statusByte, w)
  else
    return ({ byteWord := ← rd tempArray 0, availRegisters := ← rd tempArray 1 },
            statusByte, w)

/-- Function `getExtAccelMode`: returns the accelerometer mode or
`ERR_UNKNOWN`, `*statusByte` and the world. -/
def getExtAccelMode (w : World) : Except Fault (Nat × Nat × World) := do
  let modeArray := [0, 0]
  let (statusByte, modeArray, w) ←
    I2CReadFillArray READ_SENSOR_MODE READ_ENABLE_ACCELEROMETER 2 modeArray w
  if (← rd modeArray 0) == 0 && (← rd modeArray 1) == 0 then return (0, statusByte, w)
  else if (← rd modeArray 0) == 0 && (← rd modeArray 1) == 1 then return (1, statusByte, w)
  else if (← rd modeArray 0) == 1 && (← rd modeArray 1) == 0 then return (2, statusByte, w)
  else if (← rd modeArray 0) == 1 && (← rd modeArray 1) == 1 then return (3, statusByte, w)
  else return (ERR_UNKNOWN, statusByte, w)

/-- Function `readRawData`: returns the data, `*statusByte` and the world.
The global `userOutputMode` is a parameter. The array `sensorData` is not
initialised in the source; `I2CReadFillArray` assigns each of its elements. -/
def readRawData (userOutputMode : Nat) (w : World) : Except Fault (bioData × Nat × World) := do
  if userOutputMode != SENSOR_DATA then
    return (allZero, INCORR_PARAM, w)
  else
    let sensorData := List.replicate MAX30101_LED_ARRAY 0
    let (fillArrayStatusByte, sensorData, w) ←
      I2CReadFillArray READ_DATA_OUTPUT READ_DATA MAX30101_LED_ARRAY sensorData w
    if fillArrayStatusByte != SUCCESS then
      return (allZero, fillArrayStatusByte, w)
    else
      let irLed := toUInt32 (toUInt32 (← rd sensorData 0) <<< 16)
      let irLed := toUInt32 (irLed ||| toUInt32 (toUInt32 (← rd sensorData 1) <<< 8))
      let irLed := toUInt32 (irLed ||| toUInt32 (← rd sensorData 2))
      let redLed := toUInt32 (toUInt32 (← rd sensorData 3) <<< 16)
      let redLed := toUInt32 (redLed ||| toUInt32 (toUInt32 (← rd sensorData 4) <<< 8))
      let redLed := toUInt32 (redLed ||| toUInt32 (← rd sensorData 5))
      return ({ irLed := irLed, redLed := redLed, heartRate := 0, confidence := 0, oxygen := 0,
                status := 0, rValue := 0, extStatus := 0 }, fillArrayStatusByte, w)

/-- Function `readAlgoData`: returns the data, `*statusByte` and the world.
The globals `userOutputMode` and `userAlgoMode` are parameters. -/
def readAlgoData (userOutputMode userAlgoMode : Nat) (w : World) :
    Except Fault (bioData × Nat × World) := do
  if userOutputMode != ALGO_DATA then
    return (allZero, INCORR_PARAM, w)
  else if userAlgoMode == MODE_ONE then
    let sensorData := List.replicate MAXFAST_ARRAY_SIZE 0
    let (fillArrayStatusByte, sensorData, w) ←
      I2CReadFillArray READ_DATA_OUTPUT READ_DATA MAXFAST_ARRAY_SIZE sensorData w
    if fillArrayStatusByte != 0 then
      return (allZero, fillArrayStatusByte, w)
    else
      let heartRate := toUInt16 (toUInt16 (← rd sensorData 0) <<< 8)
      let heartRate := toUInt16 (heartRate ||| (← rd sensorData 1))
      let heartRate := toUInt16 (heartRate / 10)
      let confidence ← rd sensorData 2
      let oxygen := toUInt16 (toUInt16 (← rd sensorData 3) <<< 8)
      let oxygen := toUInt16 (oxygen ||| (← rd sensorData 4))
      let oxygen := toUInt16 (oxygen / 10)
      let status ← rd sensorData 5
      return ({ irLed := 0, redLed := 0, heartRate := heartRate,
                confidence := confidence, oxygen := oxygen, status := status,
                rValue := 0, extStatus := 0 }, fillArrayStatusByte, w)
  else if userAlgoMode == MODE_TWO then
    let sensorData := List.replicate (MAXFAST_ARRAY_SIZE + MAXFAST_EXTENDED_DATA) 0
    let (fillArrayStatusByte, sensorData, w) ←
      I2CReadFillArray READ_DATA_OUTPUT READ_DATA (MAXFAST_ARRAY_SIZE + MAXFAST_EXTENDED_DATA)
        sensorData w
    if fillArrayStatusByte != 0 then
      return (allZero, fillArrayStatusByte, w)
    else
      let heartRate := toUInt16 (toUInt16 (← rd sensorData 0) <<< 8)
      let heartRate := toUInt16 (heartRate ||| (← rd sensorData 1))
      let heartRate := toUInt16 (heartRate / 10)
      let confidence ← rd sensorData 2
      let oxygen := toUInt16 (toUInt16 (← rd sensorData 3) <<< 8)
      let oxygen := toUInt16 (oxygen ||| (← rd sensorData 4))
      let oxygen := toUInt16 (oxygen / 10)
      let status ← rd sensorData 5
      let tempVal := toUInt16 (toUInt16 (← rd sensorData 6) <<< 8)
      let tempVal := toUInt16 (tempVal ||| (← rd sensorData 7))
      let rValue : float := floatOfUInt tempVal
      let rValue : float := floatDivTen rValue
      let extStatus := toInt8 (← rd sensorData 8)
      return ({ irLed := 0, redLed := 0, heartRate := heartRate,
                confidence := confidence, oxygen := oxygen, status := status,
                rValue := rValue, extStatus := extStatus }, fillArrayStatusByte, w)
  else
    return (allZero, INCORR_PARAM, w)

/-- Function `readRawAndAlgoData`: returns the data, `*statusByte` and the
world. The globals `userOutputMode` and `userAlgoMode` are parameters. -/
def readRawAndAlgoData (userOutputMode userAlgoMode : Nat) (w : World) :
    Except Fault (bioData × Nat × World) := do
  if userOutputMode != SENSOR_AND_ALGORITHM then
    return (allZero, INCORR_PARAM, w)
  else if userAlgoMode == MODE_ONE then
    let sensorData := List.replicate (MAX30101_LED_ARRAY + MAXFAST_ARRAY_SIZE) 0
    let (fillArrayStatusByte, sensorData, w) ←
      I2CReadFillArray READ_DATA_OUTPUT READ_DATA (MAX30101_LED_ARRAY + MAXFAST_ARRAY_SIZE)
        sensorData w
    if fillArrayStatusByte != 0 then
      return (allZero, fillArrayStatusByte, w)
    else
      let irLed := toUInt32 (toUInt32 (← rd sensorData 0) <<< 16)
      let irLed := toUInt32 (irLed ||| toUInt32 (toUInt32 (← rd sensorData 1) <<< 8))
      let irLed := toUInt32 (irLed ||| toUInt32 (← rd sensorData 2))
      let redLed := toUInt32 (toUInt32 (← rd sensorData 3) <<< 16)
      let redLed := toUInt32 (redLed ||| toUInt32 (toUInt32 (← rd sensorData 4) <<< 8))
      let redLed := toUInt32 (redLed ||| toUInt32 (← rd sensorData 5))
      let heartRate := toUInt16 (toUInt16 (← rd sensorData 12) <<< 8)
      let heartRate := toUInt16 (heartRate ||| (← rd sensorData 13))
      let heartRate := toUInt16 (heartRate / 10)
      let confidence ← rd sensorData 14
      let oxygen := toUInt16 (toUInt16 (← rd sensorData 15) <<< 8)
      let oxygen := toUInt16 (oxygen ||| (← rd sensorData 16))
      let oxygen := toUInt16 (oxygen / 10)
      let status ← rd sensorData 17
      return ({ irLed := irLed, redLed := redLed, heartRate := heartRate,
                confidence := confidence, oxygen := oxygen, status := status,
                rValue := 0, extStatus := 0 }, fillArrayStatusByte, w)
  else if userAlgoMode == MODE_TWO then
    let sensorData :=
      List.replicate (MAX30101_LED_ARRAY + MAXFAST_ARRAY_SIZE + MAXFAST_EXTENDED_DATA) 0
    let (fillArrayStatusByte, sensorData, w) ←
      I2CReadFillArray READ_DATA_OUTPUT READ_DATA
        (MAX30101_LED_ARRAY + MAXFAST_ARRAY_SIZE + MAXFAST_EXTENDED_DATA) sensorData w
    if fillArrayStatusByte != 0 then
      return (allZero, fillArrayStatusByte, w)
    else
      let irLed := toUInt32 (toUInt32 (← rd sensorData 0) <<< 16)
      let irLed := toUInt32 (irLed ||| toUInt32 (toUInt32 (← rd sensorData 1) <<< 8))
      let irLed := toUInt32 (irLed ||| toUInt32 (← rd sensorData 2))
      let redLed := toUInt32 (toUInt32 (← rd sensorData 3) <<< 16)
      let redLed := toUInt32 (redLed ||| toUInt32 (toUInt32 (← rd sensorData 4) <<< 8))
      let redLed := toUInt32 (redLed ||| toUInt32 (← rd sensorData 5))
      let heartRate := toUInt16 (toUInt16 (← rd sensorData 12) <<< 8)
      let heartRate := toUInt16 (heartRate ||| (← rd sensorData 13))
      let heartRate := toUInt16 (heartRate / 10)
      let confidence ← rd sensorData 14
      let oxygen := toUInt16 (toUInt16 (← rd sensorData 15) <<< 8)
      let oxygen := toUInt16 (oxygen ||| (← rd sensorData 16))
      let oxygen := toUInt16 (oxygen / 10)
      let status ← rd sensorData 17
      let tempVal := toUInt16 (toUInt16 (← rd sensorData 18) <<< 8)
      let tempVal := toUInt16 (tempVal ||| (← rd sensorData 19))
      let rValue : float := floatOfUInt tempVal
      let rValue : float := floatDivTen rValue
      let extStatus := toInt8 (← rd sensorData 20)
      return ({ irLed := irLed, redLed := redLed, heartRate := heartRate,
                confidence := confidence, oxygen := oxygen, status := status,
                rValue := rValue, extStatus := extStatus }, fillArrayStatusByte, w)
  else
    return (allZero, INCORR_PARAM, w)

/-- Function `readSensorData`: returns the data, `*statusByte` and the world.
The globals `userOutputMode` and `userAlgoMode` are parameters. -/
def readSensorData (userOutputMode userAlgoMode : Nat) (w : World) :
    Except Fault (bioData × Nat × World) := do
  let (statusChauf, statusByte, w) ← readSensorHubStatus w
  if statusChauf &&& 0x01 != 0 then
    return (allZero, ERR_UNKNOWN, w)
  else if statusByte != SUCCESS then
    return (allZero, statusByte, w)
  else
    let (_, statusByte, w) ← numSamplesOutFifo w
    if statusByte != SUCCESS then
      return (allZero, statusByte, w)
    else if userOutputMode == SENSOR_DATA then
      let (libData, statusByte, w) ← readRawData userOutputMode w
      if statusByte != SUCCESS then
        return (allZero, statusByte, w)
      else
        return (libData, statusByte, w)
    else if userOutputMode == ALGO_DATA then
      let (libData, statusByte, w) ← readAlgoData userOutputMode userAlgoMode w
      if statusByte != SUCCESS then
        return (allZero, statusByte, w)
      else
        return (libData, statusByte, w)
    else if userOutputMode == SENSOR_AND_ALGORITHM then
      let (libData, statusByte, w) ← readRawAndAlgoData userOutputMode userAlgoMode w
      if statusByte != SUCCESS then
        return (allZero, statusByte, w)
      else
        return (libData, statusByte, w)
    else
      return (allZero, INCORR_PARAM, w)

/-! ## Library operations of `bio_sensor.c`: configuration and reset -/

/-- Global variables of `bio_sensor.c`. -/
structure Globals where
  userAlgoMode : Nat
  userOutputMode : Nat
  sampleNum : Nat
  deriving DecidableEq

/-- Initial values of the globals: `userAlgoMode` and `userOutputMode` have no
initialiser, `sampleNum` starts at 100. -/
def initialGlobals : Globals := { userAlgoMode := 0, userOutputMode := 0, sampleNum := 100 }

/-- Function `configMAX32664`: returns the status, the globals and the world. -/
def configMAX32664 (outputFormat algoMode intThresh : Nat) (g : Globals) (w : World) :
    Except Fault (Nat × Globals × World) := do
  if outputFormat != ALGO_DATA && outputFormat != SENSOR_DATA
      && outputFormat != SENSOR_AND_ALGORITHM then
    return (INCORR_PARAM, g, w)
  else
    let g := { g with userOutputMode := outputFormat }
    let w := usleep 20000 w
    if algoMode != MODE_ONE && algoMode != MODE_TWO then
      return (INCORR_PARAM, g, w)
    else
      let g := { g with userAlgoMode := algoMode }
      let w := usleep 20000 w
      let (statusChauf, w) ← setOutputMode outputFormat w
      if statusChauf != SUCCESS then
        return (statusChauf, g, w)
      else
        let w := usleep 20000 w
        let (statusChauf, w) ← setFifoThreshold intThresh w
        if statusChauf != SUCCESS then
          return (statusChauf, g, w)
        else
          let w := usleep 20000 w
          let (statusChauf, w) ← agcAlgoControl ENABLE w
          if statusChauf != SUCCESS then
            return (statusChauf, g, w)
          else
            let w := usleep 20000 w
            let (statusChauf, w) ← max30101Control ENABLE w
            if statusChauf != SUCCESS then
              return (statusChauf, g, w)
            else
              let w := usleep 20000 w
              let (statusChauf, w) ← maximFastAlgoControl algoMode w
              if statusChauf != SUCCESS then
                return (statusChauf, g, w)
              else
                let w := usleep 20000 w
                let (samples, statusChauf, w) ← readAlgoSamples w
                let g := { g with sampleNum := samples }
                if statusChauf != SUCCESS then
                  return (statusChauf, g, w)
                else
                  return (SUCCESS, g, w)

/-- Function `softwareResetMAX32664`: returns the status and the world. -/
def softwareResetMAX32664 (w : World) : Except Fault (Nat × World) := do
  let (_, statusByte, w) ← setDeviceMode RESET w
  if statusByte != SUCCESS then
    return (statusByte, w)
  else
    let w := usleep 10000 w
    let (mode, statusByte, w) ← setDeviceMode EXIT_BOOTLOADER w
    if statusByte != SUCCESS then
      return (statusByte, w)
    else
      let w := sleep 2 w
      if mode != EXIT_BOOTLOADER then
        return (ERR_UNKNOWN, w)
      else
        return (SUCCESS, w)

/-- Function `softwareResetMAX30101`: returns the status and the world. -/
def softwareResetMAX30101 (w : World) : Except Fault (Nat × World) := do
  let (regVal, statusByte, w) ← readRegisterMAX30101 MODE_REGISTER w
  let regVal := toUInt8 (regVal &&& RESET_MASK)
  let regVal := toUInt8 (regVal ||| SET_RESET_BIT)
  if statusByte != SUCCESS then
    return (statusByte, w)
  else
    let (statusByte, w) ← writeRegisterMAX30101 MODE_REGISTER regVal w
    if statusByte != SUCCESS then
      return (statusByte, w)
    else
      let w := sleep 2 w
      return (SUCCESS, w)

/-- Function `beginI2C`: returns the mode or `ERR_UNKNOWN`, `*statusByte` and
the world. The bus handle the function stores is the bus of the world. -/
def beginI2C (w : World) : Except Fault (Nat × Nat × World) := do
  let (mode, statusByte, w) ← readDeviceMode w
  if statusByte != SUCCESS then
    return (ERR_UNKNOWN, statusByte, w)
  else
    let (mode, statusByte, w) ←
      if mode == RESET || mode == ENTER_BOOTLOADER then do
        let (mode, statusByte, w) ← setDeviceMode EXIT_BOOTLOADER w
        let w := sleep 2 w
        pure (mode, statusByte, w)
      else
        pure (mode, statusByte, w)
    if statusByte != SUCCESS then
      return (ERR_UNKNOWN, statusByte, w)
    else
      return (mode, statusByte, w)

/-! ## Calls of the public operations -/

/-- A call of one of the functions declared in `bio_sensor.h`, with its
arguments; an array argument is the array the pointer refers to. -/
inductive Call where
  | configMAX32664 (outputFormat algoMode intThresh : Nat)
  | beginI2C
  | readSensorData
  | readRawData
  | readAlgoData
  | readRawAndAlgoData
  | softwareResetMAX32664
  | softwareResetMAX30101
  | setOutputMode (outputType : Nat)
  | setFifoThreshold (intThresh : Nat)
  | numSamplesOutFifo
  | agcAlgoControl (enable : Nat)
  | max30101Control (senSwitch : Nat)
  | readMAX30101State
  | maximFastAlgoControl (mode : Nat)
  | readDeviceMode
  | setDeviceMode (operatingMode : Nat)
  | readSensorHubStatus
  | readAlgoSamples
  | readAlgoRange
  | readAlgoStepSize
  | readAlgoSensitivity
  | readAlgoSampleRate
  | readMaximFastCoef (coefArray : List Int)
  | readSensorHubVersion
  | readAlgorithmVersion
  | readBootloaderVersion
  | getMcuType
  | readADCSampleRate
  | readADCRange
  | readPulseWidth
  | readPulseAmp (ledArray : List Nat)
  | readMAX30101Mode
  | getAfeAttributesMAX30101
  | getAfeAttributesAccelerometer
  | getExtAccelMode
  | readRegisterMAX30101 (regAddr : Nat)
  | writeRegisterMAX30101 (regAddr regVal : Nat)
  | I2CReadByte (familyByte indexByte : Nat)
  | I2CReadBytewithWriteByte (familyByte indexByte dataByte : Nat)
  | I2CReadFillArray (familyByte indexByte arraySize : Nat) (arraytoFill : List Nat)
  | I2CReadInt (familyByte indexByte : Nat)
  | I2CReadIntWithWriteByte (familyByte indexByte writeByte : Nat)
  | I2CRead32BitValue (familyByte indexByte dataByte : Nat)
  | I2CReadMultiple32BitValues (familyByte indexByte dataByte numReads : Nat) (numArray : List Int)
  | I2CWriteByte (familyByte indexByte dataByte : Nat)
  | I2CWrite2Bytes (familyByte indexByte dataByte0 dataByte1 : Nat)
  | I2CenableWriteByte (familyByte indexByte dataByte : Nat)

/-- Effect of a call on the globals and the world. `configMAX32664` is the
only function with an assignment to `userOutputMode`, `userAlgoMode` or
`sampleNum`; the data readers read the two modes. -/
def perform : Call → Globals → World → Except Fault (Globals × World)
  | .configMAX32664 outputFormat algoMode intThresh, g, w => do
    let (_, g, w) ← configMAX32664 outputFormat algoMode intThresh g w
    return (g, w)
  | .beginI2C, g, w => do
    let (_, _, w) ← beginI2C w
    return (g, w)
  | .readSensorData, g, w => do
    let (_, _, w) ← readSensorData g.userOutputMode g.userAlgoMode w
    return (g, w)
  | .readRawData, g, w => do
    let (_, _, w) ← readRawData g.userOutputMode w
    return (g, w)
  | .readAlgoData, g, w => do
    let (_, _, w) ← readAlgoData g.userOutputMode g.userAlgoMode w
    return (g, w)
  | .readRawAndAlgoData, g, w => do
    let (_, _, w) ← readRawAndAlgoData g.userOutputMode g.userAlgoMode w
    return (g, w)
  | .softwareResetMAX32664, g, w => do
    let (_, w) ← softwareResetMAX32664 w
    return (g, w)
  | .softwareResetMAX30101, g, w => do
    let (_, w) ← softwareResetMAX30101 w
    return (g, w)
  | .setOutputMode outputType, g, w => do
    let (_, w) ← setOutputMode outputType w
    return (g, w)
  | .setFifoThreshold intThresh, g, w => do
    let (_, w) ← setFifoThreshold intThresh w
    return (g, w)
  | .numSamplesOutFifo, g, w => do
    let (_, _, w) ← numSamplesOutFifo w
    return (g, w)
  | .agcAlgoControl enable, g, w => do
    let (_, w) ← agcAlgoControl enable w
    return (g, w)
  | .max30101Control senSwitch, g, w => do
    let (_, w) ← max30101Control senSwitch w
    return (g, w)
  | .readMAX30101State, g, w => do
    let (_, _, w) ← readMAX30101State w
    return (g, w)
  | .maximFastAlgoControl mode, g, w => do
    let (_, w) ← maximFastAlgoControl mode w
    return (g, w)
  | .readDeviceMode, g, w => do
    let (_, _, w) ← readDeviceMode w
    return (g, w)
  | .setDeviceMode operatingMode, g, w => do
    let (_, _, w) ← setDeviceMode operatingMode w
    return (g, w)
  | .readSensorHubStatus, g, w => do
    let (_, _, w) ← readSensorHubStatus w
    return (g, w)
  | .readAlgoSamples, g, w => do
    let (_, _, w) ← readAlgoSamples w
    return (g, w)
  | .readAlgoRange, g, w => do
    let (_, _, w) ← readAlgoRange w
    return (g, w)
  | .readAlgoStepSize, g, w => do
    let (_, _, w) ← readAlgoStepSize w
    return (g, w)
  | .readAlgoSensitivity, g, w => do
    let (_, _, w) ← readAlgoSensitivity w
    return (g, w)
  | .readAlgoSampleRate, g, w => do
    let (_, _, w) ← readAlgoSampleRate w
    return (g, w)
  | .readMaximFastCoef coefArray, g, w => do
    let (_, _, w) ← readMaximFastCoef coefArray w
    return (g, w)
  | .readSensorHubVersion, g, w => do
    let (_, _, w) ← readSensorHubVersion w
    return (g, w)
  | .readAlgorithmVersion, g, w => do
    let (_, _, w) ← readAlgorithmVersion w
    return (g, w)
  | .readBootloaderVersion, g, w => do
    let (_, _, w) ← readBootloaderVersion w
    return (g, w)
  | .getMcuType, g, w => do
    let (_, _, w) ← getMcuType w
    return (g, w)
  | .readADCSampleRate, g, w => do
    let (_, _, w) ← readADCSampleRate w
    return (g, w)
  | .readADCRange, g, w => do
    let (_, _, w) ← readADCRange w
    return (g, w)
  | .readPulseWidth, g, w => do
    let (_, _, w) ← readPulseWidth w
    return (g, w)
  | .readPulseAmp ledArray, g, w => do
    let (_, _, _, w) ← readPulseAmp ledArray w
    return (g, w)
  | .readMAX30101Mode, g, w => do
    let (_, _, w) ← readMAX30101Mode w
    return (g, w)
  | .getAfeAttributesMAX30101, g, w => do
    let (_, _, w) ← getAfeAttributesMAX30101 w
    return (g, w)
  | .getAfeAttributesAccelerometer, g, w => do
    let (_, _, w) ← getAfeAttributesAccelerometer w
    return (g, w)
  | .getExtAccelMode, g, w => do
    let (_, _, w) ← getExtAccelMode w
    return (g, w)
  | .readRegisterMAX30101 regAddr, g, w => do
    let (_, _, w) ← readRegisterMAX30101 regAddr w
    return (g, w)
  | .writeRegisterMAX30101 regAddr regVal, g, w => do
    let (_, w) ← writeRegisterMAX30101 regAddr regVal w
    return (g, w)
  | .I2CReadByte familyByte indexByte, g, w => do
    let (_, _, w) ← I2CReadByte familyByte indexByte w
    return (g, w)
  | .I2CReadBytewithWriteByte familyByte indexByte dataByte, g, w => do
    let (_, _, w) ← I2CReadBytewithWriteByte familyByte indexByte dataByte w
    return (g, w)
  | .I2CReadFillArray familyByte indexByte arraySize arraytoFill, g, w => do
    let (_, _, w) ← I2CReadFillArray familyByte indexByte arraySize arraytoFill w
    return (g, w)
  | .I2CReadInt familyByte indexByte, g, w => do
    let (_, _, w) ← I2CReadInt familyByte indexByte w
    return (g, w)
  | .I2CReadIntWithWriteByte familyByte indexByte writeByte, g, w => do
    let (_, _, w) ← I2CReadIntWithWriteByte familyByte indexByte writeByte w
    return (g, w)
  | .I2CRead32BitValue familyByte indexByte dataByte, g, w => do
    let (_, _, w) ← I2CRead32BitValue familyByte indexByte dataByte w
    return (g, w)
  | .I2CReadMultiple32BitValues familyByte indexByte dataByte numReads numArray, g, w => do
    let (_, _, w) ← I2CReadMultiple32BitValues familyByte indexByte dataByte numReads numArray w
    return (g, w)
  | .I2CWriteByte familyByte indexByte dataByte, g, w => do
    let (_, w) ← I2CWriteByte familyByte indexByte dataByte w
    return (g, w)
  | .I2CWrite2Bytes familyByte indexByte dataByte0 dataByte1, g, w => do
    let (_, w) ← I2CWrite2Bytes familyByte indexByte dataByte0 dataByte1 w
    return (g, w)
  | .I2CenableWriteByte familyByte indexByte dataByte, g, w => do
    let (_, w) ← I2CenableWriteByte familyByte indexByte dataByte w
    return (g, w)

/-! ## Vocabulary of the statements -/

/-- Value of the 32-bit big-endian word `p0 p1 p2 p3`. -/
def be32 (p0 p1 p2 p3 : Nat) : Nat :=
  p0 * 2 ^ 24 + p1 * 2 ^ 16 + p2 * 2 ^ 8 + p3

/-- Two's complement reading of a 32-bit word `w`. -/
def twosComplement32 (w : Nat) : Int :=
  if w < 2 ^ 31 then (w : Int) else (w : Int) - 2 ^ 32

/-- Byte `j` of the response `data` of a read transfer, as the driver stores
it in the read buffer: byte 0 is the status byte, byte `1 + j` is byte `j` of
the payload. -/
def responseByte (data : List Nat) (j : Nat) : Nat := data.getD j 0 % 256

/-- Two's complement value of the `k`-th consecutive 4-byte big-endian group
after the status byte: response bytes `1 + 4k .. 4 + 4k`. -/
def decodedWord (data : List Nat) (k : Nat) : Int :=
  twosComplement32 (be32 (responseByte data (1 + 4 * k)) (responseByte data (2 + 4 * k))
    (responseByte data (3 + 4 * k)) (responseByte data (4 + 4 * k)))

/-- Encoder of the round-trip property: the 4-byte big-endian two's complement
encoding of a signed 32-bit integer, the bytes of `v mod 2^32`, most
significant first. -/
def encodeBE32 (v : Int) : List Nat :=
  [(v % 4294967296).toNat / 16777216 % 256, (v % 4294967296).toNat / 65536 % 256,
   (v % 4294967296).toNat / 256 % 256, (v % 4294967296).toNat % 256]

/-- Encoder of the round-trip property: the 2-byte big-endian encoding of an
unsigned 16-bit integer. -/
def encodeBE16 (u : Nat) : List Nat := [u / 256, u % 256]

/-- The two transfers and the sleep of a complete transaction, in order. -/
def cycle (written : List Nat) (usec : Nat) (readCount : Nat) : List Event :=
  [.transfer BIO_ADDRESS written 0, .sleep usec, .transfer BIO_ADDRESS [] readCount]

/-- Whether the bus completes the write transfer of the transaction that
starts in world `w`. -/
def writeOk (w : World) : Bool := (w.script.headD ⟨false, []⟩).ok

/-- Whether the bus completes the read transfer of the transaction that starts
in world `w`. -/
def readOk (w : World) : Bool := (w.script.tail.headD ⟨false, []⟩).ok

/-- Byte `j` of the response to the read transfer of the transaction that
starts in world `w`. -/
def txByte (w : World) (j : Nat) : Nat :=
  responseByte (w.script.tail.headD ⟨false, []⟩).data j

/-- Status of the transaction that starts in world `w`: `ERR_UNKNOWN` when one
of its transfers fails, the first response byte otherwise. -/
def txStatus (w : World) : Nat :=
  if writeOk w && readOk w then txByte w 0 else ERR_UNKNOWN

/-- World after the transaction that starts in world `w`: the write transfer,
the sleep and the read transfer when the write completes, the write transfer
alone when it fails. -/
def afterTransaction (written : List Nat) (usec readCount : Nat) (w : World) : World :=
  if writeOk w then
    { script := w.script.tail.tail, log := w.log ++ cycle written usec readCount }
  else
    { script := w.script.tail, log := w.log ++ [.transfer BIO_ADDRESS written 0] }

/-- Durations of the sleeps of a log, in order. -/
def sleepsOf : List Event → List Nat
  | [] => []
  | .transfer _ _ _ :: l => sleepsOf l
  | .sleep usec :: l => usec :: sleepsOf l

/-- Bus transfers of a log, in order. -/
def transfersOf : List Event → List Event
  | [] => []
  | .transfer a b c :: l => .transfer a b c :: transfersOf l
  | .sleep _ :: l => transfersOf l

/-- The first action of the run from world `w` to world `w1` is `e`. -/
def firstAdded (e : Event) (w w1 : World) : Prop :=
  ∃ l, w1.log = w.log ++ e :: l

/-- The run from world `w` to world `w1` is a write transfer, a sleep, and a
read transfer of no written byte and `readCount` read bytes, addressed to the
sensor hub. -/
def readPhase (readCount : Nat) (w w1 : World) : Prop :=
  ∃ written usec,
    w1.log = w.log ++ [.transfer BIO_ADDRESS written 0, .sleep usec,
                        .transfer BIO_ADDRESS [] readCount]

/-- The run from world `w` to world `w1` is one request/response cycle: at
most two transfers; the write, one sleep and the read when the bus completes
the write; the write alone when it does not. -/
def oneCycle (w w1 : World) : Prop :=
  transferCount w1.log ≤ transferCount w.log + 2 ∧
  (writeOk w = true →
    ∃ written usec readCount, w1.log = w.log ++ cycle written usec readCount) ∧
  (writeOk w = false → ∃ written, w1.log = w.log ++ [.transfer BIO_ADDRESS written 0])

/-- The run from world `w` to world `w1` adds to the log, when the bus
completes the write transfer, exactly three actions in this order: the write
transfer, a sleep of `usec` microseconds, and the read transfer, so that the
one sleep lies between the two transfers; when the bus does not complete the
write transfer, the run adds the write transfer alone and does not sleep. -/
def settlesBetween (usec : Nat) (w w1 : World) : Prop :=
  (writeOk w = true →
    ∃ written readCount,
      w1.log = w.log ++ [.transfer BIO_ADDRESS written 0, .sleep usec,
                          .transfer BIO_ADDRESS [] readCount]) ∧
  (writeOk w = false → ∃ written, w1.log = w.log ++ [.transfer BIO_ADDRESS written 0])

/-- One transaction with the settle interval `usec` leads from the world `w`
to the world `w1`: a write transfer and, if the bus completes it, a sleep of
`usec` microseconds and the read transfer. -/
def transactionWith (usec : Nat) (w w1 : World) : Prop :=
  ∃ written readCount, w1 = afterTransaction written usec readCount w

/-- A sequence of transactions, possibly empty, each with the settle interval
`usec`, and nothing else, leads from the world `w` to the world `w1`. -/
def transactionsWith (usec : Nat) (w w1 : World) : Prop :=
  Relation.ReflTransGen (transactionWith usec) w w1

/-- Byte `j` of the payload of the response of the transaction that starts in
world `w`: the response byte after the status byte and `j` more bytes. -/
def payloadByte (w : World) (j : Nat) : Nat := txByte w (1 + j)

/-- Value of the byte `b` read as an 8-bit two's complement number. -/
def twosComplement8 (b : Nat) : Int := if b < 128 then (b : Int) else (b : Int) - 256

/-- The globals `g` and the world `w` can be reached from the initial globals
and the world `w0` by a sequence of calls of the public operations. -/
inductive Reachable (w0 : World) : Globals → World → Prop where
  | start : Reachable w0 initialGlobals w0
  | call (c : Call) (g g1 : Globals) (w w1 : World) :
      Reachable w0 g w → perform c g w = .ok (g1, w1) → Reachable w0 g1 w1

/-- Values the two mode variables may hold. -/
def modesValid (g : Globals) : Prop :=
  (g.userOutputMode = 0 ∨ g.userOutputMode = 1 ∨ g.userOutputMode = 2 ∨ g.userOutputMode = 3) ∧
  (g.userAlgoMode = 0 ∨ g.userAlgoMode = 1 ∨ g.userAlgoMode = 2) ∧
  (g.userAlgoMode ≠ 0 → g.userOutputMode ≠ 0)

/-- Whether a call is a call of a library-level operation, not of one of the
ten transaction functions, with a caller array that holds the elements the
operation assigns: three coefficients, four LED amplitudes. -/
def libraryCall : Call → Bool
  | .I2CReadByte _ _ => false
  | .I2CReadBytewithWriteByte _ _ _ => false
  | .I2CReadFillArray _ _ _ _ => false
  | .I2CReadInt _ _ => false
  | .I2CReadIntWithWriteByte _ _ _ => false
  | .I2CRead32BitValue _ _ _ => false
  | .I2CReadMultiple32BitValues _ _ _ _ _ => false
  | .I2CWriteByte _ _ _ => false
  | .I2CWrite2Bytes _ _ _ _ => false
  | .I2CenableWriteByte _ _ _ => false
  | .readMaximFastCoef coefArray => decide (3 ≤ coefArray.length)
  | .readPulseAmp ledArray => decide (4 ≤ ledArray.length)
  | _ => true

/-! ## Machine arithmetic lemmas -/

theorem bits32_toInt32 (x : Int) : bits32 (toInt32 x) = bits32 x := by
  unfold bits32 toInt32
  split <;> congr 1 <;> omega

theorem bits32_natCast (n : Nat) : bits32 (n : Int) = n % 4294967296 := by
  unfold bits32
  omega

theorem bits32_castInt32 (n : Nat) : bits32 (castInt32 n) = n % 4294967296 := by
  unfold castInt32
  rw [bits32_toInt32, bits32_natCast]

theorem toInt32_natCast (n : Nat) (h : n < 4294967296) :
    toInt32 (n : Int) = twosComplement32 n := by
  unfold toInt32 twosComplement32
  norm_num
  split <;> split <;> omega

theorem or_mul_two_pow (a b i : Nat) : a * 2 ^ i ||| b * 2 ^ i = (a ||| b) * 2 ^ i := by
  apply Nat.eq_of_testBit_eq
  intro j
  simp only [Nat.testBit_or, Nat.mul_comm _ (2 ^ i), Nat.testBit_mul_pow_two]
  cases decide (j ≥ i) <;> simp

theorem mul_or_byte (a b : Nat) (h : b < 256) : a * 256 ||| b = a * 256 + b := by
  have e := Nat.mul_add_lt_is_or (i := 8) (b := b) (by simpa using h) a
  simp only [Nat.reducePow] at e
  rw [Nat.mul_comm a 256]
  exact e.symm

theorem or_bytes2 (p0 p1 : Nat) (h1 : p1 < 256) :
    p0 * 16777216 ||| p1 * 65536 = p0 * 16777216 + p1 * 65536 := by
  have e := or_mul_two_pow (p0 * 256) p1 16
  rw [mul_or_byte p0 p1 h1] at e
  simp only [Nat.reducePow] at e
  have c : p0 * 256 * 65536 = p0 * 16777216 := by omega
  rw [c] at e
  rw [e]
  omega

theorem or_bytes3 (p0 p1 p2 : Nat) (h2 : p2 < 256) :
    p0 * 16777216 + p1 * 65536 ||| p2 * 256 = p0 * 16777216 + p1 * 65536 + p2 * 256 := by
  have e := or_mul_two_pow (p0 * 65536 + p1 * 256) p2 8
  have m : p0 * 65536 + p1 * 256 = (p0 * 256 + p1) * 256 := by omega
  rw [m, mul_or_byte _ p2 h2] at e
  simp only [Nat.reducePow] at e
  have c : (p0 * 256 + p1) * 256 * 256 = p0 * 16777216 + p1 * 65536 := by omega
  rw [c] at e
  rw [e]
  omega

theorem or_bytes4 (p0 p1 p2 p3 : Nat) (h3 : p3 < 256) :
    p0 * 16777216 + p1 * 65536 + p2 * 256 ||| p3
      = p0 * 16777216 + p1 * 65536 + p2 * 256 + p3 := by
  have m : p0 * 16777216 + p1 * 65536 + p2 * 256 = (p0 * 65536 + p1 * 256 + p2) * 256 := by
    omega
  rw [m, mul_or_byte _ p3 h3]

theorem bits32_int32_or (a b : Int) :
    bits32 (int32_or a b) = (bits32 a ||| bits32 b) % 4294967296 := by
  unfold int32_or
  rw [bits32_toInt32, bits32_natCast]

theorem castInt32_byte (p : Nat) (h : p < 256) : castInt32 p = (p : Int) := by
  unfold castInt32 toInt32
  split <;> omega

theorem bits32_shl_byte (p k : Nat) (m : Nat) (hm : 2 ^ k = m) (hp : p < 256)
    (h : p * m < 4294967296) :
    bits32 (int32_shl (castInt32 p) k) = p * m := by
  unfold int32_shl
  rw [bits32_toInt32, castInt32_byte p hp]
  have e : (p : Int) * 2 ^ k = ((p * m : Nat) : Int) := by
    subst hm
    simp
  rw [e, bits32_natCast, Nat.mod_eq_of_lt h]

/-- The three shifts and ors of `I2CRead32BitValue` compute the two's
complement reading of the big-endian word. -/
theorem decode32 (p0 p1 p2 p3 : Nat) (h0 : p0 < 256) (h1 : p1 < 256) (h2 : p2 < 256)
    (h3 : p3 < 256) :
    int32_or (int32_or (int32_or (int32_shl (castInt32 p0) 24) (int32_shl (castInt32 p1) 16))
      (int32_shl (castInt32 p2) 8)) (castInt32 p3) = twosComplement32 (be32 p0 p1 p2 p3) := by
  have s0 : bits32 (int32_shl (castInt32 p0) 24) = p0 * 16777216 :=
    bits32_shl_byte p0 24 16777216 (by norm_num) h0 (by omega)
  have s1 : bits32 (int32_shl (castInt32 p1) 16) = p1 * 65536 :=
    bits32_shl_byte p1 16 65536 (by norm_num) h1 (by omega)
  have s2 : bits32 (int32_shl (castInt32 p2) 8) = p2 * 256 :=
    bits32_shl_byte p2 8 256 (by norm_num) h2 (by omega)
  have s3 : bits32 (castInt32 p3) = p3 := by
    rw [bits32_castInt32]; omega
  have v1 : bits32 (int32_or (int32_shl (castInt32 p0) 24) (int32_shl (castInt32 p1) 16))
      = p0 * 16777216 + p1 * 65536 := by
    rw [bits32_int32_or, s0, s1, or_bytes2 p0 p1 h1]; omega
  have v2 : bits32 (int32_or (int32_or (int32_shl (castInt32 p0) 24)
      (int32_shl (castInt32 p1) 16)) (int32_shl (castInt32 p2) 8))
      = p0 * 16777216 + p1 * 65536 + p2 * 256 := by
    rw [bits32_int32_or, v1, s2, or_bytes3 p0 p1 p2 h2]; omega
  have lt : p0 * 16777216 + p1 * 65536 + p2 * 256 + p3 < 4294967296 := by omega
  have e : be32 p0 p1 p2 p3 = p0 * 16777216 + p1 * 65536 + p2 * 256 + p3 := by
    unfold be32; norm_num
  rw [int32_or, v2, s3, or_bytes4 p0 p1 p2 p3 h3, toInt32_natCast _ lt, e]

/-- The shift and or of `I2CReadInt` compute the big-endian 16-bit value. -/
theorem decode16 (p0 p1 : Nat) (h0 : p0 < 256) (h1 : p1 < 256) :
    toUInt16 (toUInt16 (toUInt16 p0 <<< 8) ||| toUInt16 p1) = 256 * p0 + p1 := by
  unfold toUInt16
  rw [Nat.mod_eq_of_lt (by omega : p0 < 65536), Nat.mod_eq_of_lt (by omega : p1 < 65536),
    Nat.shiftLeft_eq]
  norm_num
  rw [Nat.mod_eq_of_lt (by omega : p0 * 256 < 65536), mul_or_byte p0 p1 h1]
  omega

/-! ## Buffers and loops -/

theorem rxFill_zero (buf data : List Nat) : rxFill buf data 0 = buf := by
  simp [rxFill]

theorem rxFill_length (buf data : List Nat) (n : Nat) :
    (rxFill buf data n).length = n + (buf.length - n) := by
  simp [rxFill]

theorem rd_rxFill (buf data : List Nat) (n j : Nat) (h : j < n) :
    rd (rxFill buf data n) j = .ok (responseByte data j) := by
  simp [rd, rxFill, responseByte, List.getElem?_append, h, List.getElem?_range]

theorem responseByte_lt (data : List Nat) (j : Nat) : responseByte data j < 256 := by
  unfold responseByte
  omega

theorem forLoop_succ {σ : Type} (n : Nat) (body : σ → Nat → Except Fault σ) (s : σ) :
    forLoop (n + 1) body s = (forLoop n body s).bind (fun s1 => body s1 n) := by
  simp only [forLoop, List.range_succ, List.foldlM_append, List.foldlM_cons, List.foldlM_nil,
    bind]
  congr
  funext s1
  cases body s1 n <;> rfl

theorem set_fill {α : Type} (f : Nat → α) (n : Nat) (arr : List α) (h : n < arr.length) :
    ((List.range n).map f ++ arr.drop n).set n (f n)
      = (List.range (n + 1)).map f ++ arr.drop (n + 1) := by
  rw [List.range_succ, List.map_append, List.append_assoc]
  simp only [List.set_append, List.length_map, List.length_range, Nat.lt_irrefl, if_false,
    Nat.sub_self, List.map_cons, List.map_nil]
  rw [List.drop_eq_getElem_cons h]
  rfl

/-- A loop whose iteration `i` stores `f i` in element `i` fills the first `n`
elements with `f 0 .. f (n - 1)` and leaves the others. -/
theorem forLoop_fill {α : Type} (f : Nat → α) (body : List α → Nat → Except Fault (List α))
    (arr : List α) :
    ∀ n : Nat, n ≤ arr.length →
      (∀ i, i < n → ∀ a : List α, a.length = arr.length → body a i = .ok (a.set i (f i))) →
      forLoop n body arr = .ok ((List.range n).map f ++ arr.drop n) := by
  intro n
  induction n with
  | zero => intro _ _; simp [forLoop, pure, Except.pure]
  | succ n ih =>
    intro hn hb
    rw [forLoop_succ, ih (by omega) (fun i hi a ha => hb i (by omega) a ha)]
    simp only [Except.bind]
    rw [hb n (by omega) _ (by simp; omega), set_fill f n arr (by omega)]

theorem forLoop_zero (n : Nat) (arr : List Nat) (h : n ≤ arr.length) :
    forLoop n (fun a i => wr a i 0) arr = .ok (List.replicate n 0 ++ arr.drop n) := by
  rw [forLoop_fill (fun _ => 0) _ arr n h]
  · simp
  · intro i hi a ha
    simp [wr]
    omega


theorem transferCount_append (l1 l2 : List Event) :
    transferCount (l1 ++ l2) = transferCount l1 + transferCount l2 := by
  induction l1 with
  | nil => simp [transferCount]
  | cons e l ih =>
    cases e with
    | transfer a b c => simp [transferCount, ih]; omega
    | sleep u => simp [transferCount, ih]


theorem forLoop_zero_int (n : Nat) (arr : List Int) (h : n ≤ arr.length) :
    forLoop n (fun a i => wr a i 0) arr = .ok (List.replicate n 0 ++ arr.drop n) := by
  rw [forLoop_fill (fun _ => 0) _ arr n h]
  · simp
  · intro i hi a ha
    simp [wr]
    omega


/-! ## Transfer failures -/

/-- Claim C1. Write-phase failure: when the bus reports a failure of the first
(write) transfer, each of the eight single-value operations reports
`ERR_UNKNOWN`, decodes the value 0 where it returns one, and leaves a world in
which exactly one event, the write transfer, was added to the log: no sleep
and no read transfer is issued. -/
theorem write_failure_reports_unknown (f i x y : Nat) (d : List Nat) (rest : List BusReply)
    (log : List Event) :
    I2CReadByte f i ⟨⟨false, d⟩ :: rest, log⟩
      = .ok (0, ERR_UNKNOWN, ⟨rest, log ++ [.transfer BIO_ADDRESS [f, i] 0]⟩) ∧
    I2CReadBytewithWriteByte f i x ⟨⟨false, d⟩ :: rest, log⟩
      = .ok (0, ERR_UNKNOWN, ⟨rest, log ++ [.transfer BIO_ADDRESS [f, i, x] 0]⟩) ∧
    I2CReadInt f i ⟨⟨false, d⟩ :: rest, log⟩
      = .ok (0, ERR_UNKNOWN, ⟨rest, log ++ [.transfer BIO_ADDRESS [f, i] 0]⟩) ∧
    I2CReadIntWithWriteByte f i x ⟨⟨false, d⟩ :: rest, log⟩
      = .ok (0, ERR_UNKNOWN, ⟨rest, log ++ [.transfer BIO_ADDRESS [f, i, x] 0]⟩) ∧
    I2CRead32BitValue f i x ⟨⟨false, d⟩ :: rest, log⟩
      = .ok (0, ERR_UNKNOWN, ⟨rest, log ++ [.transfer BIO_ADDRESS [f, i, x] 0]⟩) ∧
    I2CWriteByte f i x ⟨⟨false, d⟩ :: rest, log⟩
      = .ok (ERR_UNKNOWN, ⟨rest, log ++ [.transfer BIO_ADDRESS [f, i, x] 0]⟩) ∧
    I2CWrite2Bytes f i x y ⟨⟨false, d⟩ :: rest, log⟩
      = .ok (ERR_UNKNOWN, ⟨rest, log ++ [.transfer BIO_ADDRESS [f, i, x, y] 0]⟩) ∧
    I2CenableWriteByte f i x ⟨⟨false, d⟩ :: rest, log⟩
      = .ok (ERR_UNKNOWN, ⟨rest, log ++ [.transfer BIO_ADDRESS [f, i, x] 0]⟩) ∧
    ∀ written : List Nat,
      transferCount (log ++ [.transfer BIO_ADDRESS written 0]) = transferCount log + 1 := by
  refine ⟨?_, ?_, ?_, ?_, ?_, ?_, ?_, ?_, ?_⟩
  · simp [I2CReadByte, I2C_transfer, rxFill_zero, bind, Except.bind, pure, Except.pure]
  · simp [I2CReadBytewithWriteByte, I2C_transfer, rxFill_zero, bind, Except.bind, pure,
      Except.pure]
  · simp [I2CReadInt, I2C_transfer, rxFill_zero, bind, Except.bind, pure, Except.pure]
  · simp [I2CReadIntWithWriteByte, I2C_transfer, rxFill_zero, bind, Except.bind, pure,
      Except.pure]
  · simp [I2CRead32BitValue, I2C_transfer, rxFill_zero, bind, Except.bind, pure, Except.pure]
  · simp [I2CWriteByte, I2C_transfer, rxFill_zero, bind, Except.bind, pure, Except.pure]
  · simp [I2CWrite2Bytes, I2C_transfer, rxFill_zero, bind, Except.bind, pure, Except.pure]
  · simp [I2CenableWriteByte, I2C_transfer, rxFill_zero, bind, Except.bind, pure, Except.pure]
  · intro written
    rw [transferCount_append]
    rfl

/-- Claim C2. Read-phase failure: when the write transfer succeeds and the bus
reports a failure of the second (read) transfer, each of the eight
single-value operations reports `ERR_UNKNOWN` and decodes the value 0 where it
returns one, whatever bytes `d2` the failed transfer left in the receive
buffer. -/
theorem read_failure_reports_unknown (f i x y : Nat) (d1 d2 : List Nat)
    (rest : List BusReply) (log : List Event) :
    I2CReadByte f i ⟨⟨true, d1⟩ :: ⟨false, d2⟩ :: rest, log⟩
      = .ok (0, ERR_UNKNOWN, ⟨rest, log ++ cycle [f, i] 6000 2⟩) ∧
    I2CReadBytewithWriteByte f i x ⟨⟨true, d1⟩ :: ⟨false, d2⟩ :: rest, log⟩
      = .ok (0, ERR_UNKNOWN, ⟨rest, log ++ cycle [f, i, x] 6000 2⟩) ∧
    I2CReadInt f i ⟨⟨true, d1⟩ :: ⟨false, d2⟩ :: rest, log⟩
      = .ok (0, ERR_UNKNOWN, ⟨rest, log ++ cycle [f, i] 6000 3⟩) ∧
    I2CReadIntWithWriteByte f i x ⟨⟨true, d1⟩ :: ⟨false, d2⟩ :: rest, log⟩
      = .ok (0, ERR_UNKNOWN, ⟨rest, log ++ cycle [f, i, x] 6000 3⟩) ∧
    I2CRead32BitValue f i x ⟨⟨true, d1⟩ :: ⟨false, d2⟩ :: rest, log⟩
      = .ok (0, ERR_UNKNOWN, ⟨rest, log ++ cycle [f, i, x] 6000 5⟩) ∧
    I2CWriteByte f i x ⟨⟨true, d1⟩ :: ⟨false, d2⟩ :: rest, log⟩
      = .ok (ERR_UNKNOWN, ⟨rest, log ++ cycle [f, i, x] 6000 1⟩) ∧
    I2CWrite2Bytes f i x y ⟨⟨true, d1⟩ :: ⟨false, d2⟩ :: rest, log⟩
      = .ok (ERR_UNKNOWN, ⟨rest, log ++ cycle [f, i, x, y] 6000 1⟩) ∧
    I2CenableWriteByte f i x ⟨⟨true, d1⟩ :: ⟨false, d2⟩ :: rest, log⟩
      = .ok (ERR_UNKNOWN, ⟨rest, log ++ cycle [f, i, x] 50000 1⟩) := by
  refine ⟨?_, ?_, ?_, ?_, ?_, ?_, ?_, ?_⟩
  · simp [I2CReadByte, I2C_transfer, usleep, cycle, rxFill_zero, rxFill_length, bind,
      Except.bind, pure, Except.pure]
  · simp [I2CReadBytewithWriteByte, I2C_transfer, usleep, cycle, rxFill_zero, rxFill_length,
      bind, Except.bind, pure, Except.pure]
  · simp [I2CReadInt, I2C_transfer, usleep, cycle, rxFill_zero, rxFill_length, bind,
      Except.bind, pure, Except.pure]
  · simp [I2CReadIntWithWriteByte, I2C_transfer, usleep, cycle, rxFill_zero, rxFill_length,
      bind, Except.bind, pure, Except.pure]
  · simp [I2CRead32BitValue, I2C_transfer, usleep, cycle, rxFill_zero, rxFill_length, bind,
      Except.bind, pure, Except.pure]
  · simp [I2CWriteByte, I2C_transfer, usleep, cycle, rxFill_zero, rxFill_length, bind,
      Except.bind, pure, Except.pure]
  · simp [I2CWrite2Bytes, I2C_transfer, usleep, cycle, rxFill_zero, rxFill_length, bind,
      Except.bind, pure, Except.pure]
  · simp [I2CenableWriteByte, I2C_transfer, usleep, cycle, rxFill_zero, rxFill_length, bind,
      Except.bind, pure, Except.pure]


/-- Claim C3. Array results are never partially populated. For
`I2CReadFillArray` with `arraySize <= 23` and `I2CReadMultiple32BitValues`
with `numReads <= 3`, the caller's array holding at least that many elements:
when the write transfer fails, when the read transfer fails (whatever bytes
`d` it delivered), and when the response's status byte is not zero, the first
`arraySize` (resp. `numReads`) elements of the output array are all 0 (the
rest of the array is untouched); the return value is `ERR_UNKNOWN` after a
transfer failure and the status byte otherwise; after a failed write only the
write transfer is in the log. -/
theorem array_zeroed_on_failure (f i x arraySize numReads : Nat) (arraytoFill : List Nat)
    (numArray : List Int) (d d1 d2 : List Nat) (rest : List BusReply) (log : List Event)
    (hSize : arraySize ≤ 23) (hReads : numReads ≤ 3)
    (hArr : arraySize ≤ arraytoFill.length) (hNum : numReads ≤ numArray.length)
    (hs : responseByte d2 0 ≠ 0) :
    I2CReadFillArray f i arraySize arraytoFill ⟨⟨false, d⟩ :: rest, log⟩
      = .ok (ERR_UNKNOWN, List.replicate arraySize 0 ++ arraytoFill.drop arraySize,
             ⟨rest, log ++ [.transfer BIO_ADDRESS [f, i] 0]⟩) ∧
    I2CReadFillArray f i arraySize arraytoFill ⟨⟨true, d1⟩ :: ⟨false, d⟩ :: rest, log⟩
      = .ok (ERR_UNKNOWN, List.replicate arraySize 0 ++ arraytoFill.drop arraySize,
             ⟨rest, log ++ cycle [f, i] 6000 (1 + arraySize)⟩) ∧
    I2CReadFillArray f i arraySize arraytoFill ⟨⟨true, d1⟩ :: ⟨true, d2⟩ :: rest, log⟩
      = .ok (responseByte d2 0, List.replicate arraySize 0 ++ arraytoFill.drop arraySize,
             ⟨rest, log ++ cycle [f, i] 6000 (1 + arraySize)⟩) ∧
    I2CReadMultiple32BitValues f i x numReads numArray ⟨⟨false, d⟩ :: rest, log⟩
      = .ok (ERR_UNKNOWN, List.replicate numReads 0 ++ numArray.drop numReads,
             ⟨rest, log ++ [.transfer BIO_ADDRESS [f, i, x] 0]⟩) ∧
    I2CReadMultiple32BitValues f i x numReads numArray
        ⟨⟨true, d1⟩ :: ⟨false, d⟩ :: rest, log⟩
      = .ok (ERR_UNKNOWN, List.replicate numReads 0 ++ numArray.drop numReads,
             ⟨rest, log ++ cycle [f, i, x] 6000 (1 + 4 * numReads)⟩) ∧
    I2CReadMultiple32BitValues f i x numReads numArray
        ⟨⟨true, d1⟩ :: ⟨true, d2⟩ :: rest, log⟩
      = .ok (responseByte d2 0, List.replicate numReads 0 ++ numArray.drop numReads,
             ⟨rest, log ++ cycle [f, i, x] 6000 (1 + 4 * numReads)⟩) := by
  have b1 : ¬ (24 < 1 + arraySize) := by omega
  have b2 : ¬ (13 < 1 + 4 * numReads) := by omega
  have r1 : ∀ buf : List Nat, rd (rxFill buf d2 (1 + arraySize)) 0 = .ok (responseByte d2 0) :=
    fun buf => rd_rxFill buf d2 _ 0 (by omega)
  have r2 : ∀ buf : List Nat, rd (rxFill buf d2 (1 + 4 * numReads)) 0
      = .ok (responseByte d2 0) :=
    fun buf => rd_rxFill buf d2 _ 0 (by omega)
  refine ⟨?_, ?_, ?_, ?_, ?_, ?_⟩
  · simp [I2CReadFillArray, I2C_transfer, rxFill_zero, forLoop_zero _ _ hArr, bind,
      Except.bind, pure, Except.pure]
  · simp [I2CReadFillArray, I2C_transfer, usleep, cycle, rxFill_zero, b1,
      forLoop_zero _ _ hArr, bind, Except.bind, pure, Except.pure]
  · simp [I2CReadFillArray, I2C_transfer, usleep, cycle, rxFill_zero, b1, r1, hs,
      forLoop_zero _ _ hArr, bind, Except.bind, pure, Except.pure]
  · simp [I2CReadMultiple32BitValues, I2C_transfer, rxFill_zero, forLoop_zero_int _ _ hNum,
      bind, Except.bind, pure, Except.pure]
  · simp [I2CReadMultiple32BitValues, I2C_transfer, usleep, cycle, rxFill_zero, b2,
      forLoop_zero_int _ _ hNum, bind, Except.bind, pure, Except.pure]
  · simp [I2CReadMultiple32BitValues, I2C_transfer, usleep, cycle, rxFill_zero, b2, r2, hs,
      forLoop_zero_int _ _ hNum, bind, Except.bind, pure, Except.pure]

/-- Witness of `array_zeroed_on_failure`: a two byte array and a two word
array, status byte `ERR_TRY_AGAIN`. -/
theorem array_zeroed_on_failure_witness :
    I2CReadFillArray 0x02 0x00 2 [7, 8, 9] ⟨[⟨true, []⟩, ⟨true, [5, 1, 2]⟩], []⟩
      = .ok (5, [0, 0, 9], ⟨[], cycle [0x02, 0x00] 6000 3⟩) ∧
    I2CReadMultiple32BitValues 0x02 0x00 0x0B 2 [7, 8, 9]
        ⟨[⟨true, []⟩, ⟨false, []⟩], []⟩
      = .ok (0xFF, [0, 0, 9], ⟨[], cycle [0x02, 0x00, 0x0B] 6000 9⟩) :=
  have h := array_zeroed_on_failure 0x02 0x00 0x0B 2 2 [7, 8, 9] [7, 8, 9] [] [] [5, 1, 2] []
    [] (by decide) (by decide) (by decide) (by decide) (by decide)
  ⟨h.2.2.1, h.2.2.2.2.1⟩


/-! ## Status byte -/

/-- Claim C4. Hub-reported error short-circuits decoding: when both transfers
succeed and the first response byte is one of the defined non-success codes
(0x01..0x05, 0x80..0x83), each of the five value-returning operations returns
0, whatever the payload bytes are, and sets `*statusByte` to that byte. -/
theorem hub_error_short_circuits (f i x : Nat) (d1 d2 : List Nat) (rest : List BusReply)
    (log : List Event) (hs : responseByte d2 0 ∈ hubErrorCodes) :
    I2CReadByte f i ⟨⟨true, d1⟩ :: ⟨true, d2⟩ :: rest, log⟩
      = .ok (0, responseByte d2 0, ⟨rest, log ++ cycle [f, i] 6000 2⟩) ∧
    I2CReadBytewithWriteByte f i x ⟨⟨true, d1⟩ :: ⟨true, d2⟩ :: rest, log⟩
      = .ok (0, responseByte d2 0, ⟨rest, log ++ cycle [f, i, x] 6000 2⟩) ∧
    I2CReadInt f i ⟨⟨true, d1⟩ :: ⟨true, d2⟩ :: rest, log⟩
      = .ok (0, responseByte d2 0, ⟨rest, log ++ cycle [f, i] 6000 3⟩) ∧
    I2CReadIntWithWriteByte f i x ⟨⟨true, d1⟩ :: ⟨true, d2⟩ :: rest, log⟩
      = .ok (0, responseByte d2 0, ⟨rest, log ++ cycle [f, i, x] 6000 3⟩) ∧
    I2CRead32BitValue f i x ⟨⟨true, d1⟩ :: ⟨true, d2⟩ :: rest, log⟩
      = .ok (0, responseByte d2 0, ⟨rest, log ++ cycle [f, i, x] 6000 5⟩) := by
  have h0 : responseByte d2 0 ≠ 0 := by
    intro h
    rw [h] at hs
    simp [hubErrorCodes] at hs
  refine ⟨?_, ?_, ?_, ?_, ?_⟩
  · simp [I2CReadByte, I2C_transfer, usleep, cycle, rxFill_zero, rxFill_length, rd_rxFill, h0,
      bind, Except.bind, pure, Except.pure]
  · simp [I2CReadBytewithWriteByte, I2C_transfer, usleep, cycle, rxFill_zero, rxFill_length,
      rd_rxFill, h0, bind, Except.bind, pure, Except.pure]
  · simp [I2CReadInt, I2C_transfer, usleep, cycle, rxFill_zero, rxFill_length, rd_rxFill, h0,
      bind, Except.bind, pure, Except.pure]
  · simp [I2CReadIntWithWriteByte, I2C_transfer, usleep, cycle, rxFill_zero, rxFill_length,
      rd_rxFill, h0, bind, Except.bind, pure, Except.pure]
  · simp [I2CRead32BitValue, I2C_transfer, usleep, cycle, rxFill_zero, rxFill_length,
      rd_rxFill, h0, bind, Except.bind, pure, Except.pure]

/-- Witness of `hub_error_short_circuits`: status byte `ERR_BTLDR_CHECKSUM`
(0x81) in front of a non-zero payload. -/
theorem hub_error_short_circuits_witness :
    I2CReadInt 0x13 0x04 ⟨[⟨true, []⟩, ⟨true, [0x81, 0x01, 0xF4]⟩], []⟩
      = .ok (0, 0x81, ⟨[], cycle [0x13, 0x04] 6000 3⟩) :=
  (hub_error_short_circuits 0x13 0x04 0 [] [0x81, 0x01, 0xF4] [] [] (by decide)).2.2.1

/-- Claim C5, as stated, fails: the status byte 0x06 is outside the
enumeration, both transfers succeed, and `I2CReadByte` and `I2CWriteByte`
report the status 0x06, which is not `ERR_UNKNOWN`. -/
theorem unlisted_status_not_mapped_to_unknown :
    6 ∉ statusEnumeration ∧
    I2CReadByte 0x02 0x00 ⟨[⟨true, []⟩, ⟨true, [0x06, 0x2A]⟩], []⟩
      = .ok (0, 0x06, ⟨[], cycle [0x02, 0x00] 6000 2⟩) ∧
    I2CWriteByte 0x10 0x00 0x02 ⟨[⟨true, []⟩, ⟨true, [0x06]⟩], []⟩
      = .ok (0x06, ⟨[], cycle [0x10, 0x00, 0x02] 6000 1⟩) ∧
    (0x06 : Nat) ≠ ERR_UNKNOWN := by
  refine ⟨by decide, rfl, rfl, by decide⟩

/-- Claim C5, amended. For every codec operation, when both transfers succeed
and the first response byte is outside the enumeration {0x00..0x05,
0x80..0x83, 0xFF}, the status reported to the caller is that byte, unchanged,
and the decoded value is all-zero (for the two array operations: the first
`arraySize`, resp. `numReads`, elements, with `arraySize <= 23`,
`numReads <= 3` and the caller's array at least that long). -/
theorem unlisted_status_reported_verbatim (f i x y arraySize numReads : Nat)
    (arraytoFill : List Nat) (numArray : List Int) (d1 d2 : List Nat) (rest : List BusReply)
    (log : List Event) (hSize : arraySize ≤ 23) (hReads : numReads ≤ 3)
    (hArr : arraySize ≤ arraytoFill.length) (hNum : numReads ≤ numArray.length)
    (hs : responseByte d2 0 ∉ statusEnumeration) :
    I2CReadByte f i ⟨⟨true, d1⟩ :: ⟨true, d2⟩ :: rest, log⟩
      = .ok (0, responseByte d2 0, ⟨rest, log ++ cycle [f, i] 6000 2⟩) ∧
    I2CReadBytewithWriteByte f i x ⟨⟨true, d1⟩ :: ⟨true, d2⟩ :: rest, log⟩
      = .ok (0, responseByte d2 0, ⟨rest, log ++ cycle [f, i, x] 6000 2⟩) ∧
    I2CReadInt f i ⟨⟨true, d1⟩ :: ⟨true, d2⟩ :: rest, log⟩
      = .ok (0, responseByte d2 0, ⟨rest, log ++ cycle [f, i] 6000 3⟩) ∧
    I2CReadIntWithWriteByte f i x ⟨⟨true, d1⟩ :: ⟨true, d2⟩ :: rest, log⟩
      = .ok (0, responseByte d2 0, ⟨rest, log ++ cycle [f, i, x] 6000 3⟩) ∧
    I2CRead32BitValue f i x ⟨⟨true, d1⟩ :: ⟨true, d2⟩ :: rest, log⟩
      = .ok (0, responseByte d2 0, ⟨rest, log ++ cycle [f, i, x] 6000 5⟩) ∧
    I2CReadFillArray f i arraySize arraytoFill ⟨⟨true, d1⟩ :: ⟨true, d2⟩ :: rest, log⟩
      = .ok (responseByte d2 0, List.replicate arraySize 0 ++ arraytoFill.drop arraySize,
             ⟨rest, log ++ cycle [f, i] 6000 (1 + arraySize)⟩) ∧
    I2CReadMultiple32BitValues f i x numReads numArray
        ⟨⟨true, d1⟩ :: ⟨true, d2⟩ :: rest, log⟩
      = .ok (responseByte d2 0, List.replicate numReads 0 ++ numArray.drop numReads,
             ⟨rest, log ++ cycle [f, i, x] 6000 (1 + 4 * numReads)⟩) ∧
    I2CWriteByte f i x ⟨⟨true, d1⟩ :: ⟨true, d2⟩ :: rest, log⟩
      = .ok (responseByte d2 0, ⟨rest, log ++ cycle [f, i, x] 6000 1⟩) ∧
    I2CWrite2Bytes f i x y ⟨⟨true, d1⟩ :: ⟨true, d2⟩ :: rest, log⟩
      = .ok (responseByte d2 0, ⟨rest, log ++ cycle [f, i, x, y] 6000 1⟩) ∧
    I2CenableWriteByte f i x ⟨⟨true, d1⟩ :: ⟨true, d2⟩ :: rest, log⟩
      = .ok (responseByte d2 0, ⟨rest, log ++ cycle [f, i, x] 50000 1⟩) := by
  have h0 : responseByte d2 0 ≠ 0 := by
    intro h
    rw [h] at hs
    simp [statusEnumeration] at hs
  have b1 : ¬ (24 < 1 + arraySize) := by omega
  have b2 : ¬ (13 < 1 + 4 * numReads) := by omega
  have r1 : ∀ buf : List Nat, rd (rxFill buf d2 (1 + arraySize)) 0 = .ok (responseByte d2 0) :=
    fun buf => rd_rxFill buf d2 _ 0 (by omega)
  have r2 : ∀ buf : List Nat, rd (rxFill buf d2 (1 + 4 * numReads)) 0
      = .ok (responseByte d2 0) :=
    fun buf => rd_rxFill buf d2 _ 0 (by omega)
  refine ⟨?_, ?_, ?_, ?_, ?_, ?_, ?_, ?_, ?_, ?_⟩
  · simp [I2CReadByte, I2C_transfer, usleep, cycle, rxFill_zero, rxFill_length, rd_rxFill, h0,
      bind, Except.bind, pure, Except.pure]
  · simp [I2CReadBytewithWriteByte, I2C_transfer, usleep, cycle, rxFill_zero, rxFill_length,
      rd_rxFill, h0, bind, Except.bind, pure, Except.pure]
  · simp [I2CReadInt, I2C_transfer, usleep, cycle, rxFill_zero, rxFill_length, rd_rxFill, h0,
      bind, Except.bind, pure, Except.pure]
  · simp [I2CReadIntWithWriteByte, I2C_transfer, usleep, cycle, rxFill_zero, rxFill_length,
      rd_rxFill, h0, bind, Except.bind, pure, Except.pure]
  · simp [I2CRead32BitValue, I2C_transfer, usleep, cycle, rxFill_zero, rxFill_length,
      rd_rxFill, h0, bind, Except.bind, pure, Except.pure]
  · simp [I2CReadFillArray, I2C_transfer, usleep, cycle, rxFill_zero, b1, r1, h0,
      forLoop_zero _ _ hArr, bind, Except.bind, pure, Except.pure]
  · simp [I2CReadMultiple32BitValues, I2C_transfer, usleep, cycle, rxFill_zero, b2, r2, h0,
      forLoop_zero_int _ _ hNum, bind, Except.bind, pure, Except.pure]
  · simp [I2CWriteByte, I2C_transfer, usleep, cycle, rxFill_zero, rxFill_length, rd_rxFill,
      bind, Except.bind, pure, Except.pure]
  · simp [I2CWrite2Bytes, I2C_transfer, usleep, cycle, rxFill_zero, rxFill_length, rd_rxFill,
      bind, Except.bind, pure, Except.pure]
  · simp [I2CenableWriteByte, I2C_transfer, usleep, cycle, rxFill_zero, rxFill_length,
      rd_rxFill, bind, Except.bind, pure, Except.pure]

/-- Witness of `unlisted_status_reported_verbatim`: status byte 0x7F. -/
theorem unlisted_status_reported_verbatim_witness :
    I2CRead32BitValue 0x51 0x02 0x06 ⟨[⟨true, []⟩, ⟨true, [0x7F, 1, 2, 3, 4]⟩], []⟩
      = .ok (0, 0x7F, ⟨[], cycle [0x51, 0x02, 0x06] 6000 5⟩) ∧
    I2CenableWriteByte 0x52 0x00 0x01 ⟨[⟨true, []⟩, ⟨true, [0x7F, 1, 2, 3, 4]⟩], []⟩
      = .ok (0x7F, ⟨[], cycle [0x52, 0x00, 0x01] 50000 1⟩) :=
  have h := unlisted_status_reported_verbatim 0x51 0x02 0x06 0 0 0 [] [] []
    [0x7F, 1, 2, 3, 4] [] [] (by decide) (by decide) (by decide) (by decide) (by decide)
  have h2 := unlisted_status_reported_verbatim 0x52 0x00 0x01 0 0 0 [] [] []
    [0x7F, 1, 2, 3, 4] [] [] (by decide) (by decide) (by decide) (by decide) (by decide)
  ⟨h.2.2.2.2.1, h2.2.2.2.2.2.2.2.2.2⟩


/-! ## Decoding of a successful response -/

/-- Both transfers of `I2CRead32BitValue` succeeding, the function tests the
status byte and decodes response bytes 1..4. -/
theorem read32_run (f i x : Nat) (d1 d2 : List Nat) (rest : List BusReply) (log : List Event) :
    I2CRead32BitValue f i x ⟨⟨true, d1⟩ :: ⟨true, d2⟩ :: rest, log⟩
      = if (responseByte d2 0 != 0) = true then
          .ok (0, responseByte d2 0, ⟨rest, log ++ cycle [f, i, x] 6000 5⟩)
        else
          .ok (int32_or (int32_or (int32_or (int32_shl (castInt32 (responseByte d2 1)) 24)
                (int32_shl (castInt32 (responseByte d2 2)) 16))
                (int32_shl (castInt32 (responseByte d2 3)) 8)) (castInt32 (responseByte d2 4)),
               responseByte d2 0, ⟨rest, log ++ cycle [f, i, x] 6000 5⟩) := by
  simp only [I2CRead32BitValue, bind, Except.bind, I2C_transfer, List.length_cons,
    List.length_singleton, Nat.reduceAdd, lt_self_iff_false, I2_READ_STATUS_BYTE_COUNT,
    List.reduceReplicate, not_lt_zero', or_self, ↓reduceIte, List.headD_cons, rxFill_zero,
    List.tail_cons, BIO_ADDRESS, List.take_succ_cons, List.take_nil, Bool.not_true,
    Bool.false_eq_true, usleep, CMD_DELAY, Nat.reduceMul, List.append_assoc,
    List.singleton_append, List.take_zero, List.cons_append, Nat.ofNat_pos, pure, Except.pure,
    cycle, List.length_nil, false_or, List.nil_append]
  simp only [rd_rxFill _ _ 5 0 (by decide), rd_rxFill _ _ 5 1 (by decide),
    rd_rxFill _ _ 5 2 (by decide), rd_rxFill _ _ 5 3 (by decide),
    rd_rxFill _ _ 5 4 (by decide)]


/-- Success path of `I2CRead32BitValue`. -/
theorem read32_success (f i x : Nat) (d1 d2 : List Nat) (rest : List BusReply)
    (log : List Event) (hs : responseByte d2 0 = 0) :
    I2CRead32BitValue f i x ⟨⟨true, d1⟩ :: ⟨true, d2⟩ :: rest, log⟩
      = .ok (twosComplement32 (be32 (responseByte d2 1) (responseByte d2 2)
               (responseByte d2 3) (responseByte d2 4)),
             0, ⟨rest, log ++ cycle [f, i, x] 6000 5⟩) := by
  have e := decode32 (responseByte d2 1) (responseByte d2 2) (responseByte d2 3)
    (responseByte d2 4) (responseByte_lt _ _) (responseByte_lt _ _) (responseByte_lt _ _)
    (responseByte_lt _ _)
  rw [read32_run f i x d1 d2 rest log, hs, e]
  rfl

/-- Success path of `I2CReadInt`. -/
theorem readInt_success (f i : Nat) (d1 d2 : List Nat) (rest : List BusReply)
    (log : List Event) (hs : responseByte d2 0 = 0) :
    I2CReadInt f i ⟨⟨true, d1⟩ :: ⟨true, d2⟩ :: rest, log⟩
      = .ok (256 * responseByte d2 1 + responseByte d2 2, 0,
             ⟨rest, log ++ cycle [f, i] 6000 3⟩) := by
  have e := decode16 (responseByte d2 1) (responseByte d2 2) (responseByte_lt _ _)
    (responseByte_lt _ _)
  simp [I2CReadInt, I2C_transfer, usleep, cycle, rxFill_zero, rxFill_length, rd_rxFill, hs,
    e, bind, Except.bind, pure, Except.pure]

/-- Success path of `I2CReadIntWithWriteByte`. -/
theorem readIntWithWriteByte_success (f i x : Nat) (d1 d2 : List Nat) (rest : List BusReply)
    (log : List Event) (hs : responseByte d2 0 = 0) :
    I2CReadIntWithWriteByte f i x ⟨⟨true, d1⟩ :: ⟨true, d2⟩ :: rest, log⟩
      = .ok (256 * responseByte d2 1 + responseByte d2 2, 0,
             ⟨rest, log ++ cycle [f, i, x] 6000 3⟩) := by
  have e := decode16 (responseByte d2 1) (responseByte d2 2) (responseByte_lt _ _)
    (responseByte_lt _ _)
  simp [I2CReadIntWithWriteByte, I2C_transfer, usleep, cycle, rxFill_zero, rxFill_length,
    rd_rxFill, hs, e, bind, Except.bind, pure, Except.pure]

/-- Claim C6. 32-bit signed decode: when both transfers succeed with status
byte 0, `I2CRead32BitValue` returns the two's complement reading of the
big-endian word formed by the four payload bytes (response bytes 1..4) and
sets `*statusByte` to 0. -/
theorem read32_decodes_big_endian_signed (f i x : Nat) (d1 d2 : List Nat)
    (rest : List BusReply) (log : List Event) (hs : responseByte d2 0 = 0) :
    I2CRead32BitValue f i x ⟨⟨true, d1⟩ :: ⟨true, d2⟩ :: rest, log⟩
      = .ok (twosComplement32 (be32 (responseByte d2 1) (responseByte d2 2)
               (responseByte d2 3) (responseByte d2 4)),
             0, ⟨rest, log ++ cycle [f, i, x] 6000 5⟩) :=
  read32_success f i x d1 d2 rest log hs

/-- Witness of `read32_decodes_big_endian_signed`: the payload
`[0xFF, 0xFF, 0xFF, 0xFF]` decodes to -1. -/
theorem read32_decodes_big_endian_signed_witness :
    I2CRead32BitValue 0x51 0x02 0x06
        ⟨[⟨true, []⟩, ⟨true, [0x00, 0xFF, 0xFF, 0xFF, 0xFF]⟩], []⟩
      = .ok (-1, 0, ⟨[], cycle [0x51, 0x02, 0x06] 6000 5⟩) :=
  read32_decodes_big_endian_signed 0x51 0x02 0x06 [] [0x00, 0xFF, 0xFF, 0xFF, 0xFF] [] []
    (by decide)

/-- Claim C7. 16-bit unsigned decode: when both transfers succeed with status
byte 0, `I2CReadInt` and `I2CReadIntWithWriteByte` return `256 * p0 + p1` for
the payload bytes `p0`, `p1` (response bytes 1 and 2) and set `*statusByte`
to 0. -/
theorem readInt_decodes_big_endian (f i x : Nat) (d1 d2 : List Nat) (rest : List BusReply)
    (log : List Event) (hs : responseByte d2 0 = 0) :
    I2CReadInt f i ⟨⟨true, d1⟩ :: ⟨true, d2⟩ :: rest, log⟩
      = .ok (256 * responseByte d2 1 + responseByte d2 2, 0,
             ⟨rest, log ++ cycle [f, i] 6000 3⟩) ∧
    I2CReadIntWithWriteByte f i x ⟨⟨true, d1⟩ :: ⟨true, d2⟩ :: rest, log⟩
      = .ok (256 * responseByte d2 1 + responseByte d2 2, 0,
             ⟨rest, log ++ cycle [f, i, x] 6000 3⟩) :=
  ⟨readInt_success f i d1 d2 rest log hs, readIntWithWriteByte_success f i x d1 d2 rest log hs⟩

/-- Witness of `readInt_decodes_big_endian`: the payload `[0x01, 0xF4]`
decodes to 500. -/
theorem readInt_decodes_big_endian_witness :
    I2CReadInt 0x13 0x04 ⟨[⟨true, []⟩, ⟨true, [0x00, 0x01, 0xF4]⟩], []⟩
      = .ok (500, 0, ⟨[], cycle [0x13, 0x04] 6000 3⟩) ∧
    I2CReadIntWithWriteByte 0x51 0x02 0x07 ⟨[⟨true, []⟩, ⟨true, [0x00, 0x01, 0xF4]⟩], []⟩
      = .ok (500, 0, ⟨[], cycle [0x51, 0x02, 0x07] 6000 3⟩) :=
  ⟨(readInt_decodes_big_endian 0x13 0x04 0 [] [0x00, 0x01, 0xF4] [] [] (by decide)).1,
   (readInt_decodes_big_endian 0x51 0x02 0x07 [] [0x00, 0x01, 0xF4] [] [] (by decide)).2⟩

/-- Claim C8. Decode undoes big-endian encode: for every signed 32-bit integer
`v`, when the hub answers with status 0 and the payload `encodeBE32 v`,
`I2CRead32BitValue` returns `v`; for every `u` in 0..65535, when the payload
is `[u / 256, u mod 256]`, `I2CReadInt` and `I2CReadIntWithWriteByte` return
`u`. -/
theorem decode_undoes_encode (f i x : Nat) (v : Int) (u : Nat) (d1 : List Nat)
    (rest : List BusReply) (log : List Event)
    (hv : -2147483648 ≤ v ∧ v < 2147483648) (hu : u < 65536) :
    I2CRead32BitValue f i x ⟨⟨true, d1⟩ :: ⟨true, 0 :: encodeBE32 v⟩ :: rest, log⟩
      = .ok (v, 0, ⟨rest, log ++ cycle [f, i, x] 6000 5⟩) ∧
    I2CReadInt f i ⟨⟨true, d1⟩ :: ⟨true, 0 :: encodeBE16 u⟩ :: rest, log⟩
      = .ok (u, 0, ⟨rest, log ++ cycle [f, i] 6000 3⟩) ∧
    I2CReadIntWithWriteByte f i x ⟨⟨true, d1⟩ :: ⟨true, 0 :: encodeBE16 u⟩ :: rest, log⟩
      = .ok (u, 0, ⟨rest, log ++ cycle [f, i, x] 6000 3⟩) := by
  have e32 : twosComplement32 (be32 (responseByte (0 :: encodeBE32 v) 1)
      (responseByte (0 :: encodeBE32 v) 2) (responseByte (0 :: encodeBE32 v) 3)
      (responseByte (0 :: encodeBE32 v) 4)) = v := by
    simp only [responseByte, encodeBE32, twosComplement32, be32, List.getD_cons_succ,
      List.getD_cons_zero]
    norm_num
    split <;> omega
  have e16 : 256 * responseByte (0 :: encodeBE16 u) 1 + responseByte (0 :: encodeBE16 u) 2
      = u := by
    simp only [responseByte, encodeBE16, List.getD_cons_succ, List.getD_cons_zero]
    omega
  refine ⟨?_, ?_, ?_⟩
  · rw [read32_success f i x d1 (0 :: encodeBE32 v) rest log rfl, e32]
  · rw [readInt_success f i d1 (0 :: encodeBE16 u) rest log rfl, e16]
  · rw [readIntWithWriteByte_success f i x d1 (0 :: encodeBE16 u) rest log rfl, e16]

/-- Witness of `decode_undoes_encode`: the values -2 and 500. -/
theorem decode_undoes_encode_witness :
    encodeBE32 (-2) = [0xFF, 0xFF, 0xFF, 0xFE] ∧ encodeBE16 500 = [0x01, 0xF4] ∧
    I2CRead32BitValue 0x51 0x02 0x06 ⟨[⟨true, []⟩, ⟨true, 0 :: encodeBE32 (-2)⟩], []⟩
      = .ok (-2, 0, ⟨[], [] ++ cycle [0x51, 0x02, 0x06] 6000 5⟩) ∧
    I2CReadInt 0x51 0x02 ⟨[⟨true, []⟩, ⟨true, 0 :: encodeBE16 500⟩], []⟩
      = .ok (500, 0, ⟨[], [] ++ cycle [0x51, 0x02] 6000 3⟩) :=
  have h := decode_undoes_encode 0x51 0x02 0x06 (-2) 500 [] [] [] (by decide) (by decide)
  ⟨by decide, by decide, h.1, h.2.1⟩


theorem wr_ok {α : Type} (arr : List α) (k : Nat) (v : α) (h : k < arr.length) :
    wr arr k v = .ok (arr.set k v) := by
  simp [wr, h]

theorem rd_set_self {α : Type} (arr : List α) (k : Nat) (v : α) (h : k < arr.length) :
    rd (arr.set k v) k = .ok v := by
  simp [rd, h]

theorem getElem?_fill {α : Type} (f : Nat → α) (n : Nat) (arr : List α) (k : Nat)
    (h : k < n) : ((List.range n).map f ++ arr.drop n)[k]? = some (f k) := by
  simp [List.getElem?_append, h, List.getElem?_range]

/-- One iteration of the decoding loop of `I2CReadMultiple32BitValues` on a
filled read buffer stores the decoded word `k`. -/
theorem decode32Body_ok (buf data : List Nat) (n k : Nat) (a : List Int)
    (hk : 4 + 4 * k < n) (ha : k < a.length) :
    decode32Body (rxFill buf data n) a k = .ok (a.set k (decodedWord data k)) := by
  have e := decode32 (responseByte data (1 + 4 * k)) (responseByte data (2 + 4 * k))
    (responseByte data (3 + 4 * k)) (responseByte data (4 + 4 * k)) (responseByte_lt _ _)
    (responseByte_lt _ _) (responseByte_lt _ _) (responseByte_lt _ _)
  have i0 : I2_READ_STATUS_BYTE_COUNT + k * 4 = 1 + 4 * k := by simp; omega
  have i1 : I2_READ_STATUS_BYTE_COUNT + k * 4 + 1 = 2 + 4 * k := by simp; omega
  have i2 : I2_READ_STATUS_BYTE_COUNT + k * 4 + 2 = 3 + 4 * k := by simp; omega
  have i3 : I2_READ_STATUS_BYTE_COUNT + k * 4 + 3 = 4 + 4 * k := by simp; omega
  unfold decode32Body decodedWord
  rw [i3, i2, i1, i0, ← e]
  simp only [bind, Except.bind, rd_rxFill buf data n (1 + 4 * k) (by omega),
    rd_rxFill buf data n (2 + 4 * k) (by omega), rd_rxFill buf data n (3 + 4 * k) (by omega),
    rd_rxFill buf data n (4 + 4 * k) hk]
  simp only [wr_ok, rd_set_self, List.length_set, ha, List.set_set]

/-- Claim C9. Multiple 32-bit decode: for `numReads <= 3` (the caller's array
holding at least `numReads` elements), when both transfers succeed with
status byte 0, `I2CReadMultiple32BitValues` returns 0 and sets `numArray[k]`,
for every `k < numReads`, to the two's complement value of the big-endian
group formed by response bytes `1 + 4k .. 4 + 4k`; the rest of the array is
untouched. -/
theorem readMultiple32_decodes_groups (f i x numReads : Nat) (numArray : List Int)
    (d1 d2 : List Nat) (rest : List BusReply) (log : List Event)
    (hReads : numReads ≤ 3) (hNum : numReads ≤ numArray.length)
    (hs : responseByte d2 0 = 0) :
    I2CReadMultiple32BitValues f i x numReads numArray
        ⟨⟨true, d1⟩ :: ⟨true, d2⟩ :: rest, log⟩
      = .ok (0, (List.range numReads).map (decodedWord d2) ++ numArray.drop numReads,
             ⟨rest, log ++ cycle [f, i, x] 6000 (1 + 4 * numReads)⟩) ∧
    ∀ k, k < numReads →
      ((List.range numReads).map (decodedWord d2) ++ numArray.drop numReads)[k]?
        = some (twosComplement32 (be32 (responseByte d2 (1 + 4 * k))
            (responseByte d2 (2 + 4 * k)) (responseByte d2 (3 + 4 * k))
            (responseByte d2 (4 + 4 * k)))) := by
  have b2 : ¬ (13 < 1 + 4 * numReads) := by omega
  have r2 : ∀ buf : List Nat, rd (rxFill buf d2 (1 + 4 * numReads)) 0
      = .ok (responseByte d2 0) :=
    fun buf => rd_rxFill buf d2 _ 0 (by omega)
  have loop : ∀ buf : List Nat,
      forLoop numReads (decode32Body (rxFill buf d2 (1 + 4 * numReads))) numArray
        = .ok ((List.range numReads).map (decodedWord d2) ++ numArray.drop numReads) :=
    fun buf => forLoop_fill (decodedWord d2) _ numArray numReads hNum
      (fun k hk a ha => decode32Body_ok buf d2 _ k a (by omega) (by omega))
  constructor
  · simp only [I2CReadMultiple32BitValues, bind, Except.bind, I2C_transfer, List.length_cons,
      List.length_nil, List.length_replicate, I2_READ_STATUS_BYTE_COUNT, Nat.reduceAdd,
      Nat.reduceMul, lt_self_iff_false, not_lt_zero', or_self, false_or, ↓reduceIte,
      List.headD_cons, rxFill_zero, List.tail_cons, Bool.not_true, Bool.false_eq_true, usleep,
      CMD_DELAY, BIO_ADDRESS, b2, r2, hs, loop, bne_self_eq_false, pure, Except.pure, cycle,
      List.take_succ_cons, List.take_nil, List.take_zero, List.append_assoc,
      List.singleton_append, List.cons_append, List.nil_append]
  · intro k hk
    rw [getElem?_fill (decodedWord d2) numReads numArray k hk]
    rfl

/-- Witness of `readMultiple32_decodes_groups`: two words, -1 and 500, read
into a three word array. -/
theorem readMultiple32_decodes_groups_witness :
    I2CReadMultiple32BitValues 0x51 0x02 0x0B 2 [7, 8, 9]
        ⟨[⟨true, []⟩, ⟨true, [0, 0xFF, 0xFF, 0xFF, 0xFF, 0, 0, 0x01, 0xF4]⟩], []⟩
      = .ok (0, [-1, 500, 9], ⟨[], cycle [0x51, 0x02, 0x0B] 6000 9⟩) :=
  (readMultiple32_decodes_groups 0x51 0x02 0x0B 2 [7, 8, 9] []
    [0, 0xFF, 0xFF, 0xFF, 0xFF, 0, 0, 0x01, 0xF4] [] [] (by decide) (by decide)
    (by decide)).1

/-- Claim C10. Byte-array decode is a verbatim copy: for `arraySize <= 23`
(the caller's array holding at least `arraySize` elements), when both
transfers succeed with status byte 0, `I2CReadFillArray` returns 0 and sets
`arraytoFill[i]` to response byte `1 + i` for every `i < arraySize`, in the
same order; the rest of the array is untouched. -/
theorem readFillArray_copies_payload (f i arraySize : Nat) (arraytoFill : List Nat)
    (d1 d2 : List Nat) (rest : List BusReply) (log : List Event)
    (hSize : arraySize ≤ 23) (hArr : arraySize ≤ arraytoFill.length)
    (hs : responseByte d2 0 = 0) :
    I2CReadFillArray f i arraySize arraytoFill ⟨⟨true, d1⟩ :: ⟨true, d2⟩ :: rest, log⟩
      = .ok (0, (List.range arraySize).map (fun j => responseByte d2 (1 + j))
                  ++ arraytoFill.drop arraySize,
             ⟨rest, log ++ cycle [f, i] 6000 (1 + arraySize)⟩) ∧
    ∀ j, j < arraySize →
      ((List.range arraySize).map (fun j => responseByte d2 (1 + j))
          ++ arraytoFill.drop arraySize)[j]? = some (responseByte d2 (1 + j)) := by
  have b1 : ¬ (24 < 1 + arraySize) := by omega
  have r1 : ∀ buf : List Nat, rd (rxFill buf d2 (1 + arraySize)) 0 = .ok (responseByte d2 0) :=
    fun buf => rd_rxFill buf d2 _ 0 (by omega)
  have loop : ∀ buf : List Nat,
      forLoop arraySize
        (fun a j => (rd (rxFill buf d2 (1 + arraySize)) (1 + j)).bind (fun b => wr a j b))
        arraytoFill
        = .ok ((List.range arraySize).map (fun j => responseByte d2 (1 + j))
                ++ arraytoFill.drop arraySize) :=
    fun buf => forLoop_fill (fun j => responseByte d2 (1 + j)) _ arraytoFill arraySize hArr
      (fun j hj a ha => by
        rw [rd_rxFill buf d2 _ (1 + j) (by omega)]
        exact wr_ok a j _ (by omega))
  simp only [Except.bind] at loop
  constructor
  · simp [I2CReadFillArray, I2C_transfer, usleep, cycle, rxFill_zero, b1, r1, hs, loop, bind,
      Except.bind, pure, Except.pure]
  · intro j hj
    exact getElem?_fill (fun j => responseByte d2 (1 + j)) arraySize arraytoFill j hj

/-- Witness of `readFillArray_copies_payload`: three bytes copied into a four
byte array. -/
theorem readFillArray_copies_payload_witness :
    I2CReadFillArray 0x12 0x01 3 [7, 7, 7, 7]
        ⟨[⟨true, []⟩, ⟨true, [0, 0x0A, 0x0B, 0x0C]⟩], []⟩
      = .ok (0, [0x0A, 0x0B, 0x0C, 7], ⟨[], cycle [0x12, 0x01] 6000 4⟩) :=
  (readFillArray_copies_payload 0x12 0x01 3 [7, 7, 7, 7] [] [0, 0x0A, 0x0B, 0x0C] [] []
    (by decide) (by decide) (by decide)).1


/-! ## Transactions in an arbitrary world -/

/-- Outcome of `I2CReadByte` in any world. -/
theorem readByte_run (f i : Nat) (w : World) :
    I2CReadByte f i w
      = .ok (if txStatus w = 0 then txByte w 1 else 0, txStatus w,
             afterTransaction [f, i] 6000 2 w) := by
  rcases w with ⟨script, log⟩
  rcases script with _ | ⟨⟨ok1, d1⟩, tl⟩
  · simp [I2CReadByte, I2C_transfer, txStatus, txByte, writeOk, readOk, afterTransaction,
      rxFill_zero, bind, Except.bind, pure, Except.pure]
  · cases ok1
    · simp [I2CReadByte, I2C_transfer, txStatus, txByte, writeOk, readOk, afterTransaction,
      rxFill_zero, bind, Except.bind, pure, Except.pure]
    · rcases tl with _ | ⟨⟨ok2, d2⟩, rest⟩
      · simp [I2CReadByte, I2C_transfer, usleep, cycle, txStatus, txByte, writeOk, readOk,
          afterTransaction, rxFill_zero, rxFill_length, rd_rxFill, bind, Except.bind, pure,
          Except.pure]
      · cases ok2
        · simp [I2CReadByte, I2C_transfer, usleep, cycle, txStatus, txByte, writeOk, readOk,
          afterTransaction, rxFill_zero, rxFill_length, rd_rxFill, bind, Except.bind, pure,
          Except.pure]
        · simp [I2CReadByte, I2C_transfer, usleep, cycle, txStatus, txByte, writeOk, readOk,
          afterTransaction, rxFill_zero, rxFill_length, rd_rxFill, bind, Except.bind, pure,
          Except.pure]
          split <;> rfl

/-- Outcome of `I2CReadBytewithWriteByte` in any world. -/
theorem readBytewithWriteByte_run (f i x : Nat) (w : World) :
    I2CReadBytewithWriteByte f i x w
      = .ok (if txStatus w = 0 then txByte w 1 else 0, txStatus w,
             afterTransaction [f, i, x] 6000 2 w) := by
  rcases w with ⟨script, log⟩
  rcases script with _ | ⟨⟨ok1, d1⟩, tl⟩
  · simp [I2CReadBytewithWriteByte, I2C_transfer, txStatus, txByte, writeOk, readOk, afterTransaction,
      rxFill_zero, bind, Except.bind, pure, Except.pure]
  · cases ok1
    · simp [I2CReadBytewithWriteByte, I2C_transfer, txStatus, txByte, writeOk, readOk, afterTransaction,
      rxFill_zero, bind, Except.bind, pure, Except.pure]
    · rcases tl with _ | ⟨⟨ok2, d2⟩, rest⟩
      · simp [I2CReadBytewithWriteByte, I2C_transfer, usleep, cycle, txStatus, txByte, writeOk, readOk,
          afterTransaction, rxFill_zero, rxFill_length, rd_rxFill, bind, Except.bind, pure,
          Except.pure]
      · cases ok2
        · simp [I2CReadBytewithWriteByte, I2C_transfer, usleep, cycle, txStatus, txByte, writeOk, readOk,
          afterTransaction, rxFill_zero, rxFill_length, rd_rxFill, bind, Except.bind, pure,
          Except.pure]
        · simp [I2CReadBytewithWriteByte, I2C_transfer, usleep, cycle, txStatus, txByte, writeOk, readOk,
          afterTransaction, rxFill_zero, rxFill_length, rd_rxFill, bind, Except.bind, pure,
          Except.pure]
          split <;> rfl

/-- Outcome of `I2CReadInt` in any world. -/
theorem readInt_run (f i : Nat) (w : World) :
    I2CReadInt f i w
      = .ok (if txStatus w = 0 then 256 * txByte w 1 + txByte w 2 else 0, txStatus w,
             afterTransaction [f, i] 6000 3 w) := by
  rcases w with ⟨script, log⟩
  rcases script with _ | ⟨⟨ok1, d1⟩, tl⟩
  · simp [I2CReadInt, I2C_transfer, txStatus, txByte, writeOk, readOk, afterTransaction,
      rxFill_zero, bind, Except.bind, pure, Except.pure]
  · cases ok1
    · simp [I2CReadInt, I2C_transfer, txStatus, txByte, writeOk, readOk, afterTransaction,
      rxFill_zero, bind, Except.bind, pure, Except.pure]
    · rcases tl with _ | ⟨⟨ok2, d2⟩, rest⟩
      · simp [I2CReadInt, I2C_transfer, usleep, cycle, txStatus, txByte, writeOk, readOk,
          afterTransaction, rxFill_zero, rxFill_length, rd_rxFill, bind, Except.bind, pure,
          Except.pure]
      · cases ok2
        · simp [I2CReadInt, I2C_transfer, usleep, cycle, txStatus, txByte, writeOk, readOk,
          afterTransaction, rxFill_zero, rxFill_length, rd_rxFill, bind, Except.bind, pure,
          Except.pure]
        · have e := decode16 (responseByte d2 1) (responseByte d2 2) (responseByte_lt _ _)
            (responseByte_lt _ _)
          simp [I2CReadInt, I2C_transfer, usleep, cycle, txStatus, txByte, writeOk, readOk,
          afterTransaction, rxFill_zero, rxFill_length, rd_rxFill, bind, Except.bind, pure,
          Except.pure, e]
          split <;> rfl

/-- Outcome of `I2CReadIntWithWriteByte` in any world. -/
theorem readIntWithWriteByte_run (f i x : Nat) (w : World) :
    I2CReadIntWithWriteByte f i x w
      = .ok (if txStatus w = 0 then 256 * txByte w 1 + txByte w 2 else 0, txStatus w,
             afterTransaction [f, i, x] 6000 3 w) := by
  rcases w with ⟨script, log⟩
  rcases script with _ | ⟨⟨ok1, d1⟩, tl⟩
  · simp [I2CReadIntWithWriteByte, I2C_transfer, txStatus, txByte, writeOk, readOk, afterTransaction,
      rxFill_zero, bind, Except.bind, pure, Except.pure]
  · cases ok1
    · simp [I2CReadIntWithWriteByte, I2C_transfer, txStatus, txByte, writeOk, readOk, afterTransaction,
      rxFill_zero, bind, Except.bind, pure, Except.pure]
    · rcases tl with _ | ⟨⟨ok2, d2⟩, rest⟩
      · simp [I2CReadIntWithWriteByte, I2C_transfer, usleep, cycle, txStatus, txByte, writeOk, readOk,
          afterTransaction, rxFill_zero, rxFill_length, rd_rxFill, bind, Except.bind, pure,
          Except.pure]
      · cases ok2
        · simp [I2CReadIntWithWriteByte, I2C_transfer, usleep, cycle, txStatus, txByte, writeOk, readOk,
          afterTransaction, rxFill_zero, rxFill_length, rd_rxFill, bind, Except.bind, pure,
          Except.pure]
        · have e := decode16 (responseByte d2 1) (responseByte d2 2) (responseByte_lt _ _)
            (responseByte_lt _ _)
          simp [I2CReadIntWithWriteByte, I2C_transfer, usleep, cycle, txStatus, txByte, writeOk, readOk,
          afterTransaction, rxFill_zero, rxFill_length, rd_rxFill, bind, Except.bind, pure,
          Except.pure, e]
          split <;> rfl

/-- Outcome of `I2CWriteByte` in any world. -/
theorem writeByte_run (f i x : Nat) (w : World) :
    I2CWriteByte f i x w
      = .ok (txStatus w, afterTransaction [f, i, x] 6000 1 w) := by
  rcases w with ⟨script, log⟩
  rcases script with _ | ⟨⟨ok1, d1⟩, tl⟩
  · simp [I2CWriteByte, I2C_transfer, txStatus, txByte, writeOk, readOk, afterTransaction,
      rxFill_zero, bind, Except.bind, pure, Except.pure]
  · cases ok1
    · simp [I2CWriteByte, I2C_transfer, txStatus, txByte, writeOk, readOk, afterTransaction,
      rxFill_zero, bind, Except.bind, pure, Except.pure]
    · rcases tl with _ | ⟨⟨ok2, d2⟩, rest⟩
      · simp [I2CWriteByte, I2C_transfer, usleep, cycle, txStatus, txByte, writeOk, readOk,
          afterTransaction, rxFill_zero, rxFill_length, rd_rxFill, bind, Except.bind, pure,
          Except.pure]
      · cases ok2
        · simp [I2CWriteByte, I2C_transfer, usleep, cycle, txStatus, txByte, writeOk, readOk,
          afterTransaction, rxFill_zero, rxFill_length, rd_rxFill, bind, Except.bind, pure,
          Except.pure]
        · simp [I2CWriteByte, I2C_transfer, usleep, cycle, txStatus, txByte, writeOk, readOk,
          afterTransaction, rxFill_zero, rxFill_length, rd_rxFill, bind, Except.bind, pure,
          Except.pure]

/-- Outcome of `I2CWrite2Bytes` in any world. -/
theorem write2Bytes_run (f i x y : Nat) (w : World) :
    I2CWrite2Bytes f i x y w
      = .ok (txStatus w, afterTransaction [f, i, x, y] 6000 1 w) := by
  rcases w with ⟨script, log⟩
  rcases script with _ | ⟨⟨ok1, d1⟩, tl⟩
  · simp [I2CWrite2Bytes, I2C_transfer, txStatus, txByte, writeOk, readOk, afterTransaction,
      rxFill_zero, bind, Except.bind, pure, Except.pure]
  · cases ok1
    · simp [I2CWrite2Bytes, I2C_transfer, txStatus, txByte, writeOk, readOk, afterTransaction,
      rxFill_zero, bind, Except.bind, pure, Except.pure]
    · rcases tl with _ | ⟨⟨ok2, d2⟩, rest⟩
      · simp [I2CWrite2Bytes, I2C_transfer, usleep, cycle, txStatus, txByte, writeOk, readOk,
          afterTransaction, rxFill_zero, rxFill_length, rd_rxFill, bind, Except.bind, pure,
          Except.pure]
      · cases ok2
        · simp [I2CWrite2Bytes, I2C_transfer, usleep, cycle, txStatus, txByte, writeOk, readOk,
          afterTransaction, rxFill_zero, rxFill_length, rd_rxFill, bind, Except.bind, pure,
          Except.pure]
        · simp [I2CWrite2Bytes, I2C_transfer, usleep, cycle, txStatus, txByte, writeOk, readOk,
          afterTransaction, rxFill_zero, rxFill_length, rd_rxFill, bind, Except.bind, pure,
          Except.pure]

/-- Outcome of `I2CenableWriteByte` in any world. -/
theorem enableWriteByte_run (f i x : Nat) (w : World) :
    I2CenableWriteByte f i x w
      = .ok (txStatus w, afterTransaction [f, i, x] 50000 1 w) := by
  rcases w with ⟨script, log⟩
  rcases script with _ | ⟨⟨ok1, d1⟩, tl⟩
  · simp [I2CenableWriteByte, I2C_transfer, txStatus, txByte, writeOk, readOk, afterTransaction,
      rxFill_zero, bind, Except.bind, pure, Except.pure]
  · cases ok1
    · simp [I2CenableWriteByte, I2C_transfer, txStatus, txByte, writeOk, readOk, afterTransaction,
      rxFill_zero, bind, Except.bind, pure, Except.pure]
    · rcases tl with _ | ⟨⟨ok2, d2⟩, rest⟩
      · simp [I2CenableWriteByte, I2C_transfer, usleep, cycle, txStatus, txByte, writeOk, readOk,
          afterTransaction, rxFill_zero, rxFill_length, rd_rxFill, bind, Except.bind, pure,
          Except.pure]
      · cases ok2
        · simp [I2CenableWriteByte, I2C_transfer, usleep, cycle, txStatus, txByte, writeOk, readOk,
          afterTransaction, rxFill_zero, rxFill_length, rd_rxFill, bind, Except.bind, pure,
          Except.pure]
        · simp [I2CenableWriteByte, I2C_transfer, usleep, cycle, txStatus, txByte, writeOk, readOk,
          afterTransaction, rxFill_zero, rxFill_length, rd_rxFill, bind, Except.bind, pure,
          Except.pure]

/-- Outcome of `I2CRead32BitValue` in any world. -/
theorem read32BitValue_run (f i x : Nat) (w : World) :
    I2CRead32BitValue f i x w
      = .ok (if txStatus w = 0 then
               twosComplement32 (be32 (txByte w 1) (txByte w 2) (txByte w 3) (txByte w 4))
             else 0,
             txStatus w, afterTransaction [f, i, x] 6000 5 w) := by
  rcases w with ⟨script, log⟩
  rcases script with _ | ⟨⟨ok1, d1⟩, tl⟩
  · simp [I2CRead32BitValue, I2C_transfer, txStatus, txByte, writeOk, readOk, afterTransaction,
      rxFill_zero, bind, Except.bind, pure, Except.pure]
  · cases ok1
    · simp [I2CRead32BitValue, I2C_transfer, txStatus, txByte, writeOk, readOk,
        afterTransaction, rxFill_zero, bind, Except.bind, pure, Except.pure]
    · simp only [I2CRead32BitValue, bind, Except.bind, I2C_transfer, List.length_cons,
        List.length_singleton, Nat.reduceAdd, lt_self_iff_false, I2_READ_STATUS_BYTE_COUNT,
        List.reduceReplicate, not_lt_zero', or_self, ↓reduceIte, List.headD_cons, rxFill_zero,
        List.tail_cons, BIO_ADDRESS, List.take_succ_cons, List.take_nil, Bool.not_true,
        Bool.false_eq_true, usleep, CMD_DELAY, Nat.reduceMul, List.append_assoc,
        List.singleton_append, List.take_zero, List.cons_append, Nat.ofNat_pos, pure,
        Except.pure, cycle, List.length_nil, false_or, List.nil_append, txStatus, txByte,
        writeOk, readOk, afterTransaction, Bool.true_and, ite_true]
      generalize tl.headD ⟨false, []⟩ = r2
      rcases r2 with ⟨ok2, d2⟩
      cases ok2
      · simp
      · have e := decode32 (responseByte d2 1) (responseByte d2 2) (responseByte d2 3)
          (responseByte d2 4) (responseByte_lt _ _) (responseByte_lt _ _)
          (responseByte_lt _ _) (responseByte_lt _ _)
        simp only [rd_rxFill _ _ 5 0 (by decide), rd_rxFill _ _ 5 1 (by decide),
          rd_rxFill _ _ 5 2 (by decide), rd_rxFill _ _ 5 3 (by decide),
          rd_rxFill _ _ 5 4 (by decide), e]
        by_cases hs : responseByte d2 0 = 0
        · simp [hs]
        · simp [hs]

/-- Outcome of `I2CReadFillArray` in any world, for a size the receive buffer
and the caller's array hold. -/
theorem readFillArray_run (f i arraySize : Nat) (arraytoFill : List Nat) (w : World)
    (hSize : arraySize ≤ 23) (hArr : arraySize ≤ arraytoFill.length) :
    I2CReadFillArray f i arraySize arraytoFill w
      = .ok (txStatus w,
             (if txStatus w = 0 then (List.range arraySize).map (fun j => txByte w (1 + j))
              else List.replicate arraySize 0) ++ arraytoFill.drop arraySize,
             afterTransaction [f, i] 6000 (1 + arraySize) w) := by
  have b1 : ¬ (24 < 1 + arraySize) := by omega
  rcases w with ⟨script, log⟩
  rcases script with _ | ⟨⟨ok1, d1⟩, tl⟩
  · simp [I2CReadFillArray, I2C_transfer, txStatus, txByte, writeOk, readOk, afterTransaction,
      rxFill_zero, forLoop_zero _ _ hArr, bind, Except.bind, pure, Except.pure]
  · cases ok1
    · simp [I2CReadFillArray, I2C_transfer, txStatus, txByte, writeOk, readOk,
        afterTransaction, rxFill_zero, forLoop_zero _ _ hArr, bind, Except.bind, pure,
        Except.pure]
    · rcases tl with _ | ⟨⟨ok2, d2⟩, rest⟩
      · simp [I2CReadFillArray, I2C_transfer, usleep, cycle, txStatus, txByte, writeOk, readOk,
          afterTransaction, rxFill_zero, b1, forLoop_zero _ _ hArr, bind, Except.bind, pure,
          Except.pure]
      · cases ok2
        · simp [I2CReadFillArray, I2C_transfer, usleep, cycle, txStatus, txByte, writeOk,
            readOk, afterTransaction, rxFill_zero, b1, forLoop_zero _ _ hArr, bind,
            Except.bind, pure, Except.pure]
        · have r1 : ∀ buf : List Nat,
              rd (rxFill buf d2 (1 + arraySize)) 0 = .ok (responseByte d2 0) :=
            fun buf => rd_rxFill buf d2 _ 0 (by omega)
          have loop : ∀ buf : List Nat,
              forLoop arraySize
                (fun a j =>
                  (rd (rxFill buf d2 (1 + arraySize)) (1 + j)).bind (fun b => wr a j b))
                arraytoFill
                = .ok ((List.range arraySize).map (fun j => responseByte d2 (1 + j))
                        ++ arraytoFill.drop arraySize) :=
            fun buf => forLoop_fill (fun j => responseByte d2 (1 + j)) _ arraytoFill arraySize
              hArr (fun j hj a ha => by
                rw [rd_rxFill buf d2 _ (1 + j) (by omega)]
                exact wr_ok a j _ (by omega))
          simp only [Except.bind] at loop
          by_cases hs : responseByte d2 0 = 0
          · simp [I2CReadFillArray, I2C_transfer, usleep, cycle, txStatus, txByte, writeOk,
              readOk, afterTransaction, rxFill_zero, b1, r1, hs, loop, bind, Except.bind, pure,
              Except.pure]
          · simp [I2CReadFillArray, I2C_transfer, usleep, cycle, txStatus, txByte, writeOk,
              readOk, afterTransaction, rxFill_zero, b1, r1, hs, forLoop_zero _ _ hArr, bind,
              Except.bind, pure, Except.pure]

/-- Outcome of `I2CReadMultiple32BitValues` in any world, for a number of
reads the receive buffer and the caller's array hold. -/
theorem readMultiple32_run (f i x numReads : Nat) (numArray : List Int) (w : World)
    (hReads : numReads ≤ 3) (hNum : numReads ≤ numArray.length) :
    I2CReadMultiple32BitValues f i x numReads numArray w
      = .ok (txStatus w,
             (if txStatus w = 0 then
                (List.range numReads).map
                  (decodedWord (w.script.tail.headD ⟨false, []⟩).data)
              else List.replicate numReads 0) ++ numArray.drop numReads,
             afterTransaction [f, i, x] 6000 (1 + 4 * numReads) w) := by
  have b2 : ¬ (13 < 1 + 4 * numReads) := by omega
  rcases w with ⟨script, log⟩
  rcases script with _ | ⟨⟨ok1, d1⟩, tl⟩
  · simp [I2CReadMultiple32BitValues, I2C_transfer, txStatus, txByte, writeOk, readOk,
      afterTransaction, rxFill_zero, forLoop_zero_int _ _ hNum, bind, Except.bind, pure,
      Except.pure]
  · cases ok1
    · simp [I2CReadMultiple32BitValues, I2C_transfer, txStatus, txByte, writeOk, readOk,
        afterTransaction, rxFill_zero, forLoop_zero_int _ _ hNum, bind, Except.bind, pure,
        Except.pure]
    · rcases tl with _ | ⟨⟨ok2, d2⟩, rest⟩
      · simp [I2CReadMultiple32BitValues, I2C_transfer, usleep, cycle, txStatus, txByte,
          writeOk, readOk, afterTransaction, rxFill_zero, b2, forLoop_zero_int _ _ hNum, bind,
          Except.bind, pure, Except.pure]
      · cases ok2
        · simp [I2CReadMultiple32BitValues, I2C_transfer, usleep, cycle, txStatus, txByte,
            writeOk, readOk, afterTransaction, rxFill_zero, b2, forLoop_zero_int _ _ hNum,
            bind, Except.bind, pure, Except.pure]
        · have r2 : ∀ buf : List Nat,
              rd (rxFill buf d2 (1 + 4 * numReads)) 0 = .ok (responseByte d2 0) :=
            fun buf => rd_rxFill buf d2 _ 0 (by omega)
          have loop : ∀ buf : List Nat,
              forLoop numReads (decode32Body (rxFill buf d2 (1 + 4 * numReads))) numArray
                = .ok ((List.range numReads).map (decodedWord d2)
                        ++ numArray.drop numReads) :=
            fun buf => forLoop_fill (decodedWord d2) _ numArray numReads hNum
              (fun k hk a ha => decode32Body_ok buf d2 _ k a (by omega) (by omega))
          by_cases hs : responseByte d2 0 = 0
          · simp only [I2CReadMultiple32BitValues, bind, Except.bind, I2C_transfer,
              List.length_cons, List.length_nil, List.length_replicate,
              I2_READ_STATUS_BYTE_COUNT, Nat.reduceAdd, Nat.reduceMul, lt_self_iff_false,
              not_lt_zero', or_self, false_or, ↓reduceIte, List.headD_cons, rxFill_zero,
              List.tail_cons, Bool.not_true, Bool.false_eq_true, usleep, CMD_DELAY,
              BIO_ADDRESS, b2, r2, hs, loop, bne_self_eq_false, pure, Except.pure, cycle,
              List.take_succ_cons, List.take_nil, List.take_zero, List.append_assoc,
              List.singleton_append, List.cons_append, List.nil_append, txStatus, txByte,
              writeOk, readOk, afterTransaction, Bool.and_self, ite_true, if_true]
          · simp [I2CReadMultiple32BitValues, I2C_transfer, usleep, cycle, txStatus, txByte,
              writeOk, readOk, afterTransaction, rxFill_zero, b2, r2, hs,
              forLoop_zero_int _ _ hNum, bind, Except.bind, pure, Except.pure]


/-! ## Shape of a transaction -/

theorem sleepsOf_append (l1 l2 : List Event) :
    sleepsOf (l1 ++ l2) = sleepsOf l1 ++ sleepsOf l2 := by
  induction l1 with
  | nil => simp [sleepsOf]
  | cons e l ih =>
    cases e with
    | transfer a b c => simp [sleepsOf, ih]
    | sleep u => simp [sleepsOf, ih]

theorem transfersOf_append (l1 l2 : List Event) :
    transfersOf (l1 ++ l2) = transfersOf l1 ++ transfersOf l2 := by
  induction l1 with
  | nil => simp [transfersOf]
  | cons e l ih =>
    cases e with
    | transfer a b c => simp [transfersOf, ih]
    | sleep u => simp [transfersOf, ih]

theorem afterTransaction_ok (written : List Nat) (usec readCount : Nat) (w : World)
    (h : writeOk w = true) :
    afterTransaction written usec readCount w
      = { script := w.script.tail.tail, log := w.log ++ cycle written usec readCount } := by
  simp [afterTransaction, h]

theorem afterTransaction_fail (written : List Nat) (usec readCount : Nat) (w : World)
    (h : writeOk w = false) :
    afterTransaction written usec readCount w
      = { script := w.script.tail, log := w.log ++ [.transfer BIO_ADDRESS written 0] } := by
  simp [afterTransaction, h]

theorem firstAdded_afterTransaction (written : List Nat) (usec readCount : Nat) (w : World) :
    firstAdded (.transfer BIO_ADDRESS written 0) w
      (afterTransaction written usec readCount w) := by
  cases h : writeOk w
  · rw [afterTransaction_fail _ _ _ _ h]
    exact ⟨[], rfl⟩
  · rw [afterTransaction_ok _ _ _ _ h]
    exact ⟨[.sleep usec, .transfer BIO_ADDRESS [] readCount], rfl⟩

theorem readPhase_afterTransaction (written : List Nat) (usec readCount : Nat) (w : World)
    (h : writeOk w = true) :
    readPhase readCount w (afterTransaction written usec readCount w) := by
  rw [afterTransaction_ok _ _ _ _ h]
  exact ⟨written, usec, rfl⟩

theorem oneCycle_afterTransaction (written : List Nat) (usec readCount : Nat) (w : World) :
    oneCycle w (afterTransaction written usec readCount w) := by
  cases h : writeOk w
  · rw [afterTransaction_fail _ _ _ _ h]
    refine ⟨?_, ?_, ?_⟩
    · simp [transferCount_append, transferCount]
    · intro h1; simp [h] at h1
    · intro _; exact ⟨written, rfl⟩
  · rw [afterTransaction_ok _ _ _ _ h]
    refine ⟨?_, ?_, ?_⟩
    · simp [transferCount_append, transferCount, cycle]
    · intro _; exact ⟨written, usec, readCount, rfl⟩
    · intro h1; simp [h] at h1

theorem settlesBetween_afterTransaction (written : List Nat) (usec readCount : Nat)
    (w : World) : settlesBetween usec w (afterTransaction written usec readCount w) := by
  cases h : writeOk w
  · rw [afterTransaction_fail _ _ _ _ h]
    exact ⟨fun h1 => by simp [h] at h1, fun _ => ⟨written, rfl⟩⟩
  · rw [afterTransaction_ok _ _ _ _ h]
    exact ⟨fun _ => ⟨written, readCount, rfl⟩, fun h1 => by simp [h] at h1⟩

/-- Claim C11. Single-byte decode: when both transfers succeed with status
byte 0, `I2CReadByte` and `I2CReadBytewithWriteByte` return the byte that
follows the status byte (response byte 1) and set `*statusByte` to 0. -/
theorem readByte_returns_payload_byte (f i x : Nat) (d1 d2 : List Nat) (rest : List BusReply)
    (log : List Event) (hs : responseByte d2 0 = 0) :
    I2CReadByte f i ⟨⟨true, d1⟩ :: ⟨true, d2⟩ :: rest, log⟩
      = .ok (responseByte d2 1, 0, ⟨rest, log ++ cycle [f, i] 6000 2⟩) ∧
    I2CReadBytewithWriteByte f i x ⟨⟨true, d1⟩ :: ⟨true, d2⟩ :: rest, log⟩
      = .ok (responseByte d2 1, 0, ⟨rest, log ++ cycle [f, i, x] 6000 2⟩) := by
  constructor
  · rw [readByte_run]
    simp [txStatus, txByte, writeOk, readOk, afterTransaction, hs]
  · rw [readBytewithWriteByte_run]
    simp [txStatus, txByte, writeOk, readOk, afterTransaction, hs]

/-- Witness of `readByte_returns_payload_byte`: the payload byte 0x2A. -/
theorem readByte_returns_payload_byte_witness :
    I2CReadByte 0x02 0x00 ⟨[⟨true, []⟩, ⟨true, [0x00, 0x2A]⟩], []⟩
      = .ok (0x2A, 0, ⟨[], cycle [0x02, 0x00] 6000 2⟩) ∧
    I2CReadBytewithWriteByte 0x41 0x03 0x09 ⟨[⟨true, []⟩, ⟨true, [0x00, 0x2A]⟩], []⟩
      = .ok (0x2A, 0, ⟨[], cycle [0x41, 0x03, 0x09] 6000 2⟩) :=
  ⟨(readByte_returns_payload_byte 0x02 0x00 0 [] [0x00, 0x2A] [] [] (by decide)).1,
   (readByte_returns_payload_byte 0x41 0x03 0x09 [] [0x00, 0x2A] [] [] (by decide)).2⟩

/-! ## Receive buffer of `I2CReadFillArray` -/

/-- Claim C12, as stated, fails: 24 is at most 29, and reading 24 payload
bytes requests 25 bytes for the 24-byte receive buffer, which the embedding
reports as an access out of bounds. -/
theorem readFillArray_overruns_at_24 :
    (24 : Nat) ≤ 29 ∧
    I2CReadFillArray 0x12 0x01 24 (List.replicate 24 0) ⟨[⟨true, []⟩, ⟨true, []⟩], []⟩
      = .error .outOfBounds :=
  ⟨by decide, rfl⟩

/-- Claim C12, amended. For every expected payload size `N <= 23` (the sum of
`MAX30101_LED_ARRAY`, `MAXFAST_ARRAY_SIZE` and `MAXFAST_EXTENDED_DATA`), the
receive buffer of `I2CReadFillArray` holds the `1 + N` response bytes it
requests, so that in every world the function runs without an access out of
bounds (the caller's array holding at least `N` elements). -/
theorem readFillArray_buffer_holds_response (f i arraySize : Nat) (arraytoFill : List Nat)
    (w : World) (hSize : arraySize ≤ 23) (hArr : arraySize ≤ arraytoFill.length) :
    1 + arraySize ≤ 1 + MAX30101_LED_ARRAY + MAXFAST_ARRAY_SIZE + MAXFAST_EXTENDED_DATA ∧
    ∃ r, I2CReadFillArray f i arraySize arraytoFill w = .ok r := by
  constructor
  · simp; omega
  · exact ⟨_, readFillArray_run f i arraySize arraytoFill w hSize hArr⟩

/-- Witness of `readFillArray_buffer_holds_response`: the largest size, 23. -/
theorem readFillArray_buffer_holds_response_witness :
    ∃ r, I2CReadFillArray 0x12 0x01 23 (List.replicate 23 0)
      ⟨[⟨true, []⟩, ⟨true, []⟩], []⟩ = .ok r :=
  (readFillArray_buffer_holds_response 0x12 0x01 23 (List.replicate 23 0)
    ⟨[⟨true, []⟩, ⟨true, []⟩], []⟩ (by decide) (by decide)).2


/-- A request of more than 23 payload bytes overruns the receive buffer of
`I2CReadFillArray` at the read transfer. -/
theorem readFillArray_overrun (f i arraySize : Nat) (arraytoFill : List Nat) (w : World)
    (hw : writeOk w = true) (hBig : 23 < arraySize) :
    I2CReadFillArray f i arraySize arraytoFill w = .error .outOfBounds := by
  have b1 : 24 < 1 + arraySize := by omega
  rcases w with ⟨script, log⟩
  rcases script with _ | ⟨⟨ok1, d1⟩, tl⟩
  · simp [writeOk] at hw
  · simp only [writeOk, List.headD_cons] at hw
    subst hw
    simp [I2CReadFillArray, I2C_transfer, usleep, rxFill_zero, b1, bind, Except.bind]

/-- A request of more than 3 words overruns the receive buffer of
`I2CReadMultiple32BitValues` at the read transfer. -/
theorem readMultiple32_overrun (f i x numReads : Nat) (numArray : List Int) (w : World)
    (hw : writeOk w = true) (hBig : 3 < numReads) :
    I2CReadMultiple32BitValues f i x numReads numArray w = .error .outOfBounds := by
  have b2 : 13 < 1 + 4 * numReads := by omega
  rcases w with ⟨script, log⟩
  rcases script with _ | ⟨⟨ok1, d1⟩, tl⟩
  · simp [writeOk] at hw
  · simp only [writeOk, List.headD_cons] at hw
    subst hw
    simp [I2CReadMultiple32BitValues, I2C_transfer, usleep, rxFill_zero, b2, bind, Except.bind]


/-! ## The two transfers of a transaction -/

/-- Claim C13. Write-phase serialisation: in every world, the first action of
every codec operation is a transfer addressed to `BIO_ADDRESS` (0x55), with
read length 0, that writes exactly `[family, index]` for `I2CReadByte`,
`I2CReadInt` and `I2CReadFillArray`, `[family, index, data]` for
`I2CReadBytewithWriteByte`, `I2CReadIntWithWriteByte`, `I2CRead32BitValue`,
`I2CReadMultiple32BitValues`, `I2CWriteByte` and `I2CenableWriteByte`, and
`[family, index, data0, data1]` for `I2CWrite2Bytes` (array sizes within
the buffers: `arraySize <= 23`, `numReads <= 3`). -/
theorem write_phase_serialises_command (f i x y arraySize numReads : Nat)
    (arraytoFill : List Nat) (numArray : List Int) (w : World)
    (hSize : arraySize ≤ 23) (hArr : arraySize ≤ arraytoFill.length)
    (hReads : numReads ≤ 3) (hNum : numReads ≤ numArray.length) :
    BIO_ADDRESS = 0x55 ∧
    (∃ v s w1, I2CReadByte f i w = .ok (v, s, w1) ∧
      firstAdded (.transfer BIO_ADDRESS [f, i] 0) w w1) ∧
    (∃ v s w1, I2CReadInt f i w = .ok (v, s, w1) ∧
      firstAdded (.transfer BIO_ADDRESS [f, i] 0) w w1) ∧
    (∃ s a w1, I2CReadFillArray f i arraySize arraytoFill w = .ok (s, a, w1) ∧
      firstAdded (.transfer BIO_ADDRESS [f, i] 0) w w1) ∧
    (∃ v s w1, I2CReadBytewithWriteByte f i x w = .ok (v, s, w1) ∧
      firstAdded (.transfer BIO_ADDRESS [f, i, x] 0) w w1) ∧
    (∃ v s w1, I2CReadIntWithWriteByte f i x w = .ok (v, s, w1) ∧
      firstAdded (.transfer BIO_ADDRESS [f, i, x] 0) w w1) ∧
    (∃ v s w1, I2CRead32BitValue f i x w = .ok (v, s, w1) ∧
      firstAdded (.transfer BIO_ADDRESS [f, i, x] 0) w w1) ∧
    (∃ s a w1, I2CReadMultiple32BitValues f i x numReads numArray w = .ok (s, a, w1) ∧
      firstAdded (.transfer BIO_ADDRESS [f, i, x] 0) w w1) ∧
    (∃ s w1, I2CWriteByte f i x w = .ok (s, w1) ∧
      firstAdded (.transfer BIO_ADDRESS [f, i, x] 0) w w1) ∧
    (∃ s w1, I2CenableWriteByte f i x w = .ok (s, w1) ∧
      firstAdded (.transfer BIO_ADDRESS [f, i, x] 0) w w1) ∧
    (∃ s w1, I2CWrite2Bytes f i x y w = .ok (s, w1) ∧
      firstAdded (.transfer BIO_ADDRESS [f, i, x, y] 0) w w1) :=
  ⟨rfl,
   ⟨_, _, _, readByte_run f i w, firstAdded_afterTransaction _ _ _ w⟩,
   ⟨_, _, _, readInt_run f i w, firstAdded_afterTransaction _ _ _ w⟩,
   ⟨_, _, _, readFillArray_run f i arraySize arraytoFill w hSize hArr,
     firstAdded_afterTransaction _ _ _ w⟩,
   ⟨_, _, _, readBytewithWriteByte_run f i x w, firstAdded_afterTransaction _ _ _ w⟩,
   ⟨_, _, _, readIntWithWriteByte_run f i x w, firstAdded_afterTransaction _ _ _ w⟩,
   ⟨_, _, _, read32BitValue_run f i x w, firstAdded_afterTransaction _ _ _ w⟩,
   ⟨_, _, _, readMultiple32_run f i x numReads numArray w hReads hNum,
     firstAdded_afterTransaction _ _ _ w⟩,
   ⟨_, _, writeByte_run f i x w, firstAdded_afterTransaction _ _ _ w⟩,
   ⟨_, _, enableWriteByte_run f i x w, firstAdded_afterTransaction _ _ _ w⟩,
   ⟨_, _, write2Bytes_run f i x y w, firstAdded_afterTransaction _ _ _ w⟩⟩

/-- Witness of `write_phase_serialises_command`: `I2CWrite2Bytes` on a bus
that fails at once writes its four bytes. -/
theorem write_phase_serialises_command_witness :
    ∃ s w1, I2CWrite2Bytes 0x40 0x03 0x09 0x40 ⟨[], []⟩ = .ok (s, w1) ∧
      firstAdded (.transfer BIO_ADDRESS [0x40, 0x03, 0x09, 0x40] 0) ⟨[], []⟩ w1 :=
  (write_phase_serialises_command 0x40 0x03 0x09 0x40 0 0 [] [] ⟨[], []⟩ (by decide)
    (by decide) (by decide) (by decide)).2.2.2.2.2.2.2.2.2.2

/-- Claim C14. Read-phase length: whenever the bus completes the write
transfer, the second transfer of every codec operation writes no byte and
reads `1 + payloadSize` bytes: 2 for `I2CReadByte` and
`I2CReadBytewithWriteByte`, 3 for `I2CReadInt` and `I2CReadIntWithWriteByte`,
5 for `I2CRead32BitValue`, `1 + arraySize` for `I2CReadFillArray`,
`1 + 4 * numReads` for `I2CReadMultiple32BitValues`, 1 for `I2CWriteByte`,
`I2CWrite2Bytes` and `I2CenableWriteByte`. The two array lengths are natural
numbers, not reduced modulo 256: for `arraySize <= 23` and `numReads <= 3`
they are the lengths of the logged transfer, and for every larger argument
the request exceeds the receive buffer (24 and 13 bytes), so that the
operation stops on an access out of bounds. -/
theorem read_phase_length (f i x y arraySize numReads : Nat)
    (arraytoFill : List Nat) (numArray : List Int) (w : World) (hw : writeOk w = true) :
    (∃ v s w1, I2CReadByte f i w = .ok (v, s, w1) ∧ readPhase 2 w w1) ∧
    (∃ v s w1, I2CReadBytewithWriteByte f i x w = .ok (v, s, w1) ∧ readPhase 2 w w1) ∧
    (∃ v s w1, I2CReadInt f i w = .ok (v, s, w1) ∧ readPhase 3 w w1) ∧
    (∃ v s w1, I2CReadIntWithWriteByte f i x w = .ok (v, s, w1) ∧ readPhase 3 w w1) ∧
    (∃ v s w1, I2CRead32BitValue f i x w = .ok (v, s, w1) ∧ readPhase 5 w w1) ∧
    (arraySize ≤ 23 → arraySize ≤ arraytoFill.length →
      ∃ s a w1, I2CReadFillArray f i arraySize arraytoFill w = .ok (s, a, w1) ∧
        readPhase (1 + arraySize) w w1) ∧
    (23 < arraySize → I2CReadFillArray f i arraySize arraytoFill w = .error .outOfBounds) ∧
    (numReads ≤ 3 → numReads ≤ numArray.length →
      ∃ s a w1, I2CReadMultiple32BitValues f i x numReads numArray w = .ok (s, a, w1) ∧
        readPhase (1 + 4 * numReads) w w1) ∧
    (3 < numReads →
      I2CReadMultiple32BitValues f i x numReads numArray w = .error .outOfBounds) ∧
    (∃ s w1, I2CWriteByte f i x w = .ok (s, w1) ∧ readPhase 1 w w1) ∧
    (∃ s w1, I2CWrite2Bytes f i x y w = .ok (s, w1) ∧ readPhase 1 w w1) ∧
    (∃ s w1, I2CenableWriteByte f i x w = .ok (s, w1) ∧ readPhase 1 w w1) := by
  refine ⟨⟨_, _, _, readByte_run f i w, readPhase_afterTransaction _ _ _ w hw⟩,
    ⟨_, _, _, readBytewithWriteByte_run f i x w, readPhase_afterTransaction _ _ _ w hw⟩,
    ⟨_, _, _, readInt_run f i w, readPhase_afterTransaction _ _ _ w hw⟩,
    ⟨_, _, _, readIntWithWriteByte_run f i x w, readPhase_afterTransaction _ _ _ w hw⟩,
    ⟨_, _, _, read32BitValue_run f i x w, readPhase_afterTransaction _ _ _ w hw⟩,
    fun hSize hArr => ⟨_, _, _, readFillArray_run f i arraySize arraytoFill w hSize hArr,
      readPhase_afterTransaction _ _ _ w hw⟩,
    fun hBig => readFillArray_overrun f i arraySize arraytoFill w hw hBig,
    fun hReads hNum => ⟨_, _, _, readMultiple32_run f i x numReads numArray w hReads hNum,
      readPhase_afterTransaction _ _ _ w hw⟩,
    fun hBig => readMultiple32_overrun f i x numReads numArray w hw hBig,
    ⟨_, _, writeByte_run f i x w, readPhase_afterTransaction _ _ _ w hw⟩,
    ⟨_, _, write2Bytes_run f i x y w, readPhase_afterTransaction _ _ _ w hw⟩,
    ⟨_, _, enableWriteByte_run f i x w, readPhase_afterTransaction _ _ _ w hw⟩⟩

/-- Witness of `read_phase_length`: with `arraySize = 23` the read transfer of
`I2CReadFillArray` asks for 24 bytes; with `arraySize = 255` the request of
256 bytes is not wrapped to 0 and overruns the buffer. -/
theorem read_phase_length_witness :
    (∃ s a w1, I2CReadFillArray 0x12 0x01 23 (List.replicate 23 0)
        ⟨[⟨true, []⟩, ⟨true, []⟩], []⟩ = .ok (s, a, w1) ∧
      readPhase 24 ⟨[⟨true, []⟩, ⟨true, []⟩], []⟩ w1) ∧
    I2CReadFillArray 0x12 0x01 255 (List.replicate 255 0)
        ⟨[⟨true, []⟩, ⟨false, []⟩], []⟩ = .error .outOfBounds :=
  ⟨(read_phase_length 0x12 0x01 0 0 23 0 (List.replicate 23 0) []
      ⟨[⟨true, []⟩, ⟨true, []⟩], []⟩ rfl).2.2.2.2.2.1 (by decide) (by decide),
   (read_phase_length 0x12 0x01 0 0 255 0 (List.replicate 255 0) []
      ⟨[⟨true, []⟩, ⟨false, []⟩], []⟩ rfl).2.2.2.2.2.2.1 (by decide)⟩


/-- Claim C15. One request/response cycle, never retried: for every codec
operation and every world (every behaviour of the bus), the operation issues
at most two bus transfers; it issues exactly the write transfer, one sleep and
the read transfer whenever the bus completes the write, whatever the read
transfer and the status byte turn out to be, and the write transfer alone when
the write fails (array sizes within the buffers: `arraySize <= 23`,
`numReads <= 3`). -/
theorem one_cycle_never_retried (f i x y arraySize numReads : Nat)
    (arraytoFill : List Nat) (numArray : List Int) (w : World)
    (hSize : arraySize ≤ 23) (hArr : arraySize ≤ arraytoFill.length)
    (hReads : numReads ≤ 3) (hNum : numReads ≤ numArray.length) :
    (∃ v s w1, I2CReadByte f i w = .ok (v, s, w1) ∧ oneCycle w w1) ∧
    (∃ v s w1, I2CReadBytewithWriteByte f i x w = .ok (v, s, w1) ∧ oneCycle w w1) ∧
    (∃ v s w1, I2CReadInt f i w = .ok (v, s, w1) ∧ oneCycle w w1) ∧
    (∃ v s w1, I2CReadIntWithWriteByte f i x w = .ok (v, s, w1) ∧ oneCycle w w1) ∧
    (∃ v s w1, I2CRead32BitValue f i x w = .ok (v, s, w1) ∧ oneCycle w w1) ∧
    (∃ s a w1, I2CReadFillArray f i arraySize arraytoFill w = .ok (s, a, w1) ∧
      oneCycle w w1) ∧
    (∃ s a w1, I2CReadMultiple32BitValues f i x numReads numArray w = .ok (s, a, w1) ∧
      oneCycle w w1) ∧
    (∃ s w1, I2CWriteByte f i x w = .ok (s, w1) ∧ oneCycle w w1) ∧
    (∃ s w1, I2CWrite2Bytes f i x y w = .ok (s, w1) ∧ oneCycle w w1) ∧
    (∃ s w1, I2CenableWriteByte f i x w = .ok (s, w1) ∧ oneCycle w w1) :=
  ⟨⟨_, _, _, readByte_run f i w, oneCycle_afterTransaction _ _ _ w⟩,
   ⟨_, _, _, readBytewithWriteByte_run f i x w, oneCycle_afterTransaction _ _ _ w⟩,
   ⟨_, _, _, readInt_run f i w, oneCycle_afterTransaction _ _ _ w⟩,
   ⟨_, _, _, readIntWithWriteByte_run f i x w, oneCycle_afterTransaction _ _ _ w⟩,
   ⟨_, _, _, read32BitValue_run f i x w, oneCycle_afterTransaction _ _ _ w⟩,
   ⟨_, _, _, readFillArray_run f i arraySize arraytoFill w hSize hArr,
     oneCycle_afterTransaction _ _ _ w⟩,
   ⟨_, _, _, readMultiple32_run f i x numReads numArray w hReads hNum,
     oneCycle_afterTransaction _ _ _ w⟩,
   ⟨_, _, writeByte_run f i x w, oneCycle_afterTransaction _ _ _ w⟩,
   ⟨_, _, write2Bytes_run f i x y w, oneCycle_afterTransaction _ _ _ w⟩,
   ⟨_, _, enableWriteByte_run f i x w, oneCycle_afterTransaction _ _ _ w⟩⟩

/-- Witness of `one_cycle_never_retried`: `I2CReadByte` answered with the
status `ERR_TRY_AGAIN` does not try again. -/
theorem one_cycle_never_retried_witness :
    ∃ v s w1, I2CReadByte 0x02 0x00
        ⟨[⟨true, []⟩, ⟨true, [0x05]⟩, ⟨true, []⟩, ⟨true, [0x00, 0x00]⟩], []⟩ = .ok (v, s, w1) ∧
      oneCycle ⟨[⟨true, []⟩, ⟨true, [0x05]⟩, ⟨true, []⟩, ⟨true, [0x00, 0x00]⟩], []⟩ w1 :=
  (one_cycle_never_retried 0x02 0x00 0 0 0 0 [] []
    ⟨[⟨true, []⟩, ⟨true, [0x05]⟩, ⟨true, []⟩, ⟨true, [0x00, 0x00]⟩], []⟩ (by decide)
    (by decide) (by decide) (by decide)).1

/-- Claim C16. Settle intervals: in every world, every codec operation
returns, and when the bus completes the write transfer it adds to the log
exactly the write transfer, one sleep and the read transfer, in this order:
the sleep lies between the two transfers, and lasts 6000 microseconds, except
in `I2CenableWriteByte`, where it lasts 50000 microseconds; when the bus does
not complete the write transfer, the operation adds that transfer alone and
does not sleep. Apart from the duration of the sleep `I2CenableWriteByte` and
`I2CWriteByte` are equivalent: for the same arguments in the same world they
return the same status, consume the same replies of the bus and issue the
same transfers, and their logs are the same action for action but for the
duration of the sleep (array sizes within the buffers: `arraySize <= 23`,
`numReads <= 3`). -/
theorem settle_intervals (f i x y arraySize numReads : Nat)
    (arraytoFill : List Nat) (numArray : List Int) (w : World)
    (hSize : arraySize ≤ 23) (hArr : arraySize ≤ arraytoFill.length)
    (hReads : numReads ≤ 3) (hNum : numReads ≤ numArray.length) :
    (∃ v s w1, I2CReadByte f i w = .ok (v, s, w1) ∧ settlesBetween 6000 w w1) ∧
    (∃ v s w1, I2CReadBytewithWriteByte f i x w = .ok (v, s, w1) ∧
      settlesBetween 6000 w w1) ∧
    (∃ v s w1, I2CReadInt f i w = .ok (v, s, w1) ∧ settlesBetween 6000 w w1) ∧
    (∃ v s w1, I2CReadIntWithWriteByte f i x w = .ok (v, s, w1) ∧
      settlesBetween 6000 w w1) ∧
    (∃ v s w1, I2CRead32BitValue f i x w = .ok (v, s, w1) ∧ settlesBetween 6000 w w1) ∧
    (∃ s a w1, I2CReadFillArray f i arraySize arraytoFill w = .ok (s, a, w1) ∧
      settlesBetween 6000 w w1) ∧
    (∃ s a w1, I2CReadMultiple32BitValues f i x numReads numArray w = .ok (s, a, w1) ∧
      settlesBetween 6000 w w1) ∧
    (∃ s w1, I2CWriteByte f i x w = .ok (s, w1) ∧ settlesBetween 6000 w w1) ∧
    (∃ s w1, I2CWrite2Bytes f i x y w = .ok (s, w1) ∧ settlesBetween 6000 w w1) ∧
    (∃ s w1, I2CenableWriteByte f i x w = .ok (s, w1) ∧ settlesBetween 50000 w w1) ∧
    (∃ s w1 w2, I2CWriteByte f i x w = .ok (s, w1) ∧
      I2CenableWriteByte f i x w = .ok (s, w2) ∧ w1.script = w2.script ∧
      transfersOf w1.log = transfersOf w2.log ∧
      (writeOk w = true →
        w1.log = w.log ++ [.transfer BIO_ADDRESS [f, i, x] 0, .sleep 6000,
                            .transfer BIO_ADDRESS [] 1] ∧
        w2.log = w.log ++ [.transfer BIO_ADDRESS [f, i, x] 0, .sleep 50000,
                            .transfer BIO_ADDRESS [] 1]) ∧
      (writeOk w = false →
        w1.log = w.log ++ [.transfer BIO_ADDRESS [f, i, x] 0] ∧ w2.log = w1.log)) := by
  refine ⟨⟨_, _, _, readByte_run f i w, settlesBetween_afterTransaction _ _ _ w⟩,
    ⟨_, _, _, readBytewithWriteByte_run f i x w, settlesBetween_afterTransaction _ _ _ w⟩,
    ⟨_, _, _, readInt_run f i w, settlesBetween_afterTransaction _ _ _ w⟩,
    ⟨_, _, _, readIntWithWriteByte_run f i x w, settlesBetween_afterTransaction _ _ _ w⟩,
    ⟨_, _, _, read32BitValue_run f i x w, settlesBetween_afterTransaction _ _ _ w⟩,
    ⟨_, _, _, readFillArray_run f i arraySize arraytoFill w hSize hArr,
      settlesBetween_afterTransaction _ _ _ w⟩,
    ⟨_, _, _, readMultiple32_run f i x numReads numArray w hReads hNum,
      settlesBetween_afterTransaction _ _ _ w⟩,
    ⟨_, _, writeByte_run f i x w, settlesBetween_afterTransaction _ _ _ w⟩,
    ⟨_, _, write2Bytes_run f i x y w, settlesBetween_afterTransaction _ _ _ w⟩,
    ⟨_, _, enableWriteByte_run f i x w, settlesBetween_afterTransaction _ _ _ w⟩,
    ⟨_, _, _, writeByte_run f i x w, enableWriteByte_run f i x w, ?_, ?_, ?_, ?_⟩⟩
  · cases h : writeOk w <;> simp [afterTransaction, h]
  · cases h : writeOk w <;>
      simp [afterTransaction, h, transfersOf_append, transfersOf, cycle]
  · intro h
    rw [afterTransaction_ok _ _ _ _ h, afterTransaction_ok _ _ _ _ h]
    exact ⟨rfl, rfl⟩
  · intro h
    rw [afterTransaction_fail _ _ _ _ h, afterTransaction_fail _ _ _ _ h]
    exact ⟨rfl, rfl⟩

/-- Witness of `settle_intervals`: on a bus that answers, `I2CenableWriteByte`
adds the write transfer, a sleep of 50000 microseconds and the read transfer,
in this order. -/
theorem settle_intervals_witness :
    ∃ s w1, I2CenableWriteByte 0x52 0x00 0x01 ⟨[⟨true, []⟩, ⟨true, [0x00]⟩], []⟩
        = .ok (s, w1) ∧
      settlesBetween 50000 ⟨[⟨true, []⟩, ⟨true, [0x00]⟩], []⟩ w1 :=
  (settle_intervals 0x52 0x00 0x01 0 0 0 [] [] ⟨[⟨true, []⟩, ⟨true, [0x00]⟩], []⟩
    (by decide) (by decide) (by decide) (by decide)).2.2.2.2.2.2.2.2.2.1


/-! ## Device mode -/

/-- Outcome of `setDeviceMode` for a valid mode in any world: the mode-set
transaction, then, if its status is `SUCCESS`, the mode read-back. -/
theorem setDeviceMode_run (t : Nat) (w : World) (ht : t = 0 ∨ t = 2 ∨ t = 8) :
    setDeviceMode t w
      = if txStatus w ≠ 0 then
          .ok (ERR_UNKNOWN, txStatus w, afterTransaction [0x01, 0x00, t] 6000 1 w)
        else
          .ok (if (if txStatus (afterTransaction [0x01, 0x00, t] 6000 1 w) = 0 then
                     txByte (afterTransaction [0x01, 0x00, t] 6000 1 w) 1 else 0) = t
               then t else ERR_UNKNOWN,
               txStatus (afterTransaction [0x01, 0x00, t] 6000 1 w),
               afterTransaction [0x02, 0x00] 6000 2
                 (afterTransaction [0x01, 0x00, t] 6000 1 w)) := by
  have hv : (t != 0 && t != 2 && t != 8) = false := by
    rcases ht with h | h | h <;> subst h <;> decide
  simp only [setDeviceMode, EXIT_BOOTLOADER, RESET, ENTER_BOOTLOADER, hv, Bool.false_eq_true,
    ↓reduceIte, bind, Except.bind, writeByte_run, SET_DEVICE_MODE, READ_DEVICE_MODE,
    readByte_run, pure, Except.pure]
  by_cases h1 : txStatus w = 0
  · simp only [h1, bne_self_eq_false, Bool.false_eq_true, ↓reduceIte, ne_eq, not_true_eq_false]
    generalize (if txStatus (afterTransaction [1, 0, t] 6000 1 w) = 0 then
      txByte (afterTransaction [1, 0, t] 6000 1 w) 1 else 0) = m
    by_cases h2 : m = t
    · simp [h2]
    · simp [h2]
  · simp [h1]

/-- Claim C18. Mode transition is verified by read-back: for every target
mode `t` in {0x00, 0x02, 0x08}, when the mode-set transaction reports
`SUCCESS` and the mode read-back transaction reports `SUCCESS` with mode `m`
(response byte 1), `setDeviceMode t` returns `t` if `m = t` and `ERR_UNKNOWN`
if `m != t`, and leaves `*statusByte = SUCCESS` in both cases. -/
theorem setDeviceMode_verifies_by_read_back (t : Nat) (d1 d2 d3 d4 : List Nat)
    (rest : List BusReply) (log : List Event) (ht : t = 0 ∨ t = 2 ∨ t = 8)
    (hSet : responseByte d2 0 = 0) (hRead : responseByte d4 0 = 0) :
    setDeviceMode t ⟨⟨true, d1⟩ :: ⟨true, d2⟩ :: ⟨true, d3⟩ :: ⟨true, d4⟩ :: rest, log⟩
      = .ok (if responseByte d4 1 = t then t else ERR_UNKNOWN, SUCCESS,
             ⟨rest, log ++ cycle [0x01, 0x00, t] 6000 1 ++ cycle [0x02, 0x00] 6000 2⟩) := by
  rw [setDeviceMode_run t _ ht]
  simp [txStatus, txByte, writeOk, readOk, afterTransaction, hSet, hRead]

/-- Witness of `setDeviceMode_verifies_by_read_back`: `RESET` is requested,
the read-back says application mode (0x00): the call yields `ERR_UNKNOWN`
although both transactions reported `SUCCESS`. -/
theorem setDeviceMode_verifies_by_read_back_witness :
    setDeviceMode 0x02 ⟨[⟨true, []⟩, ⟨true, [0x00]⟩, ⟨true, []⟩, ⟨true, [0x00, 0x00]⟩], []⟩
      = .ok (0xFF, 0x00,
             ⟨[], [] ++ cycle [0x01, 0x00, 0x02] 6000 1 ++ cycle [0x02, 0x00] 6000 2⟩) :=
  setDeviceMode_verifies_by_read_back 0x02 [] [0x00] [] [0x00, 0x00] [] [] (by decide)
    (by decide) (by decide)

/-- Claim C19 fails on the code for the mode 0x00: when the mode-set
transaction succeeds and the read-back transaction fails (the read transfer
fails, or the hub answers `ERR_TRY_AGAIN`), `I2CReadByte` yields the value 0,
which equals the requested mode `EXIT_BOOTLOADER`, and `setDeviceMode` returns
0x00 instead of `ERR_UNKNOWN`, with the error left in `*statusByte` only. -/
theorem setDeviceMode_app_mode_hides_read_back_failure :
    setDeviceMode 0x00 ⟨[⟨true, []⟩, ⟨true, [0x00]⟩, ⟨true, []⟩, ⟨false, []⟩], []⟩
      = .ok (0x00, 0xFF, ⟨[], cycle [0x01, 0x00, 0x00] 6000 1 ++ cycle [0x02, 0x00] 6000 2⟩) ∧
    setDeviceMode 0x00
        ⟨[⟨true, []⟩, ⟨true, [0x00]⟩, ⟨true, []⟩, ⟨true, [0x05, 0x08]⟩], []⟩
      = .ok (0x00, 0x05, ⟨[], cycle [0x01, 0x00, 0x00] 6000 1 ++ cycle [0x02, 0x00] 6000 2⟩) ∧
    (0x00 : Nat) ≠ ERR_UNKNOWN :=
  ⟨rfl, rfl, by decide⟩

/-- Claim C20. Invalid mode is rejected before any bus activity: for every
`operatingMode` other than 0x00, 0x02 and 0x08, `setDeviceMode` returns
`INCORR_PARAM` (0xEE), sets `*statusByte` to `INCORR_PARAM` and leaves the
world as it is: no transfer, no sleep. -/
theorem setDeviceMode_rejects_invalid_mode (t : Nat) (w : World)
    (ht : t ≠ 0 ∧ t ≠ 2 ∧ t ≠ 8) :
    setDeviceMode t w = .ok (INCORR_PARAM, INCORR_PARAM, w) ∧ INCORR_PARAM = 0xEE := by
  obtain ⟨h0, h2, h8⟩ := ht
  simp [setDeviceMode, h0, h2, h8, pure, Except.pure]

/-- Witness of `setDeviceMode_rejects_invalid_mode`: the mode 0x01. -/
theorem setDeviceMode_rejects_invalid_mode_witness :
    setDeviceMode 0x01 ⟨[⟨true, []⟩, ⟨true, [0x00]⟩], []⟩
      = .ok (0xEE, 0xEE, ⟨[⟨true, []⟩, ⟨true, [0x00]⟩], []⟩) :=
  (setDeviceMode_rejects_invalid_mode 0x01 ⟨[⟨true, []⟩, ⟨true, [0x00]⟩], []⟩
    (by decide)).1

/-! ## Settle interval of each library operation -/

theorem transactionsWith_refl (usec : Nat) (w : World) : transactionsWith usec w w :=
  Relation.ReflTransGen.refl

theorem transactionsWith_step (usec : Nat) (written : List Nat) (readCount : Nat)
    (w w1 : World) (h : transactionsWith usec w w1) :
    transactionsWith usec w (afterTransaction written usec readCount w1) :=
  Relation.ReflTransGen.tail h ⟨written, readCount, rfl⟩

/-- The log only grows along transactions, and every sleep added lasts the
settle interval. -/
theorem transactionsWith_sleeps (usec : Nat) (w w1 : World) (h : transactionsWith usec w w1) :
    ∃ added, w1.log = w.log ++ added ∧ ∀ u ∈ sleepsOf added, u = usec := by
  induction h with
  | refl => exact ⟨[], by simp, by simp [sleepsOf]⟩
  | @tail b c _ hstep ih =>
    obtain ⟨added, hlog, hs⟩ := ih
    obtain ⟨written, readCount, rfl⟩ := hstep
    by_cases hw : writeOk b
    · refine ⟨added ++ cycle written usec readCount, ?_, ?_⟩
      · simp [afterTransaction, hw, hlog]
      · intro u hu
        rw [sleepsOf_append] at hu
        rcases List.mem_append.1 hu with h1 | h1
        · exact hs u h1
        · simpa [cycle, sleepsOf] using h1
    · refine ⟨added ++ [.transfer BIO_ADDRESS written 0], ?_, ?_⟩
      · simp [afterTransaction, hw, hlog]
      · intro u hu
        rw [sleepsOf_append] at hu
        rcases List.mem_append.1 hu with h1 | h1
        · exact hs u h1
        · simp [sleepsOf] at h1

/-- Outcome of `I2CReadFillArray` on a fresh local array of `n` elements. -/
theorem readFillArray_fresh (f i n : Nat) (w : World) (h : n ≤ 23) :
    I2CReadFillArray f i n (List.replicate n 0) w
      = .ok (txStatus w,
             if txStatus w = 0 then (List.range n).map (fun j => txByte w (1 + j))
             else List.replicate n 0,
             afterTransaction [f, i] 6000 (1 + n) w) := by
  rw [readFillArray_run f i n _ w h (by simp)]
  simp

theorem rd_map_range {α : Type} (g : Nat → α) (n i : Nat) (h : i < n) :
    rd ((List.range n).map g) i = .ok (g i) := by
  simp [rd, List.getElem?_map, List.getElem?_range h]

/-- Both branches of a conditional return and satisfy `P`. -/
theorem returns_ite {α : Type} (c : Prop) [Decidable c] (a b : Except Fault α) (P : α → Prop)
    (ha : ∃ v, a = .ok v ∧ P v) (hb : ∃ v, b = .ok v ∧ P v) :
    ∃ v, (if c then a else b) = .ok v ∧ P v := by
  split <;> assumption

theorem setOutputMode_settle (x : Nat) (w : World) :
    ∃ v, setOutputMode x w = .ok v ∧ transactionsWith 6000 w v.2 := by
  simp only [setOutputMode, bind, Except.bind, pure, Except.pure, readByte_run, writeByte_run, write2Bytes_run, readBytewithWriteByte_run, readInt_run,
    readIntWithWriteByte_run]
  repeat (first
    | exact ⟨_, rfl, by
        repeat (first | exact transactionsWith_refl _ _ | apply transactionsWith_step)⟩
    | apply returns_ite)

theorem setFifoThreshold_settle (x : Nat) (w : World) :
    ∃ v, setFifoThreshold x w = .ok v ∧ transactionsWith 6000 w v.2 := by
  simp only [setFifoThreshold, bind, Except.bind, pure, Except.pure, readByte_run, writeByte_run, write2Bytes_run, readBytewithWriteByte_run, readInt_run,
    readIntWithWriteByte_run]
  repeat (first
    | exact ⟨_, rfl, by
        repeat (first | exact transactionsWith_refl _ _ | apply transactionsWith_step)⟩
    | apply returns_ite)

theorem setDeviceMode_settle (x : Nat) (w : World) :
    ∃ v, setDeviceMode x w = .ok v ∧ transactionsWith 6000 w v.2.2 := by
  simp only [setDeviceMode, bind, Except.bind, pure, Except.pure, readByte_run, writeByte_run, write2Bytes_run, readBytewithWriteByte_run, readInt_run,
    readIntWithWriteByte_run]
  repeat (first
    | exact ⟨_, rfl, by
        repeat (first | exact transactionsWith_refl _ _ | apply transactionsWith_step)⟩
    | apply returns_ite)

theorem writeRegisterMAX30101_settle (x y : Nat) (w : World) :
    ∃ v, writeRegisterMAX30101 x y w = .ok v ∧ transactionsWith 6000 w v.2 := by
  simp only [writeRegisterMAX30101, bind, Except.bind, pure, Except.pure, readByte_run, writeByte_run, write2Bytes_run, readBytewithWriteByte_run, readInt_run,
    readIntWithWriteByte_run]
  repeat (first
    | exact ⟨_, rfl, by
        repeat (first | exact transactionsWith_refl _ _ | apply transactionsWith_step)⟩
    | apply returns_ite)

theorem numSamplesOutFifo_settle (w : World) :
    ∃ v, numSamplesOutFifo w = .ok v ∧ transactionsWith 6000 w v.2.2 := by
  simp only [numSamplesOutFifo, bind, Except.bind, pure, Except.pure, readByte_run, writeByte_run, write2Bytes_run, readBytewithWriteByte_run, readInt_run,
    readIntWithWriteByte_run]
  repeat (first
    | exact ⟨_, rfl, by
        repeat (first | exact transactionsWith_refl _ _ | apply transactionsWith_step)⟩
    | apply returns_ite)

theorem readMAX30101State_settle (w : World) :
    ∃ v, readMAX30101State w = .ok v ∧ transactionsWith 6000 w v.2.2 := by
  simp only [readMAX30101State, bind, Except.bind, pure, Except.pure, readByte_run, writeByte_run, write2Bytes_run, readBytewithWriteByte_run, readInt_run,
    readIntWithWriteByte_run]
  repeat (first
    | exact ⟨_, rfl, by
        repeat (first | exact transactionsWith_refl _ _ | apply transactionsWith_step)⟩
    | apply returns_ite)

theorem readDeviceMode_settle (w : World) :
    ∃ v, readDeviceMode w = .ok v ∧ transactionsWith 6000 w v.2.2 := by
  simp only [readDeviceMode, bind, Except.bind, pure, Except.pure, readByte_run, writeByte_run, write2Bytes_run, readBytewithWriteByte_run, readInt_run,
    readIntWithWriteByte_run]
  repeat (first
    | exact ⟨_, rfl, by
        repeat (first | exact transactionsWith_refl _ _ | apply transactionsWith_step)⟩
    | apply returns_ite)

theorem readSensorHubStatus_settle (w : World) :
    ∃ v, readSensorHubStatus w = .ok v ∧ transactionsWith 6000 w v.2.2 := by
  simp only [readSensorHubStatus, bind, Except.bind, pure, Except.pure, readByte_run, writeByte_run, write2Bytes_run, readBytewithWriteByte_run, readInt_run,
    readIntWithWriteByte_run]
  repeat (first
    | exact ⟨_, rfl, by
        repeat (first | exact transactionsWith_refl _ _ | apply transactionsWith_step)⟩
    | apply returns_ite)

theorem readAlgoSamples_settle (w : World) :
    ∃ v, readAlgoSamples w = .ok v ∧ transactionsWith 6000 w v.2.2 := by
  simp only [readAlgoSamples, bind, Except.bind, pure, Except.pure, readByte_run, writeByte_run, write2Bytes_run, readBytewithWriteByte_run, readInt_run,
    readIntWithWriteByte_run]
  repeat (first
    | exact ⟨_, rfl, by
        repeat (first | exact transactionsWith_refl _ _ | apply transactionsWith_step)⟩
    | apply returns_ite)

theorem readAlgoRange_settle (w : World) :
    ∃ v, readAlgoRange w = .ok v ∧ transactionsWith 6000 w v.2.2 := by
  simp only [readAlgoRange, bind, Except.bind, pure, Except.pure, readByte_run, writeByte_run, write2Bytes_run, readBytewithWriteByte_run, readInt_run,
    readIntWithWriteByte_run]
  repeat (first
    | exact ⟨_, rfl, by
        repeat (first | exact transactionsWith_refl _ _ | apply transactionsWith_step)⟩
    | apply returns_ite)

theorem readAlgoStepSize_settle (w : World) :
    ∃ v, readAlgoStepSize w = .ok v ∧ transactionsWith 6000 w v.2.2 := by
  simp only [readAlgoStepSize, bind, Except.bind, pure, Except.pure, readByte_run, writeByte_run, write2Bytes_run, readBytewithWriteByte_run, readInt_run,
    readIntWithWriteByte_run]
  repeat (first
    | exact ⟨_, rfl, by
        repeat (first | exact transactionsWith_refl _ _ | apply transactionsWith_step)⟩
    | apply returns_ite)

theorem readAlgoSensitivity_settle (w : World) :
    ∃ v, readAlgoSensitivity w = .ok v ∧ transactionsWith 6000 w v.2.2 := by
  simp only [readAlgoSensitivity, bind, Except.bind, pure, Except.pure, readByte_run, writeByte_run, write2Bytes_run, readBytewithWriteByte_run, readInt_run,
    readIntWithWriteByte_run]
  repeat (first
    | exact ⟨_, rfl, by
        repeat (first | exact transactionsWith_refl _ _ | apply transactionsWith_step)⟩
    | apply returns_ite)

theorem readAlgoSampleRate_settle (w : World) :
    ∃ v, readAlgoSampleRate w = .ok v ∧ transactionsWith 6000 w v.2.2 := by
  simp only [readAlgoSampleRate, bind, Except.bind, pure, Except.pure, readByte_run, writeByte_run, write2Bytes_run, readBytewithWriteByte_run, readInt_run,
    readIntWithWriteByte_run]
  repeat (first
    | exact ⟨_, rfl, by
        repeat (first | exact transactionsWith_refl _ _ | apply transactionsWith_step)⟩
    | apply returns_ite)

theorem getMcuType_settle (w : World) :
    ∃ v, getMcuType w = .ok v ∧ transactionsWith 6000 w v.2.2 := by
  simp only [getMcuType, bind, Except.bind, pure, Except.pure, readByte_run, writeByte_run, write2Bytes_run, readBytewithWriteByte_run, readInt_run,
    readIntWithWriteByte_run]
  repeat (first
    | exact ⟨_, rfl, by
        repeat (first | exact transactionsWith_refl _ _ | apply transactionsWith_step)⟩
    | apply returns_ite)

theorem readRegisterMAX30101_settle (x : Nat) (w : World) :
    ∃ v, readRegisterMAX30101 x w = .ok v ∧ transactionsWith 6000 w v.2.2 := by
  simp only [readRegisterMAX30101, bind, Except.bind, pure, Except.pure, readByte_run, writeByte_run, write2Bytes_run, readBytewithWriteByte_run, readInt_run,
    readIntWithWriteByte_run]
  repeat (first
    | exact ⟨_, rfl, by
        repeat (first | exact transactionsWith_refl _ _ | apply transactionsWith_step)⟩
    | apply returns_ite)

theorem readADCSampleRate_settle (w : World) :
    ∃ v, readADCSampleRate w = .ok v ∧ transactionsWith 6000 w v.2.2 := by
  simp only [readADCSampleRate, readRegisterMAX30101, bind, Except.bind, pure, Except.pure, readByte_run, writeByte_run, write2Bytes_run, readBytewithWriteByte_run, readInt_run,
    readIntWithWriteByte_run]
  repeat (first
    | exact ⟨_, rfl, by
        repeat (first | exact transactionsWith_refl _ _ | apply transactionsWith_step)⟩
    | apply returns_ite)

theorem readADCRange_settle (w : World) :
    ∃ v, readADCRange w = .ok v ∧ transactionsWith 6000 w v.2.2 := by
  simp only [readADCRange, readRegisterMAX30101, bind, Except.bind, pure, Except.pure, readByte_run, writeByte_run, write2Bytes_run, readBytewithWriteByte_run, readInt_run,
    readIntWithWriteByte_run]
  repeat (first
    | exact ⟨_, rfl, by
        repeat (first | exact transactionsWith_refl _ _ | apply transactionsWith_step)⟩
    | apply returns_ite)

theorem readPulseWidth_settle (w : World) :
    ∃ v, readPulseWidth w = .ok v ∧ transactionsWith 6000 w v.2.2 := by
  simp only [readPulseWidth, readRegisterMAX30101, bind, Except.bind, pure, Except.pure, readByte_run, writeByte_run, write2Bytes_run, readBytewithWriteByte_run, readInt_run,
    readIntWithWriteByte_run]
  repeat (first
    | exact ⟨_, rfl, by
        repeat (first | exact transactionsWith_refl _ _ | apply transactionsWith_step)⟩
    | apply returns_ite)

theorem readMAX30101Mode_settle (w : World) :
    ∃ v, readMAX30101Mode w = .ok v ∧ transactionsWith 6000 w v.2.2 := by
  simp only [readMAX30101Mode, readRegisterMAX30101, bind, Except.bind, pure, Except.pure, readByte_run, writeByte_run, write2Bytes_run, readBytewithWriteByte_run, readInt_run,
    readIntWithWriteByte_run]
  repeat (first
    | exact ⟨_, rfl, by
        repeat (first | exact transactionsWith_refl _ _ | apply transactionsWith_step)⟩
    | apply returns_ite)

theorem readMaximFastCoef_settle (c0 c1 c2 : Int) (rest : List Int) (w : World) :
    ∃ v, readMaximFastCoef (c0 :: c1 :: c2 :: rest) w = .ok v ∧
      transactionsWith 6000 w v.2.2 := by
  simp only [readMaximFastCoef, NUM_MAXIM_FAST_COEF, bind, Except.bind, pure, Except.pure,
    readMultiple32_run _ _ _ 3 (c0 :: c1 :: c2 :: rest) w (by decide) (by simp)]
  repeat (first
    | exact ⟨_, rfl, by
        repeat (first | exact transactionsWith_refl _ _ | apply transactionsWith_step)⟩
    | apply returns_ite)

theorem readPulseAmp_settle (a0 a1 a2 a3 : Nat) (rest : List Nat) (w : World) :
    ∃ v, readPulseAmp (a0 :: a1 :: a2 :: a3 :: rest) w = .ok v ∧
      transactionsWith 6000 w v.2.2.2 := by
  simp only [readPulseAmp, readRegisterMAX30101, wr, List.length_cons, List.length_set,
    Nat.lt_add_left_iff_pos, Nat.zero_lt_succ, Nat.succ_lt_succ_iff, Nat.lt_add_one, ↓reduceIte,
    bind, Except.bind, pure, Except.pure, readByte_run, writeByte_run, write2Bytes_run, readBytewithWriteByte_run, readInt_run,
    readIntWithWriteByte_run]
  repeat (first
    | exact ⟨_, rfl, by
        repeat (first | exact transactionsWith_refl _ _ | apply transactionsWith_step)⟩
    | apply returns_ite)

theorem readSensorHubVersion_settle (w : World) :
    ∃ v, readSensorHubVersion w = .ok v ∧ transactionsWith 6000 w v.2.2 := by
  simp only [readSensorHubVersion, bind, Except.bind, readFillArray_fresh _ _ 3 w (by decide),
    pure, Except.pure]
  by_cases h : txStatus w = 0
  · simp only [h, SUCCESS, bne_self_eq_false, Bool.false_eq_true, ↓reduceIte,
      rd_map_range _ 3 0 (by decide),
      rd_map_range _ 3 1 (by decide),
      rd_map_range _ 3 2 (by decide)]
    repeat (first
      | exact ⟨_, rfl, by
          repeat (first | exact transactionsWith_refl _ _ | apply transactionsWith_step)⟩
      | apply returns_ite)
  · have hb : (txStatus w != 0) = true := by simpa using h
    simp only [SUCCESS, hb, ↓reduceIte]
    repeat (first
      | exact ⟨_, rfl, by
          repeat (first | exact transactionsWith_refl _ _ | apply transactionsWith_step)⟩
      | apply returns_ite)

theorem readAlgorithmVersion_settle (w : World) :
    ∃ v, readAlgorithmVersion w = .ok v ∧ transactionsWith 6000 w v.2.2 := by
  simp only [readAlgorithmVersion, bind, Except.bind, readFillArray_fresh _ _ 3 w (by decide),
    pure, Except.pure]
  by_cases h : txStatus w = 0
  · simp only [h, bne_self_eq_false, Bool.false_eq_true, ↓reduceIte,
      rd_map_range _ 3 0 (by decide),
      rd_map_range _ 3 1 (by decide),
      rd_map_range _ 3 2 (by decide)]
    repeat (first
      | exact ⟨_, rfl, by
          repeat (first | exact transactionsWith_refl _ _ | apply transactionsWith_step)⟩
      | apply returns_ite)
  · have hb : (txStatus w != 0) = true := by simpa using h
    simp only [hb, ↓reduceIte]
    repeat (first
      | exact ⟨_, rfl, by
          repeat (first | exact transactionsWith_refl _ _ | apply transactionsWith_step)⟩
      | apply returns_ite)

theorem readBootloaderVersion_settle (w : World) :
    ∃ v, readBootloaderVersion w = .ok v ∧ transactionsWith 6000 w v.2.2 := by
  simp only [readBootloaderVersion, bind, Except.bind, readFillArray_fresh _ _ 3 w (by decide),
    pure, Except.pure]
  by_cases h : txStatus w = 0
  · simp only [h, bne_self_eq_false, Bool.false_eq_true, ↓reduceIte,
      rd_map_range _ 3 0 (by decide),
      rd_map_range _ 3 1 (by decide),
      rd_map_range _ 3 2 (by decide)]
    repeat (first
      | exact ⟨_, rfl, by
          repeat (first | exact transactionsWith_refl _ _ | apply transactionsWith_step)⟩
      | apply returns_ite)
  · have hb : (txStatus w != 0) = true := by simpa using h
    simp only [hb, ↓reduceIte]
    repeat (first
      | exact ⟨_, rfl, by
          repeat (first | exact transactionsWith_refl _ _ | apply transactionsWith_step)⟩
      | apply returns_ite)

theorem getAfeAttributesMAX30101_settle (w : World) :
    ∃ v, getAfeAttributesMAX30101 w = .ok v ∧ transactionsWith 6000 w v.2.2 := by
  have e : ([0, 0] : List Nat) = List.replicate 2 0 := rfl
  simp only [getAfeAttributesMAX30101, e, bind, Except.bind, readFillArray_fresh _ _ 2 w (by decide),
    pure, Except.pure]
  by_cases h : txStatus w = 0
  · simp only [h, SUCCESS, bne_self_eq_false, Bool.false_eq_true, ↓reduceIte,
      rd_map_range _ 2 0 (by decide),
      rd_map_range _ 2 1 (by decide)]
    repeat (first
      | exact ⟨_, rfl, by
          repeat (first | exact transactionsWith_refl _ _ | apply transactionsWith_step)⟩
      | apply returns_ite)
  · have hb : (txStatus w != 0) = true := by simpa using h
    simp only [SUCCESS, hb, ↓reduceIte]
    repeat (first
      | exact ⟨_, rfl, by
          repeat (first | exact transactionsWith_refl _ _ | apply transactionsWith_step)⟩
      | apply returns_ite)

theorem getAfeAttributesAccelerometer_settle (w : World) :
    ∃ v, getAfeAttributesAccelerometer w = .ok v ∧ transactionsWith 6000 w v.2.2 := by
  have e : ([0, 0] : List Nat) = List.replicate 2 0 := rfl
  simp only [getAfeAttributesAccelerometer, e, bind, Except.bind, readFillArray_fresh _ _ 2 w (by decide),
    pure, Except.pure]
  by_cases h : txStatus w = 0
  · simp only [h, SUCCESS, bne_self_eq_false, Bool.false_eq_true, ↓reduceIte,
      rd_map_range _ 2 0 (by decide),
      rd_map_range _ 2 1 (by decide)]
    repeat (first
      | exact ⟨_, rfl, by
          repeat (first | exact transactionsWith_refl _ _ | apply transactionsWith_step)⟩
      | apply returns_ite)
  · have hb : (txStatus w != 0) = true := by simpa using h
    simp only [SUCCESS, hb, ↓reduceIte]
    repeat (first
      | exact ⟨_, rfl, by
          repeat (first | exact transactionsWith_refl _ _ | apply transactionsWith_step)⟩
      | apply returns_ite)

theorem getExtAccelMode_settle (w : World) :
    ∃ v, getExtAccelMode w = .ok v ∧ transactionsWith 6000 w v.2.2 := by
  have e : ([0, 0] : List Nat) = List.replicate 2 0 := rfl
  simp only [getExtAccelMode, e, bind, Except.bind, readFillArray_fresh _ _ 2 w (by decide),
    pure, Except.pure]
  by_cases h : txStatus w = 0
  · simp only [h, ↓reduceIte, rd_map_range _ 2 0 (by decide), rd_map_range _ 2 1 (by decide)]
    repeat (first
      | exact ⟨_, rfl, by
          repeat (first | exact transactionsWith_refl _ _ | apply transactionsWith_step)⟩
      | apply returns_ite)
  · simp only [h, ↓reduceIte]
    repeat (first
      | exact ⟨_, rfl, by
          repeat (first | exact transactionsWith_refl _ _ | apply transactionsWith_step)⟩
      | apply returns_ite)

theorem transactionsWith_trans (usec : Nat) (w w1 w2 : World)
    (h1 : transactionsWith usec w w1) (h2 : transactionsWith usec w1 w2) :
    transactionsWith usec w w2 :=
  Relation.ReflTransGen.trans h1 h2

theorem readRawData_settle (m : Nat) (w : World) :
    ∃ v, readRawData m w = .ok v ∧ transactionsWith 6000 w v.2.2 := by
  unfold readRawData
  apply returns_ite
  · exact ⟨_, rfl, transactionsWith_refl _ _⟩
  · simp only [MAX30101_LED_ARRAY, bind, Except.bind, readFillArray_fresh _ _ 12 w (by decide),
      pure, Except.pure]
    by_cases h : txStatus w = 0
    · simp only [h, SUCCESS, bne_self_eq_false, Bool.false_eq_true, ↓reduceIte,
        rd_map_range _ 12 0 (by decide),
        rd_map_range _ 12 1 (by decide),
        rd_map_range _ 12 2 (by decide),
        rd_map_range _ 12 3 (by decide),
        rd_map_range _ 12 4 (by decide),
        rd_map_range _ 12 5 (by decide)]
      repeat (first
        | exact ⟨_, rfl, by
            repeat (first | exact transactionsWith_refl _ _ | apply transactionsWith_step)⟩
        | apply returns_ite)
    · have hb : (txStatus w != 0) = true := by simpa using h
      simp only [SUCCESS, hb, ↓reduceIte]
      repeat (first
        | exact ⟨_, rfl, by
            repeat (first | exact transactionsWith_refl _ _ | apply transactionsWith_step)⟩
        | apply returns_ite)

theorem readAlgoData_settle (m a : Nat) (w : World) :
    ∃ v, readAlgoData m a w = .ok v ∧ transactionsWith 6000 w v.2.2 := by
  unfold readAlgoData
  apply returns_ite
  · exact ⟨_, rfl, transactionsWith_refl _ _⟩
  apply returns_ite
  · simp only [MAXFAST_ARRAY_SIZE, bind, Except.bind, readFillArray_fresh _ _ 6 w (by decide),
      pure, Except.pure]
    by_cases h : txStatus w = 0
    · simp only [h, bne_self_eq_false, Bool.false_eq_true, ↓reduceIte,
        rd_map_range _ 6 0 (by decide),
        rd_map_range _ 6 1 (by decide),
        rd_map_range _ 6 2 (by decide),
        rd_map_range _ 6 3 (by decide),
        rd_map_range _ 6 4 (by decide),
        rd_map_range _ 6 5 (by decide)]
      repeat (first
        | exact ⟨_, rfl, by
            repeat (first | exact transactionsWith_refl _ _ | apply transactionsWith_step)⟩
        | apply returns_ite)
    · have hb : (txStatus w != 0) = true := by simpa using h
      simp only [hb, ↓reduceIte]
      repeat (first
        | exact ⟨_, rfl, by
            repeat (first | exact transactionsWith_refl _ _ | apply transactionsWith_step)⟩
        | apply returns_ite)
  apply returns_ite
  · simp only [MAXFAST_ARRAY_SIZE, MAXFAST_EXTENDED_DATA, Nat.reduceAdd, bind, Except.bind, readFillArray_fresh _ _ 11 w (by decide),
      pure, Except.pure]
    by_cases h : txStatus w = 0
    · simp only [h, bne_self_eq_false, Bool.false_eq_true, ↓reduceIte,
        rd_map_range _ 11 0 (by decide),
        rd_map_range _ 11 1 (by decide),
        rd_map_range _ 11 2 (by decide),
        rd_map_range _ 11 3 (by decide),
        rd_map_range _ 11 4 (by decide),
        rd_map_range _ 11 5 (by decide),
        rd_map_range _ 11 6 (by decide),
        rd_map_range _ 11 7 (by decide),
        rd_map_range _ 11 8 (by decide)]
      repeat (first
        | exact ⟨_, rfl, by
            repeat (first | exact transactionsWith_refl _ _ | apply transactionsWith_step)⟩
        | apply returns_ite)
    · have hb : (txStatus w != 0) = true := by simpa using h
      simp only [hb, ↓reduceIte]
      repeat (first
        | exact ⟨_, rfl, by
            repeat (first | exact transactionsWith_refl _ _ | apply transactionsWith_step)⟩
        | apply returns_ite)
  · exact ⟨_, rfl, transactionsWith_refl _ _⟩

theorem readRawAndAlgoData_settle (m a : Nat) (w : World) :
    ∃ v, readRawAndAlgoData m a w = .ok v ∧ transactionsWith 6000 w v.2.2 := by
  unfold readRawAndAlgoData
  apply returns_ite
  · exact ⟨_, rfl, transactionsWith_refl _ _⟩
  apply returns_ite
  · simp only [MAX30101_LED_ARRAY, MAXFAST_ARRAY_SIZE, Nat.reduceAdd, bind, Except.bind, readFillArray_fresh _ _ 18 w (by decide),
      pure, Except.pure]
    by_cases h : txStatus w = 0
    · simp only [h, bne_self_eq_false, Bool.false_eq_true, ↓reduceIte,
        rd_map_range _ 18 0 (by decide),
        rd_map_range _ 18 1 (by decide),
        rd_map_range _ 18 2 (by decide),
        rd_map_range _ 18 3 (by decide),
        rd_map_range _ 18 4 (by decide),
        rd_map_range _ 18 5 (by decide),
        rd_map_range _ 18 12 (by decide),
        rd_map_range _ 18 13 (by decide),
        rd_map_range _ 18 14 (by decide),
        rd_map_range _ 18 15 (by decide),
        rd_map_range _ 18 16 (by decide),
        rd_map_range _ 18 17 (by decide)]
      repeat (first
        | exact ⟨_, rfl, by
            repeat (first | exact transactionsWith_refl _ _ | apply transactionsWith_step)⟩
        | apply returns_ite)
    · have hb : (txStatus w != 0) = true := by simpa using h
      simp only [hb, ↓reduceIte]
      repeat (first
        | exact ⟨_, rfl, by
            repeat (first | exact transactionsWith_refl _ _ | apply transactionsWith_step)⟩
        | apply returns_ite)
  apply returns_ite
  · simp only [MAX30101_LED_ARRAY, MAXFAST_ARRAY_SIZE, MAXFAST_EXTENDED_DATA, Nat.reduceAdd, bind, Except.bind, readFillArray_fresh _ _ 23 w (by decide),
      pure, Except.pure]
    by_cases h : txStatus w = 0
    · simp only [h, bne_self_eq_false, Bool.false_eq_true, ↓reduceIte,
        rd_map_range _ 23 0 (by decide),
        rd_map_range _ 23 1 (by decide),
        rd_map_range _ 23 2 (by decide),
        rd_map_range _ 23 3 (by decide),
        rd_map_range _ 23 4 (by decide),
        rd_map_range _ 23 5 (by decide),
        rd_map_range _ 23 12 (by decide),
        rd_map_range _ 23 13 (by decide),
        rd_map_range _ 23 14 (by decide),
        rd_map_range _ 23 15 (by decide),
        rd_map_range _ 23 16 (by decide),
        rd_map_range _ 23 17 (by decide),
        rd_map_range _ 23 18 (by decide),
        rd_map_range _ 23 19 (by decide),
        rd_map_range _ 23 20 (by decide)]
      repeat (first
        | exact ⟨_, rfl, by
            repeat (first | exact transactionsWith_refl _ _ | apply transactionsWith_step)⟩
        | apply returns_ite)
    · have hb : (txStatus w != 0) = true := by simpa using h
      simp only [hb, ↓reduceIte]
      repeat (first
        | exact ⟨_, rfl, by
            repeat (first | exact transactionsWith_refl _ _ | apply transactionsWith_step)⟩
        | apply returns_ite)
  · exact ⟨_, rfl, transactionsWith_refl _ _⟩

/-- A reader followed by the reset of the data on a status other than
`SUCCESS`, as in `readSensorData`. -/
theorem dispatch_settle (r : Except Fault (bioData × Nat × World)) (w w0 : World)
    (h0 : transactionsWith 6000 w0 w)
    (h : ∃ v, r = .ok v ∧ transactionsWith 6000 w v.2.2) :
    ∃ v, (do
        let (libData, statusByte, w) ← r
        if statusByte != SUCCESS then
          return (allZero, statusByte, w)
        else
          return (libData, statusByte, w)) = .ok v ∧ transactionsWith 6000 w0 v.2.2 := by
  obtain ⟨⟨d, s, w1⟩, rfl, ht⟩ := h
  simp only [bind, Except.bind, pure, Except.pure]
  apply returns_ite <;> exact ⟨_, rfl, transactionsWith_trans _ _ _ _ h0 ht⟩

theorem readSensorData_settle (m a : Nat) (w : World) :
    ∃ v, readSensorData m a w = .ok v ∧ transactionsWith 6000 w v.2.2 := by
  simp only [readSensorData, readSensorHubStatus, numSamplesOutFifo, bind, Except.bind, pure,
    Except.pure, readByte_run]
  repeat (first
    | exact ⟨_, rfl, by
        repeat (first | exact transactionsWith_refl _ _ | apply transactionsWith_step)⟩
    | apply returns_ite
    | exact dispatch_settle _ _ _ (by
        repeat (first | exact transactionsWith_refl _ _ | apply transactionsWith_step))
        (readRawData_settle _ _)
    | exact dispatch_settle _ _ _ (by
        repeat (first | exact transactionsWith_refl _ _ | apply transactionsWith_step))
        (readAlgoData_settle _ _ _)
    | exact dispatch_settle _ _ _ (by
        repeat (first | exact transactionsWith_refl _ _ | apply transactionsWith_step))
        (readRawAndAlgoData_settle _ _ _))

/-- Outcome of `agcAlgoControl` for a valid parameter in any world. -/
theorem agcAlgoControl_run (e : Nat) (w : World) (he : e = 0 ∨ e = 1) :
    agcAlgoControl e w = .ok (txStatus w, afterTransaction [0x52, 0x00, e] 50000 1 w) := by
  have hv : (e == 0 || e == 1) = true := by
    rcases he with h | h <;> subst h <;> decide
  simp only [agcAlgoControl, hv, ↓reduceIte, bind, Except.bind, enableWriteByte_run, pure,
    Except.pure, ENABLE_ALGORITHM, ENABLE_AGC_ALGO, SUCCESS]
  by_cases h : txStatus w = 0 <;> simp [h]

/-- Outcome of `max30101Control` for a valid parameter in any world. -/
theorem max30101Control_run (e : Nat) (w : World) (he : e = 0 ∨ e = 1) :
    max30101Control e w = .ok (txStatus w, afterTransaction [0x44, 0x03, e] 50000 1 w) := by
  have hv : (e == 0 || e == 1) = true := by
    rcases he with h | h <;> subst h <;> decide
  simp only [max30101Control, hv, ↓reduceIte, bind, Except.bind, enableWriteByte_run, pure,
    Except.pure, ENABLE_SENSOR, ENABLE_MAX30101, SUCCESS]
  by_cases h : txStatus w = 0 <;> simp [h]

/-- Outcome of `maximFastAlgoControl` for a valid parameter in any world. -/
theorem maximFastAlgoControl_run (e : Nat) (w : World) (he : e = 0 ∨ e = 1 ∨ e = 2) :
    maximFastAlgoControl e w
      = .ok (txStatus w, afterTransaction [0x52, 0x02, e] 50000 1 w) := by
  have hv : (e == 0 || e == 1 || e == 2) = true := by
    rcases he with h | h | h <;> subst h <;> decide
  simp only [maximFastAlgoControl, hv, ↓reduceIte, bind, Except.bind, enableWriteByte_run, pure,
    Except.pure, ENABLE_ALGORITHM, ENABLE_WHRM_ALGO, SUCCESS]
  by_cases h : txStatus w = 0 <;> simp [h]

/-- Claim C17. Long delay only for enable/disable commands: in every world,
`agcAlgoControl` (parameter 0 or 1), `max30101Control` (parameter 0 or 1) and
`maximFastAlgoControl` (parameter 0, 1 or 2) return after exactly one
transaction whose settle interval is 50000 microseconds, and each of
`setOutputMode`, `setFifoThreshold`, `setDeviceMode`, `writeRegisterMAX30101`
and the read operations of the library returns after a sequence of
transactions that all have the settle interval 6000 microseconds
(`transactionsWith`: a sleep occurs only between the write transfer and the
read transfer of a transaction whose write transfer succeeded, and lasts the
settle interval), for all their parameters. The read operations are
`numSamplesOutFifo`, `readMAX30101State`, `readDeviceMode`,
`readSensorHubStatus`, `readAlgoSamples`, `readAlgoRange`, `readAlgoStepSize`,
`readAlgoSensitivity`, `readAlgoSampleRate`, `readMaximFastCoef`,
`readSensorHubVersion`, `readAlgorithmVersion`, `readBootloaderVersion`,
`getMcuType`, `readADCSampleRate`, `readADCRange`, `readPulseWidth`,
`readPulseAmp`, `readMAX30101Mode`, `getAfeAttributesMAX30101`,
`getAfeAttributesAccelerometer`, `getExtAccelMode`, `readRegisterMAX30101`,
`readRawData`, `readAlgoData`, `readRawAndAlgoData` and `readSensorData`;
`readMaximFastCoef` and `readPulseAmp` get caller arrays of at least three
and four elements. -/
theorem long_settle_only_for_enable_commands (w : World) (x y m a a0 a1 a2 a3 : Nat)
    (leds : List Nat) (c0 c1 c2 : Int) (coefs : List Int) :
    (agcAlgoControl 0 w = .ok (txStatus w, afterTransaction [0x52, 0x00, 0] 50000 1 w) ∧
     agcAlgoControl 1 w = .ok (txStatus w, afterTransaction [0x52, 0x00, 1] 50000 1 w) ∧
     max30101Control 0 w = .ok (txStatus w, afterTransaction [0x44, 0x03, 0] 50000 1 w) ∧
     max30101Control 1 w = .ok (txStatus w, afterTransaction [0x44, 0x03, 1] 50000 1 w) ∧
     maximFastAlgoControl 0 w
       = .ok (txStatus w, afterTransaction [0x52, 0x02, 0] 50000 1 w) ∧
     maximFastAlgoControl 1 w
       = .ok (txStatus w, afterTransaction [0x52, 0x02, 1] 50000 1 w) ∧
     maximFastAlgoControl 2 w
       = .ok (txStatus w, afterTransaction [0x52, 0x02, 2] 50000 1 w)) ∧
    ((∃ v, setOutputMode x w = .ok v ∧ transactionsWith 6000 w v.2) ∧
     (∃ v, setFifoThreshold x w = .ok v ∧ transactionsWith 6000 w v.2) ∧
     (∃ v, setDeviceMode x w = .ok v ∧ transactionsWith 6000 w v.2.2) ∧
     (∃ v, writeRegisterMAX30101 x y w = .ok v ∧ transactionsWith 6000 w v.2)) ∧
    ((∃ v, numSamplesOutFifo w = .ok v ∧ transactionsWith 6000 w v.2.2) ∧
     (∃ v, readMAX30101State w = .ok v ∧ transactionsWith 6000 w v.2.2) ∧
     (∃ v, readDeviceMode w = .ok v ∧ transactionsWith 6000 w v.2.2) ∧
     (∃ v, readSensorHubStatus w = .ok v ∧ transactionsWith 6000 w v.2.2) ∧
     (∃ v, readAlgoSamples w = .ok v ∧ transactionsWith 6000 w v.2.2) ∧
     (∃ v, readAlgoRange w = .ok v ∧ transactionsWith 6000 w v.2.2) ∧
     (∃ v, readAlgoStepSize w = .ok v ∧ transactionsWith 6000 w v.2.2) ∧
     (∃ v, readAlgoSensitivity w = .ok v ∧ transactionsWith 6000 w v.2.2) ∧
     (∃ v, readAlgoSampleRate w = .ok v ∧ transactionsWith 6000 w v.2.2) ∧
     (∃ v, readMaximFastCoef (c0 :: c1 :: c2 :: coefs) w = .ok v ∧
        transactionsWith 6000 w v.2.2) ∧
     (∃ v, readSensorHubVersion w = .ok v ∧ transactionsWith 6000 w v.2.2) ∧
     (∃ v, readAlgorithmVersion w = .ok v ∧ transactionsWith 6000 w v.2.2) ∧
     (∃ v, readBootloaderVersion w = .ok v ∧ transactionsWith 6000 w v.2.2) ∧
     (∃ v, getMcuType w = .ok v ∧ transactionsWith 6000 w v.2.2) ∧
     (∃ v, readADCSampleRate w = .ok v ∧ transactionsWith 6000 w v.2.2) ∧
     (∃ v, readADCRange w = .ok v ∧ transactionsWith 6000 w v.2.2) ∧
     (∃ v, readPulseWidth w = .ok v ∧ transactionsWith 6000 w v.2.2) ∧
     (∃ v, readPulseAmp (a0 :: a1 :: a2 :: a3 :: leds) w = .ok v ∧
        transactionsWith 6000 w v.2.2.2) ∧
     (∃ v, readMAX30101Mode w = .ok v ∧ transactionsWith 6000 w v.2.2) ∧
     (∃ v, getAfeAttributesMAX30101 w = .ok v ∧ transactionsWith 6000 w v.2.2) ∧
     (∃ v, getAfeAttributesAccelerometer w = .ok v ∧ transactionsWith 6000 w v.2.2) ∧
     (∃ v, getExtAccelMode w = .ok v ∧ transactionsWith 6000 w v.2.2) ∧
     (∃ v, readRegisterMAX30101 x w = .ok v ∧ transactionsWith 6000 w v.2.2) ∧
     (∃ v, readRawData m w = .ok v ∧ transactionsWith 6000 w v.2.2) ∧
     (∃ v, readAlgoData m a w = .ok v ∧ transactionsWith 6000 w v.2.2) ∧
     (∃ v, readRawAndAlgoData m a w = .ok v ∧ transactionsWith 6000 w v.2.2) ∧
     (∃ v, readSensorData m a w = .ok v ∧ transactionsWith 6000 w v.2.2)) :=
  ⟨⟨agcAlgoControl_run 0 w (by decide), agcAlgoControl_run 1 w (by decide),
    max30101Control_run 0 w (by decide), max30101Control_run 1 w (by decide),
    maximFastAlgoControl_run 0 w (by decide), maximFastAlgoControl_run 1 w (by decide),
    maximFastAlgoControl_run 2 w (by decide)⟩,
   ⟨setOutputMode_settle x w, setFifoThreshold_settle x w, setDeviceMode_settle x w,
    writeRegisterMAX30101_settle x y w⟩,
   ⟨numSamplesOutFifo_settle w, readMAX30101State_settle w, readDeviceMode_settle w,
    readSensorHubStatus_settle w, readAlgoSamples_settle w, readAlgoRange_settle w,
    readAlgoStepSize_settle w, readAlgoSensitivity_settle w, readAlgoSampleRate_settle w,
    readMaximFastCoef_settle c0 c1 c2 coefs w, readSensorHubVersion_settle w,
    readAlgorithmVersion_settle w, readBootloaderVersion_settle w, getMcuType_settle w,
    readADCSampleRate_settle w, readADCRange_settle w, readPulseWidth_settle w,
    readPulseAmp_settle a0 a1 a2 a3 leds w, readMAX30101Mode_settle w,
    getAfeAttributesMAX30101_settle w, getAfeAttributesAccelerometer_settle w,
    getExtAccelMode_settle w, readRegisterMAX30101_settle x w, readRawData_settle m w,
    readAlgoData_settle m a w, readRawAndAlgoData_settle m a w, readSensorData_settle m a w⟩⟩

/-! ## Decoding of the sensor data -/

theorem txByte_lt (w : World) (j : Nat) : txByte w j < 256 := by
  unfold txByte
  exact responseByte_lt _ _

/-- Values of the floating point operations: 0.1 in `double` and in `float`,
two integers half way between two `float`s, which go to the even mantissa,
the largest 16 bit word, which its conversion to `float` keeps, and the
quotients that `rValue /= 10.0` leaves from the words 65535 and 703. -/
theorem float_rounding_examples :
    toDouble (1 / 10) = 3602879701896397 / 36028797018963968 ∧
    toFloat (1 / 10) = 13421773 / 134217728 ∧
    toFloat 16777217 = 16777216 ∧ toFloat 16777219 = 16777220 ∧
    floatOfUInt 65535 = 65535 ∧
    floatDivTen (floatOfUInt 65535) = 13107 / 2 ∧
    floatDivTen (floatOfUInt 703) = 4607181 / 65536 := by
  decide!

/-- The three `uint32_t` assignments that assemble a 24-bit LED count. -/
theorem led24 (a b c : Nat) (ha : a < 256) (hb : b < 256) (hc : c < 256) :
    toUInt32 (toUInt32 (toUInt32 (toUInt32 a <<< 16) ||| toUInt32 (toUInt32 b <<< 8))
      ||| toUInt32 c) = 65536 * a + 256 * b + c := by
  have e1 : toUInt32 a = a := by unfold toUInt32; omega
  have e2 : toUInt32 b = b := by unfold toUInt32; omega
  have e3 : toUInt32 c = c := by unfold toUInt32; omega
  have s1 : a <<< 16 = a * 256 * 256 := by simp only [Nat.shiftLeft_eq, Nat.reducePow,
    Nat.mul_assoc, Nat.reduceMul]
  have s2 : b <<< 8 = b * 256 := by simp only [Nat.shiftLeft_eq, Nat.reducePow, Nat.mul_assoc,
    Nat.reduceMul]
  have o1 : a * 256 * 256 ||| b * 256 = (a * 256 + b) * 256 := by
    have e := or_mul_two_pow (a * 256) b 8
    simp only [Nat.reducePow] at e
    rw [e, mul_or_byte a b hb]
  rw [e1, e2, e3, s1, s2]
  have t1 : toUInt32 (a * 256 * 256) = a * 256 * 256 := by unfold toUInt32; omega
  have t2 : toUInt32 (b * 256) = b * 256 := by unfold toUInt32; omega
  rw [t1, t2, o1]
  have t3 : toUInt32 ((a * 256 + b) * 256) = (a * 256 + b) * 256 := by unfold toUInt32; omega
  rw [t3, mul_or_byte _ c hc]
  unfold toUInt32
  omega

/-- The two `uint16_t` assignments that assemble a 16-bit word. -/
theorem word16 (a b : Nat) (ha : a < 256) (hb : b < 256) :
    toUInt16 (toUInt16 (toUInt16 a <<< 8) ||| b) = 256 * a + b := by
  have e1 : toUInt16 a = a := by unfold toUInt16; omega
  have s1 : a <<< 8 = a * 256 := by simp only [Nat.shiftLeft_eq, Nat.reducePow, Nat.mul_assoc,
    Nat.reduceMul]
  have t1 : toUInt16 (a * 256) = a * 256 := by unfold toUInt16; omega
  rw [e1, s1, t1, mul_or_byte a b hb]
  unfold toUInt16
  omega

/-- The division by ten of a 16-bit word stays a 16-bit word. -/
theorem tenth16 (a b : Nat) (ha : a < 256) (hb : b < 256) :
    toUInt16 ((256 * a + b) / 10) = (256 * a + b) / 10 := by
  unfold toUInt16
  omega

theorem toInt8_byte (b : Nat) (hb : b < 256) : toInt8 b = twosComplement8 b := by
  unfold toInt8 twosComplement8
  have e : b % 256 = b := Nat.mod_eq_of_lt hb
  rw [e]

/-- Outcome of `readRawData` in any world when the output mode is
`SENSOR_DATA`. -/
theorem readRawData_run (w : World) :
    readRawData 0x01 w
      = .ok (if txStatus w = 0 then
               { irLed := 65536 * payloadByte w 0 + 256 * payloadByte w 1 + payloadByte w 2,
                 redLed := 65536 * payloadByte w 3 + 256 * payloadByte w 4 + payloadByte w 5,
                 heartRate := 0, confidence := 0, oxygen := 0, status := 0, rValue := 0,
                 extStatus := 0 }
             else allZero,
             txStatus w, afterTransaction [0x12, 0x01] 6000 13 w) := by
  simp only [readRawData, show (0x01 != 0x01) = false from rfl, Bool.false_eq_true, ↓reduceIte,
    MAX30101_LED_ARRAY, SENSOR_DATA, READ_DATA_OUTPUT, READ_DATA, bind, Except.bind,
    readFillArray_fresh _ _ 12 w (by decide), pure, Except.pure]
  by_cases h : txStatus w = 0
  · simp only [h, SUCCESS, bne_self_eq_false, Bool.false_eq_true, ↓reduceIte,
      rd_map_range _ 12 0 (by decide), rd_map_range _ 12 1 (by decide),
      rd_map_range _ 12 2 (by decide), rd_map_range _ 12 3 (by decide),
      rd_map_range _ 12 4 (by decide), rd_map_range _ 12 5 (by decide)]
    simp only [led24 _ _ _ (txByte_lt _ _) (txByte_lt _ _) (txByte_lt _ _),
      word16 _ _ (txByte_lt _ _) (txByte_lt _ _),
      tenth16 _ _ (txByte_lt _ _) (txByte_lt _ _), toInt8_byte _ (txByte_lt _ _), payloadByte]
  · have hb : (txStatus w != 0) = true := by simpa using h
    simp only [SUCCESS, hb, h, ↓reduceIte]

/-- Outcome of `readAlgoData` in any world, algorithm mode 1. -/
theorem readAlgoData_run_mode1 (w : World) :
    readAlgoData 0x02 0x01 w
      = .ok (if txStatus w = 0 then
               { irLed := 0,
                  redLed := 0,
                  heartRate := (256 * payloadByte w 0 + payloadByte w 1) / 10,
                    confidence := payloadByte w 2,
                  oxygen := (256 * payloadByte w 3 + payloadByte w 4) / 10,
                    status := payloadByte w 5,
                  rValue := 0,
                  extStatus := 0 }
             else allZero,
             txStatus w, afterTransaction [0x12, 0x01] 6000 7 w) := by
  simp only [readAlgoData, show (0x02 != 0x02) = false from rfl,
    show (0x01 == 0x01) = true from rfl,
    show (0x02 == 0x02) = true from rfl, Bool.false_eq_true, ↓reduceIte, MAX30101_LED_ARRAY,
      MAXFAST_ARRAY_SIZE, MAXFAST_EXTENDED_DATA, Nat.reduceAdd, READ_DATA_OUTPUT,
    READ_DATA, MODE_ONE, MODE_TWO, ALGO_DATA, SENSOR_AND_ALGORITHM, bind, Except.bind,
    readFillArray_fresh _ _ 6 w (by decide), pure, Except.pure]
  by_cases h : txStatus w = 0
  · simp only [h, bne_self_eq_false, Bool.false_eq_true, ↓reduceIte,
      rd_map_range _ 6 0 (by decide), rd_map_range _ 6 1 (by decide),
      rd_map_range _ 6 2 (by decide), rd_map_range _ 6 3 (by decide),
      rd_map_range _ 6 4 (by decide), rd_map_range _ 6 5 (by decide)]
    simp only [led24 _ _ _ (txByte_lt _ _) (txByte_lt _ _) (txByte_lt _ _),
      word16 _ _ (txByte_lt _ _) (txByte_lt _ _),
      tenth16 _ _ (txByte_lt _ _) (txByte_lt _ _), toInt8_byte _ (txByte_lt _ _), payloadByte]
  · have hb : (txStatus w != 0) = true := by simpa using h
    simp only [hb, h, ↓reduceIte]

/-- Outcome of `readAlgoData` in any world, algorithm mode 2. -/
theorem readAlgoData_run_mode2 (w : World) :
    readAlgoData 0x02 0x02 w
      = .ok (if txStatus w = 0 then
               { irLed := 0,
                  redLed := 0,
                  heartRate := (256 * payloadByte w 0 + payloadByte w 1) / 10,
                    confidence := payloadByte w 2,
                  oxygen := (256 * payloadByte w 3 + payloadByte w 4) / 10,
                    status := payloadByte w 5,
                  rValue := floatDivTen (floatOfUInt (256 * payloadByte w 6 + payloadByte w 7)),
                  extStatus := twosComplement8 (payloadByte w 8) }
             else allZero,
             txStatus w, afterTransaction [0x12, 0x01] 6000 12 w) := by
  simp only [readAlgoData, show (0x02 != 0x02) = false from rfl,
    show (0x02 == 0x01) = false from rfl,
    show (0x02 == 0x02) = true from rfl, Bool.false_eq_true, ↓reduceIte, MAX30101_LED_ARRAY,
      MAXFAST_ARRAY_SIZE, MAXFAST_EXTENDED_DATA, Nat.reduceAdd, READ_DATA_OUTPUT,
    READ_DATA, MODE_ONE, MODE_TWO, ALGO_DATA, SENSOR_AND_ALGORITHM, bind, Except.bind,
    readFillArray_fresh _ _ 11 w (by decide), pure, Except.pure]
  by_cases h : txStatus w = 0
  · simp only [h, bne_self_eq_false, Bool.false_eq_true, ↓reduceIte,
      rd_map_range _ 11 0 (by decide), rd_map_range _ 11 1 (by decide),
      rd_map_range _ 11 2 (by decide), rd_map_range _ 11 3 (by decide),
      rd_map_range _ 11 4 (by decide), rd_map_range _ 11 5 (by decide),
      rd_map_range _ 11 6 (by decide), rd_map_range _ 11 7 (by decide),
      rd_map_range _ 11 8 (by decide)]
    simp only [led24 _ _ _ (txByte_lt _ _) (txByte_lt _ _) (txByte_lt _ _),
      word16 _ _ (txByte_lt _ _) (txByte_lt _ _),
      tenth16 _ _ (txByte_lt _ _) (txByte_lt _ _), toInt8_byte _ (txByte_lt _ _), payloadByte]
  · have hb : (txStatus w != 0) = true := by simpa using h
    simp only [hb, h, ↓reduceIte]

/-- Outcome of `readRawAndAlgoData` in any world, algorithm mode 1. -/
theorem readRawAndAlgoData_run_mode1 (w : World) :
    readRawAndAlgoData 0x03 0x01 w
      = .ok (if txStatus w = 0 then
               { irLed := 65536 * payloadByte w 0 + 256 * payloadByte w 1 + payloadByte w 2,
                  redLed := 65536 * payloadByte w 3 + 256 * payloadByte w 4 + payloadByte w 5,
                  heartRate := (256 * payloadByte w 12 + payloadByte w 13) / 10,
                    confidence := payloadByte w 14,
                  oxygen := (256 * payloadByte w 15 + payloadByte w 16) / 10,
                    status := payloadByte w 17,
                  rValue := 0,
                  extStatus := 0 }
             else allZero,
             txStatus w, afterTransaction [0x12, 0x01] 6000 19 w) := by
  simp only [readRawAndAlgoData, show (0x03 != 0x03) = false from rfl,
    show (0x01 == 0x01) = true from rfl,
    show (0x02 == 0x02) = true from rfl, Bool.false_eq_true, ↓reduceIte, MAX30101_LED_ARRAY,
      MAXFAST_ARRAY_SIZE, MAXFAST_EXTENDED_DATA, Nat.reduceAdd, READ_DATA_OUTPUT,
    READ_DATA, MODE_ONE, MODE_TWO, ALGO_DATA, SENSOR_AND_ALGORITHM, bind, Except.bind,
    readFillArray_fresh _ _ 18 w (by decide), pure, Except.pure]
  by_cases h : txStatus w = 0
  · simp only [h, bne_self_eq_false, Bool.false_eq_true, ↓reduceIte,
      rd_map_range _ 18 0 (by decide), rd_map_range _ 18 1 (by decide),
      rd_map_range _ 18 2 (by decide), rd_map_range _ 18 3 (by decide),
      rd_map_range _ 18 4 (by decide), rd_map_range _ 18 5 (by decide),
      rd_map_range _ 18 12 (by decide), rd_map_range _ 18 13 (by decide),
      rd_map_range _ 18 14 (by decide), rd_map_range _ 18 15 (by decide),
      rd_map_range _ 18 16 (by decide), rd_map_range _ 18 17 (by decide)]
    simp only [led24 _ _ _ (txByte_lt _ _) (txByte_lt _ _) (txByte_lt _ _),
      word16 _ _ (txByte_lt _ _) (txByte_lt _ _),
      tenth16 _ _ (txByte_lt _ _) (txByte_lt _ _), toInt8_byte _ (txByte_lt _ _), payloadByte]
  · have hb : (txStatus w != 0) = true := by simpa using h
    simp only [hb, h, ↓reduceIte]

/-- Outcome of `readRawAndAlgoData` in any world, algorithm mode 2. -/
theorem readRawAndAlgoData_run_mode2 (w : World) :
    readRawAndAlgoData 0x03 0x02 w
      = .ok (if txStatus w = 0 then
               { irLed := 65536 * payloadByte w 0 + 256 * payloadByte w 1 + payloadByte w 2,
                  redLed := 65536 * payloadByte w 3 + 256 * payloadByte w 4 + payloadByte w 5,
                  heartRate := (256 * payloadByte w 12 + payloadByte w 13) / 10,
                    confidence := payloadByte w 14,
                  oxygen := (256 * payloadByte w 15 + payloadByte w 16) / 10,
                    status := payloadByte w 17,
                  rValue := floatDivTen (floatOfUInt (256 * payloadByte w 18 + payloadByte w 19)),
                  extStatus := twosComplement8 (payloadByte w 20) }
             else allZero,
             txStatus w, afterTransaction [0x12, 0x01] 6000 24 w) := by
  simp only [readRawAndAlgoData, show (0x03 != 0x03) = false from rfl,
    show (0x02 == 0x01) = false from rfl,
    show (0x02 == 0x02) = true from rfl, Bool.false_eq_true, ↓reduceIte, MAX30101_LED_ARRAY,
      MAXFAST_ARRAY_SIZE, MAXFAST_EXTENDED_DATA, Nat.reduceAdd, READ_DATA_OUTPUT,
    READ_DATA, MODE_ONE, MODE_TWO, ALGO_DATA, SENSOR_AND_ALGORITHM, bind, Except.bind,
    readFillArray_fresh _ _ 23 w (by decide), pure, Except.pure]
  by_cases h : txStatus w = 0
  · simp only [h, bne_self_eq_false, Bool.false_eq_true, ↓reduceIte,
      rd_map_range _ 23 0 (by decide), rd_map_range _ 23 1 (by decide),
      rd_map_range _ 23 2 (by decide), rd_map_range _ 23 3 (by decide),
      rd_map_range _ 23 4 (by decide), rd_map_range _ 23 5 (by decide),
      rd_map_range _ 23 12 (by decide), rd_map_range _ 23 13 (by decide),
      rd_map_range _ 23 14 (by decide), rd_map_range _ 23 15 (by decide),
      rd_map_range _ 23 16 (by decide), rd_map_range _ 23 17 (by decide),
      rd_map_range _ 23 18 (by decide), rd_map_range _ 23 19 (by decide),
      rd_map_range _ 23 20 (by decide)]
    simp only [led24 _ _ _ (txByte_lt _ _) (txByte_lt _ _) (txByte_lt _ _),
      word16 _ _ (txByte_lt _ _) (txByte_lt _ _),
      tenth16 _ _ (txByte_lt _ _) (txByte_lt _ _), toInt8_byte _ (txByte_lt _ _), payloadByte]
  · have hb : (txStatus w != 0) = true := by simpa using h
    simp only [hb, h, ↓reduceIte]

/-! ## Argument validation -/

/-- A transaction adds at least one bus transfer to the log. -/
theorem transferCount_afterTransaction (written : List Nat) (usec readCount : Nat) (w : World) :
    transferCount w.log < transferCount (afterTransaction written usec readCount w).log := by
  unfold afterTransaction
  split <;> simp [transferCount_append, transferCount, cycle]

/-- Outcome of `setOutputMode` in any world. -/
theorem setOutputMode_run (x : Nat) (w : World) :
    setOutputMode x w
      = if x > 0x07 then .ok (INCORR_PARAM, w)
        else .ok (txStatus w, afterTransaction [0x10, 0x00, x] 6000 1 w) := by
  simp only [setOutputMode, bind, Except.bind, writeByte_run, pure, Except.pure, OUTPUT_MODE,
    SET_FORMAT, SUCCESS]
  split
  · rfl
  · by_cases h : txStatus w = 0 <;> simp [h]

/-- Outcome of `setFifoThreshold` in any world. -/
theorem setFifoThreshold_run (x : Nat) (w : World) :
    setFifoThreshold x w = .ok (txStatus w, afterTransaction [0x10, 0x01, x] 6000 1 w) := by
  simp only [setFifoThreshold, bind, Except.bind, writeByte_run, pure, Except.pure, OUTPUT_MODE,
    WRITE_SET_THRESHOLD, SUCCESS]
  by_cases h : txStatus w = 0 <;> simp [h]

theorem agcAlgoControl_invalid (x : Nat) (w : World) (hx : ¬ (x = 0 ∨ x = 1)) :
    agcAlgoControl x w = .ok (INCORR_PARAM, w) := by
  have hv : (x == 0 || x == 1) = false := by simpa using hx
  simp only [agcAlgoControl, hv, Bool.false_eq_true, ↓reduceIte, pure, Except.pure]

theorem max30101Control_invalid (x : Nat) (w : World) (hx : ¬ (x = 0 ∨ x = 1)) :
    max30101Control x w = .ok (INCORR_PARAM, w) := by
  have hv : (x == 0 || x == 1) = false := by simpa using hx
  simp only [max30101Control, hv, Bool.false_eq_true, ↓reduceIte, pure, Except.pure]

theorem maximFastAlgoControl_invalid (x : Nat) (w : World) (hx : ¬ (x = 0 ∨ x = 1 ∨ x = 2)) :
    maximFastAlgoControl x w = .ok (INCORR_PARAM, w) := by
  have hv : (x == 0 || x == 1 || x == 2) = false := by
    simp only [not_or] at hx
    simp [hx.1, hx.2.1, hx.2.2]
  simp only [maximFastAlgoControl, hv, Bool.false_eq_true, ↓reduceIte, pure, Except.pure]

/-- Claim C21. Argument validators: in every world `w` and for every argument
`x`, `setOutputMode x` with `x > 0x07`, `agcAlgoControl x` and
`max30101Control x` with `x` not in {0, 1}, and `maximFastAlgoControl x` with
`x` not in {0, 1, 2} return `INCORR_PARAM` (0xEE) and leave the world as it
is (no transfer, no sleep); for every other `x` each of them performs its one
transaction and returns the status of that transaction. A transaction adds at
least one transfer to the log, so each of the four touches the bus if and
only if its argument is in range. -/
theorem argument_validators (x : Nat) (w : World) :
    (setOutputMode x w
       = if x > 0x07 then .ok (INCORR_PARAM, w)
         else .ok (txStatus w, afterTransaction [0x10, 0x00, x] 6000 1 w)) ∧
    (agcAlgoControl x w
       = if x = 0 ∨ x = 1 then .ok (txStatus w, afterTransaction [0x52, 0x00, x] 50000 1 w)
         else .ok (INCORR_PARAM, w)) ∧
    (max30101Control x w
       = if x = 0 ∨ x = 1 then .ok (txStatus w, afterTransaction [0x44, 0x03, x] 50000 1 w)
         else .ok (INCORR_PARAM, w)) ∧
    (maximFastAlgoControl x w
       = if x = 0 ∨ x = 1 ∨ x = 2 then
           .ok (txStatus w, afterTransaction [0x52, 0x02, x] 50000 1 w)
         else .ok (INCORR_PARAM, w)) ∧
    INCORR_PARAM = 0xEE ∧
    (∃ v, setOutputMode x w = .ok v ∧
       (transferCount w.log < transferCount v.2.log ↔ x ≤ 0x07)) ∧
    (∃ v, agcAlgoControl x w = .ok v ∧
       (transferCount w.log < transferCount v.2.log ↔ x = 0 ∨ x = 1)) ∧
    (∃ v, max30101Control x w = .ok v ∧
       (transferCount w.log < transferCount v.2.log ↔ x = 0 ∨ x = 1)) ∧
    (∃ v, maximFastAlgoControl x w = .ok v ∧
       (transferCount w.log < transferCount v.2.log ↔ x = 0 ∨ x = 1 ∨ x = 2)) := by
  have e1 := setOutputMode_run x w
  have e2 : agcAlgoControl x w
      = if x = 0 ∨ x = 1 then .ok (txStatus w, afterTransaction [0x52, 0x00, x] 50000 1 w)
        else .ok (INCORR_PARAM, w) := by
    split
    · rename_i h; exact agcAlgoControl_run x w h
    · rename_i h; exact agcAlgoControl_invalid x w h
  have e3 : max30101Control x w
      = if x = 0 ∨ x = 1 then .ok (txStatus w, afterTransaction [0x44, 0x03, x] 50000 1 w)
        else .ok (INCORR_PARAM, w) := by
    split
    · rename_i h; exact max30101Control_run x w h
    · rename_i h; exact max30101Control_invalid x w h
  have e4 : maximFastAlgoControl x w
      = if x = 0 ∨ x = 1 ∨ x = 2 then
          .ok (txStatus w, afterTransaction [0x52, 0x02, x] 50000 1 w)
        else .ok (INCORR_PARAM, w) := by
    split
    · rename_i h; exact maximFastAlgoControl_run x w h
    · rename_i h; exact maximFastAlgoControl_invalid x w h
  refine ⟨e1, e2, e3, e4, rfl, ?_, ?_, ?_, ?_⟩
  · rw [e1]
    by_cases h : x > 0x07
    · rw [if_pos h]
      exact ⟨_, rfl, by simp; omega⟩
    · rw [if_neg h]
      exact ⟨_, rfl, by
        simp only [transferCount_afterTransaction, true_iff]; omega⟩
  · rw [e2]
    by_cases h : x = 0 ∨ x = 1
    · rw [if_pos h]
      exact ⟨_, rfl, by simp only [transferCount_afterTransaction, true_iff]; exact h⟩
    · rw [if_neg h]
      exact ⟨_, rfl, by simp only [lt_self_iff_false, false_iff]; exact h⟩
  · rw [e3]
    by_cases h : x = 0 ∨ x = 1
    · rw [if_pos h]
      exact ⟨_, rfl, by simp only [transferCount_afterTransaction, true_iff]; exact h⟩
    · rw [if_neg h]
      exact ⟨_, rfl, by simp only [lt_self_iff_false, false_iff]; exact h⟩
  · rw [e4]
    by_cases h : x = 0 ∨ x = 1 ∨ x = 2
    · rw [if_pos h]
      exact ⟨_, rfl, by simp only [transferCount_afterTransaction, true_iff]; exact h⟩
    · rw [if_neg h]
      exact ⟨_, rfl, by simp only [lt_self_iff_false, false_iff]; exact h⟩

/-- Claim C22 fails on the code: `setFifoThreshold` has no check of its
argument. Called with 0x00, outside the documented range 0x01 to 0xFF, it
issues the transaction with the write buffer [0x10, 0x01, 0x00] and returns
the status of that transaction, here `SUCCESS`, not `INCORR_PARAM`; the same
holds in every world. -/
theorem setFifoThreshold_accepts_zero :
    setFifoThreshold 0x00 ⟨[⟨true, []⟩, ⟨true, [0x00]⟩], []⟩
      = .ok (0x00, ⟨[], cycle [0x10, 0x01, 0x00] 6000 1⟩) ∧
    (∀ w : World, setFifoThreshold 0x00 w
      = .ok (txStatus w, afterTransaction [0x10, 0x01, 0x00] 6000 1 w)) ∧
    (∀ w : World,
      transferCount w.log < transferCount (afterTransaction [0x10, 0x01, 0x00] 6000 1 w).log) :=
  ⟨rfl, fun w => setFifoThreshold_run 0x00 w,
    fun w => transferCount_afterTransaction _ _ _ w⟩

/-! ## Configuration -/

/-- Outcome of `readAlgoSamples` in any world. -/
theorem readAlgoSamples_run (w : World) :
    readAlgoSamples w
      = .ok (if txStatus w = 0 then payloadByte w 0 else 0, txStatus w,
             afterTransaction [0x51, 0x00, 0x03] 6000 2 w) := by
  simp only [readAlgoSamples, bind, Except.bind, readBytewithWriteByte_run, pure, Except.pure,
    READ_ALGORITHM_CONFIG, READ_AGC_NUM_SAMPLES, READ_AGC_NUM_SAMPLES_ID, payloadByte]

/-- Outcome of `configMAX32664` when the output format is not valid. -/
theorem config_bad_format (f a t : Nat) (g : Globals) (w : World)
    (hf : ¬ (f = 1 ∨ f = 2 ∨ f = 3)) :
    configMAX32664 f a t g w = .ok (INCORR_PARAM, g, w) := by
  simp only [not_or] at hf
  have hv : (f != ALGO_DATA && f != SENSOR_DATA && f != SENSOR_AND_ALGORITHM) = true := by
    simp [hf.1, hf.2.1, hf.2.2]
  simp only [configMAX32664, hv, ↓reduceIte, pure, Except.pure]

/-- Outcome of `configMAX32664` when the output format is valid and the
algorithm mode is not. -/
theorem config_bad_mode (f a t : Nat) (g : Globals) (w : World)
    (hf : f = 1 ∨ f = 2 ∨ f = 3) (ha : ¬ (a = 1 ∨ a = 2)) :
    configMAX32664 f a t g w
      = .ok (INCORR_PARAM, { g with userOutputMode := f }, usleep 20000 w) := by
  simp only [not_or] at ha
  have hv : (f != ALGO_DATA && f != SENSOR_DATA && f != SENSOR_AND_ALGORITHM) = false := by
    rcases hf with h | h | h <;> subst h <;> decide
  have hm : (a != MODE_ONE && a != MODE_TWO) = true := by
    simp [ha.1, ha.2]
  simp only [configMAX32664, hv, hm, Bool.false_eq_true, ↓reduceIte, pure, Except.pure]

/-- Outcome of `configMAX32664` for valid arguments in any world. -/
theorem config_run (f a t : Nat) (g : Globals) (w : World)
    (hf : f = 1 ∨ f = 2 ∨ f = 3) (ha : a = 1 ∨ a = 2) :
    let g1 : Globals := { g with userOutputMode := f, userAlgoMode := a }
    let w1 := usleep 20000 (usleep 20000 w)
    let t1 := afterTransaction [0x10, 0x00, f] 6000 1 w1
    let w2 := usleep 20000 t1
    let t2 := afterTransaction [0x10, 0x01, t] 6000 1 w2
    let w3 := usleep 20000 t2
    let t3 := afterTransaction [0x52, 0x00, 0x01] 50000 1 w3
    let w4 := usleep 20000 t3
    let t4 := afterTransaction [0x44, 0x03, 0x01] 50000 1 w4
    let w5 := usleep 20000 t4
    let t5 := afterTransaction [0x52, 0x02, a] 50000 1 w5
    let w6 := usleep 20000 t5
    let t6 := afterTransaction [0x51, 0x00, 0x03] 6000 2 w6
    configMAX32664 f a t g w
      = if txStatus w1 ≠ 0 then .ok (txStatus w1, g1, t1)
        else if txStatus w2 ≠ 0 then .ok (txStatus w2, g1, t2)
        else if txStatus w3 ≠ 0 then .ok (txStatus w3, g1, t3)
        else if txStatus w4 ≠ 0 then .ok (txStatus w4, g1, t4)
        else if txStatus w5 ≠ 0 then .ok (txStatus w5, g1, t5)
        else if txStatus w6 ≠ 0 then .ok (txStatus w6, { g1 with sampleNum := 0 }, t6)
        else .ok (SUCCESS, { g1 with sampleNum := payloadByte w6 0 }, t6) := by
  intro g1 w1 t1 w2 t2 w3 t3 w4 t4 w5 t5 w6 t6
  have hv : (f != ALGO_DATA && f != SENSOR_DATA && f != SENSOR_AND_ALGORITHM) = false := by
    rcases hf with h | h | h <;> subst h <;> decide
  have hm : (a != MODE_ONE && a != MODE_TWO) = false := by
    rcases ha with h | h <;> subst h <;> decide
  have h7 : ¬ f > 7 := by omega
  have ha3 : a = 0 ∨ a = 1 ∨ a = 2 := by omega
  simp only [configMAX32664, hv, hm, Bool.false_eq_true, ↓reduceIte, bind, Except.bind,
    setOutputMode_run, h7, setFifoThreshold_run, ENABLE,
    agcAlgoControl_run 1 _ (Or.inr rfl), max30101Control_run 1 _ (Or.inr rfl),
    maximFastAlgoControl_run a _ ha3, readAlgoSamples_run, pure, Except.pure, SUCCESS]
  by_cases h1 : txStatus w1 = 0
  swap
  · simp [h1, w1, t1, g1]
  by_cases h2 : txStatus w2 = 0
  swap
  · simp [h1, h2, w1, t1, w2, t2, g1]
  by_cases h3 : txStatus w3 = 0
  swap
  · simp [h1, h2, h3, w1, t1, w2, t2, w3, t3, g1]
  by_cases h4 : txStatus w4 = 0
  swap
  · simp [h1, h2, h3, h4, w1, t1, w2, t2, w3, t3, w4, t4, g1]
  by_cases h5 : txStatus w5 = 0
  swap
  · simp [h1, h2, h3, h4, h5, w1, t1, w2, t2, w3, t3, w4, t4, w5, t5, g1]
  by_cases h6 : txStatus w6 = 0
  swap
  · simp [h1, h2, h3, h4, h5, h6, w1, t1, w2, t2, w3, t3, w4, t4, w5, t5, w6, t6, g1]
  simp [h1, h2, h3, h4, h5, h6, w1, t1, w2, t2, w3, t3, w4, t4, w5, t5, w6, t6, g1]

theorem transfersOf_usleep (usec : Nat) (w : World) :
    transfersOf (usleep usec w).log = transfersOf w.log := by
  simp [usleep, transfersOf_append, transfersOf]

/-- Claim C23. configMAX32664 rejects bad arguments before any bus activity:
for every `intThresh`, every value of the globals and every world, if
`outputFormat` is not one of 0x01, 0x02, 0x03 or `algoMode` is not one of
0x01, 0x02, then `configMAX32664` returns `INCORR_PARAM` (0xEE), the replies
of the bus are all still to come and the log has no new transfer. -/
theorem config_rejects_bad_arguments (outputFormat algoMode intThresh : Nat) (g : Globals)
    (w : World)
    (h : ¬ (outputFormat = 1 ∨ outputFormat = 2 ∨ outputFormat = 3)
          ∨ ¬ (algoMode = 1 ∨ algoMode = 2)) :
    ∃ g1 w1, configMAX32664 outputFormat algoMode intThresh g w = .ok (INCORR_PARAM, g1, w1) ∧
      INCORR_PARAM = 0xEE ∧ w1.script = w.script ∧ transfersOf w1.log = transfersOf w.log := by
  by_cases hf : outputFormat = 1 ∨ outputFormat = 2 ∨ outputFormat = 3
  · have ha : ¬ (algoMode = 1 ∨ algoMode = 2) := by
      rcases h with h | h
      · exact absurd hf h
      · exact h
    exact ⟨_, _, config_bad_mode _ _ _ g w hf ha, rfl, rfl, transfersOf_usleep _ _⟩
  · exact ⟨_, _, config_bad_format _ _ _ g w hf, rfl, rfl, rfl⟩

/-- Witness of `config_rejects_bad_arguments`: a valid output format with the
algorithm mode 0x03, on a bus that would answer. -/
theorem config_rejects_bad_arguments_witness :
    ∃ g1 w1, configMAX32664 0x02 0x03 0x0F initialGlobals
        ⟨[⟨true, []⟩, ⟨true, [0x00]⟩], []⟩ = .ok (INCORR_PARAM, g1, w1) ∧
      INCORR_PARAM = 0xEE ∧
      w1.script = (⟨[⟨true, []⟩, ⟨true, [0x00]⟩], []⟩ : World).script ∧
      transfersOf w1.log = transfersOf (⟨[⟨true, []⟩, ⟨true, [0x00]⟩], []⟩ : World).log :=
  config_rejects_bad_arguments 0x02 0x03 0x0F initialGlobals ⟨[⟨true, []⟩, ⟨true, [0x00]⟩], []⟩
    (Or.inr (by decide))

/-- Claim C28. configMAX32664 command sequence: for a valid output format
and algorithm mode, in every world, `configMAX32664` stores the two modes
and then issues, each after a pause, the transactions with the write buffers
[0x10, 0x00, outputFormat], [0x10, 0x01, intThresh], [0x52, 0x00, 0x01],
[0x44, 0x03, 0x01], [0x52, 0x02, algoMode] and [0x51, 0x00, 0x03], in this
order; at the first transaction whose status is not `SUCCESS` it returns that
status in the world that transaction leaves; when the six statuses are
`SUCCESS` it returns `SUCCESS` with the first payload byte of the last
response in `sampleNum`. -/
theorem config_command_sequence (outputFormat algoMode intThresh : Nat) (g : Globals)
    (w : World) (hf : outputFormat = 1 ∨ outputFormat = 2 ∨ outputFormat = 3)
    (ha : algoMode = 1 ∨ algoMode = 2) :
    let g1 : Globals := { g with userOutputMode := outputFormat, userAlgoMode := algoMode }
    let w1 := usleep 20000 (usleep 20000 w)
    let t1 := afterTransaction [0x10, 0x00, outputFormat] 6000 1 w1
    let w2 := usleep 20000 t1
    let t2 := afterTransaction [0x10, 0x01, intThresh] 6000 1 w2
    let w3 := usleep 20000 t2
    let t3 := afterTransaction [0x52, 0x00, 0x01] 50000 1 w3
    let w4 := usleep 20000 t3
    let t4 := afterTransaction [0x44, 0x03, 0x01] 50000 1 w4
    let w5 := usleep 20000 t4
    let t5 := afterTransaction [0x52, 0x02, algoMode] 50000 1 w5
    let w6 := usleep 20000 t5
    let t6 := afterTransaction [0x51, 0x00, 0x03] 6000 2 w6
    configMAX32664 outputFormat algoMode intThresh g w
      = if txStatus w1 ≠ 0 then .ok (txStatus w1, g1, t1)
        else if txStatus w2 ≠ 0 then .ok (txStatus w2, g1, t2)
        else if txStatus w3 ≠ 0 then .ok (txStatus w3, g1, t3)
        else if txStatus w4 ≠ 0 then .ok (txStatus w4, g1, t4)
        else if txStatus w5 ≠ 0 then .ok (txStatus w5, g1, t5)
        else if txStatus w6 ≠ 0 then .ok (txStatus w6, { g1 with sampleNum := 0 }, t6)
        else .ok (SUCCESS, { g1 with sampleNum := payloadByte w6 0 }, t6) :=
  config_run outputFormat algoMode intThresh g w hf ha

/-- Witness of `config_command_sequence`: raw and algorithm data, mode 2,
threshold 0x0F, on a bus that answers `SUCCESS` six times and 0x05 as the
number of samples. -/
theorem config_command_sequence_witness :
    configMAX32664 0x03 0x02 0x0F initialGlobals
        ⟨[⟨true, []⟩, ⟨true, [0x00]⟩, ⟨true, []⟩, ⟨true, [0x00]⟩, ⟨true, []⟩, ⟨true, [0x00]⟩,
          ⟨true, []⟩, ⟨true, [0x00]⟩, ⟨true, []⟩, ⟨true, [0x00]⟩, ⟨true, []⟩,
          ⟨true, [0x00, 0x05]⟩], []⟩
      = .ok (SUCCESS, { userAlgoMode := 0x02, userOutputMode := 0x03, sampleNum := 0x05 },
             ⟨[], [.sleep 20000, .sleep 20000] ++ cycle [0x10, 0x00, 0x03] 6000 1
                   ++ [.sleep 20000] ++ cycle [0x10, 0x01, 0x0F] 6000 1
                   ++ [.sleep 20000] ++ cycle [0x52, 0x00, 0x01] 50000 1
                   ++ [.sleep 20000] ++ cycle [0x44, 0x03, 0x01] 50000 1
                   ++ [.sleep 20000] ++ cycle [0x52, 0x02, 0x02] 50000 1
                   ++ [.sleep 20000] ++ cycle [0x51, 0x00, 0x03] 6000 2⟩) :=
  config_command_sequence 0x03 0x02 0x0F initialGlobals _ (by decide) (by decide)

/-! ## Data and status of the sensor data readers -/

theorem readRawData_zero (m : Nat) (w : World) :
    ∃ v, readRawData m w = .ok v ∧ (v.2.1 = SUCCESS ∨ v.1 = allZero) := by
  unfold readRawData
  apply returns_ite
  · exact ⟨_, rfl, Or.inr rfl⟩
  · simp only [MAX30101_LED_ARRAY, bind, Except.bind, readFillArray_fresh _ _ 12 w (by decide),
      pure, Except.pure]
    by_cases h : txStatus w = 0
    · simp only [h, SUCCESS, bne_self_eq_false, Bool.false_eq_true, ↓reduceIte,
        rd_map_range _ 12 0 (by decide),
        rd_map_range _ 12 1 (by decide),
        rd_map_range _ 12 2 (by decide),
        rd_map_range _ 12 3 (by decide),
        rd_map_range _ 12 4 (by decide),
        rd_map_range _ 12 5 (by decide)]
      exact ⟨_, rfl, Or.inl rfl⟩
    · have hb : (txStatus w != 0) = true := by simpa using h
      simp only [SUCCESS, hb, ↓reduceIte]
      exact ⟨_, rfl, Or.inr rfl⟩

theorem readAlgoData_zero (m a : Nat) (w : World) :
    ∃ v, readAlgoData m a w = .ok v ∧ (v.2.1 = SUCCESS ∨ v.1 = allZero) := by
  unfold readAlgoData
  apply returns_ite
  · exact ⟨_, rfl, Or.inr rfl⟩
  apply returns_ite
  · simp only [MAXFAST_ARRAY_SIZE, bind, Except.bind, readFillArray_fresh _ _ 6 w (by decide),
      pure, Except.pure]
    by_cases h : txStatus w = 0
    · simp only [h, bne_self_eq_false, Bool.false_eq_true, ↓reduceIte,
        rd_map_range _ 6 0 (by decide),
        rd_map_range _ 6 1 (by decide),
        rd_map_range _ 6 2 (by decide),
        rd_map_range _ 6 3 (by decide),
        rd_map_range _ 6 4 (by decide),
        rd_map_range _ 6 5 (by decide)]
      exact ⟨_, rfl, Or.inl rfl⟩
    · have hb : (txStatus w != 0) = true := by simpa using h
      simp only [hb, ↓reduceIte]
      exact ⟨_, rfl, Or.inr rfl⟩
  apply returns_ite
  · simp only [MAXFAST_ARRAY_SIZE, MAXFAST_EXTENDED_DATA, Nat.reduceAdd, bind, Except.bind,
    readFillArray_fresh _ _ 11 w (by decide),
      pure, Except.pure]
    by_cases h : txStatus w = 0
    · simp only [h, bne_self_eq_false, Bool.false_eq_true, ↓reduceIte,
        rd_map_range _ 11 0 (by decide),
        rd_map_range _ 11 1 (by decide),
        rd_map_range _ 11 2 (by decide),
        rd_map_range _ 11 3 (by decide),
        rd_map_range _ 11 4 (by decide),
        rd_map_range _ 11 5 (by decide),
        rd_map_range _ 11 6 (by decide),
        rd_map_range _ 11 7 (by decide),
        rd_map_range _ 11 8 (by decide)]
      exact ⟨_, rfl, Or.inl rfl⟩
    · have hb : (txStatus w != 0) = true := by simpa using h
      simp only [hb, ↓reduceIte]
      exact ⟨_, rfl, Or.inr rfl⟩
  · exact ⟨_, rfl, Or.inr rfl⟩

theorem readRawAndAlgoData_zero (m a : Nat) (w : World) :
    ∃ v, readRawAndAlgoData m a w = .ok v ∧ (v.2.1 = SUCCESS ∨ v.1 = allZero) := by
  unfold readRawAndAlgoData
  apply returns_ite
  · exact ⟨_, rfl, Or.inr rfl⟩
  apply returns_ite
  · simp only [MAX30101_LED_ARRAY, MAXFAST_ARRAY_SIZE, Nat.reduceAdd, bind, Except.bind,
    readFillArray_fresh _ _ 18 w (by decide),
      pure, Except.pure]
    by_cases h : txStatus w = 0
    · simp only [h, bne_self_eq_false, Bool.false_eq_true, ↓reduceIte,
        rd_map_range _ 18 0 (by decide),
        rd_map_range _ 18 1 (by decide),
        rd_map_range _ 18 2 (by decide),
        rd_map_range _ 18 3 (by decide),
        rd_map_range _ 18 4 (by decide),
        rd_map_range _ 18 5 (by decide),
        rd_map_range _ 18 12 (by decide),
        rd_map_range _ 18 13 (by decide),
        rd_map_range _ 18 14 (by decide),
        rd_map_range _ 18 15 (by decide),
        rd_map_range _ 18 16 (by decide),
        rd_map_range _ 18 17 (by decide)]
      exact ⟨_, rfl, Or.inl rfl⟩
    · have hb : (txStatus w != 0) = true := by simpa using h
      simp only [hb, ↓reduceIte]
      exact ⟨_, rfl, Or.inr rfl⟩
  apply returns_ite
  · simp only [MAX30101_LED_ARRAY, MAXFAST_ARRAY_SIZE, MAXFAST_EXTENDED_DATA,
          Nat.reduceAdd, bind, Except.bind, readFillArray_fresh _ _ 23 w (by decide),
      pure, Except.pure]
    by_cases h : txStatus w = 0
    · simp only [h, bne_self_eq_false, Bool.false_eq_true, ↓reduceIte,
        rd_map_range _ 23 0 (by decide),
        rd_map_range _ 23 1 (by decide),
        rd_map_range _ 23 2 (by decide),
        rd_map_range _ 23 3 (by decide),
        rd_map_range _ 23 4 (by decide),
        rd_map_range _ 23 5 (by decide),
        rd_map_range _ 23 12 (by decide),
        rd_map_range _ 23 13 (by decide),
        rd_map_range _ 23 14 (by decide),
        rd_map_range _ 23 15 (by decide),
        rd_map_range _ 23 16 (by decide),
        rd_map_range _ 23 17 (by decide),
        rd_map_range _ 23 18 (by decide),
        rd_map_range _ 23 19 (by decide),
        rd_map_range _ 23 20 (by decide)]
      exact ⟨_, rfl, Or.inl rfl⟩
    · have hb : (txStatus w != 0) = true := by simpa using h
      simp only [hb, ↓reduceIte]
      exact ⟨_, rfl, Or.inr rfl⟩
  · exact ⟨_, rfl, Or.inr rfl⟩

/-- The reset of the data on a status other than `SUCCESS`, in
`readSensorData`. -/
theorem dispatch_zero (r : Except Fault (bioData × Nat × World)) (h : ∃ v, r = .ok v) :
    ∃ v, (do
        let (libData, statusByte, w) ← r
        if statusByte != SUCCESS then
          return (allZero, statusByte, w)
        else
          return (libData, statusByte, w)) = .ok v ∧ (v.2.1 = SUCCESS ∨ v.1 = allZero) := by
  obtain ⟨⟨d, s, w1⟩, rfl⟩ := h
  simp only [bind, Except.bind, pure, Except.pure]
  by_cases hs : s = 0
  · subst hs
    exact ⟨_, rfl, Or.inl rfl⟩
  · have hb : (s != SUCCESS) = true := by simpa using hs
    simp only [hb, ↓reduceIte]
    exact ⟨_, rfl, Or.inr rfl⟩

theorem readSensorData_zero (m a : Nat) (w : World) :
    ∃ v, readSensorData m a w = .ok v ∧ (v.2.1 = SUCCESS ∨ v.1 = allZero) := by
  simp only [readSensorData, readSensorHubStatus, numSamplesOutFifo, bind, Except.bind, pure,
    Except.pure, readByte_run]
  repeat (first
    | exact ⟨_, rfl, Or.inr rfl⟩
    | apply returns_ite
    | exact dispatch_zero _ ((readRawData_zero _ _).imp fun _ h => h.1)
    | exact dispatch_zero _ ((readAlgoData_zero _ _ _).imp fun _ h => h.1)
    | exact dispatch_zero _ ((readRawAndAlgoData_zero _ _ _).imp fun _ h => h.1))

/-- Claim C24. Sensor data is all-zero whenever the status is not Success:
for every value of the two mode variables and in every world, each of
`readRawData`, `readAlgoData`, `readRawAndAlgoData` and `readSensorData`
returns, and on return `*statusByte` is `SUCCESS` or the data are `allZero`,
whose fields `irLed`, `redLed`, `heartRate`, `confidence`, `oxygen`,
`status`, `rValue` and `extStatus` are zero. -/
theorem data_zero_unless_success (userOutputMode userAlgoMode : Nat) (w : World) :
    (∃ v, readRawData userOutputMode w = .ok v ∧ (v.2.1 = SUCCESS ∨ v.1 = allZero)) ∧
    (∃ v, readAlgoData userOutputMode userAlgoMode w = .ok v ∧
       (v.2.1 = SUCCESS ∨ v.1 = allZero)) ∧
    (∃ v, readRawAndAlgoData userOutputMode userAlgoMode w = .ok v ∧
       (v.2.1 = SUCCESS ∨ v.1 = allZero)) ∧
    (∃ v, readSensorData userOutputMode userAlgoMode w = .ok v ∧
       (v.2.1 = SUCCESS ∨ v.1 = allZero)) ∧
    (allZero.irLed = 0 ∧ allZero.redLed = 0 ∧ allZero.heartRate = 0 ∧ allZero.confidence = 0 ∧
     allZero.oxygen = 0 ∧ allZero.status = 0 ∧ allZero.rValue = 0 ∧ allZero.extStatus = 0) :=
  ⟨readRawData_zero _ w, readAlgoData_zero _ _ w, readRawAndAlgoData_zero _ _ w,
    readSensorData_zero _ _ w, rfl, rfl, rfl, rfl, rfl, rfl, rfl, rfl⟩

/-! ## Reset of the sensor hub -/

/-- Outcome of `softwareResetMAX32664` in any world. -/
theorem softwareReset_run (w : World) :
    let t1 := afterTransaction [0x01, 0x00, 0x02] 6000 1 w
    let t2 := afterTransaction [0x02, 0x00] 6000 2 t1
    let w3 := usleep 10000 t2
    let t3 := afterTransaction [0x01, 0x00, 0x00] 6000 1 w3
    let t4 := afterTransaction [0x02, 0x00] 6000 2 t3
    softwareResetMAX32664 w
      = if txStatus w ≠ 0 then .ok (txStatus w, t1)
        else if txStatus t1 ≠ 0 then .ok (txStatus t1, t2)
        else if txStatus w3 ≠ 0 then .ok (txStatus w3, t3)
        else if txStatus t3 ≠ 0 then .ok (txStatus t3, t4)
        else if payloadByte t3 0 ≠ 0 then .ok (ERR_UNKNOWN, sleep 2 t4)
        else .ok (SUCCESS, sleep 2 t4) := by
  intro t1 t2 w3 t3 t4
  simp only [softwareResetMAX32664, RESET, EXIT_BOOTLOADER, bind, Except.bind,
    setDeviceMode_run 2 _ (Or.inr (Or.inl rfl)), setDeviceMode_run 0 _ (Or.inl rfl), pure,
    Except.pure, SUCCESS, payloadByte]
  by_cases h1 : txStatus w = 0
  swap
  · simp [h1, t1]
  by_cases h2 : txStatus t1 = 0
  swap
  · simp [h1, h2, t1, t2]
  by_cases h3 : txStatus w3 = 0
  swap
  · simp [h1, h2, h3, t1, t2, w3, t3]
  by_cases h4 : txStatus t3 = 0
  swap
  · simp [h1, h2, h3, h4, t1, t2, w3, t3, t4]
  by_cases h5 : txByte t3 (1 + 0) = 0
  · simp [h1, h2, h3, h4, h5, t1, t2, w3, t3, t4]
  · simp [h1, h2, h3, h4, h5, t1, t2, w3, t3, t4]

/-- Claim C25. Full reset sequence: when the bus completes the eight
transfers, the four status bytes are `SUCCESS`, the first read-back says
0x02 and the second 0x00, `softwareResetMAX32664` returns `SUCCESS` after, in
this order, the mode-set transaction with the write buffer [0x01, 0x00, 0x02]
and its read-back [0x02, 0x00], a sleep of 10000 microseconds, the mode-set
transaction with the write buffer [0x01, 0x00, 0x00] and its read-back, and
a sleep of 2000000 microseconds; each transaction holds its 6000 microsecond
settle interval. -/
theorem full_reset_sequence (d1 d2 d3 d4 d5 d6 d7 d8 : List Nat) (rest : List BusReply)
    (log : List Event) (h2 : responseByte d2 0 = 0)
    (h4 : responseByte d4 0 = 0 ∧ responseByte d4 1 = 0x02) (h6 : responseByte d6 0 = 0)
    (h8 : responseByte d8 0 = 0 ∧ responseByte d8 1 = 0x00) :
    softwareResetMAX32664
        ⟨⟨true, d1⟩ :: ⟨true, d2⟩ :: ⟨true, d3⟩ :: ⟨true, d4⟩ :: ⟨true, d5⟩ :: ⟨true, d6⟩
          :: ⟨true, d7⟩ :: ⟨true, d8⟩ :: rest, log⟩
      = .ok (SUCCESS,
             ⟨rest, log ++ cycle [0x01, 0x00, 0x02] 6000 1 ++ cycle [0x02, 0x00] 6000 2
                    ++ [.sleep 10000]
                    ++ cycle [0x01, 0x00, 0x00] 6000 1 ++ cycle [0x02, 0x00] 6000 2
                    ++ [.sleep 2000000]⟩) := by
  have e := softwareReset_run
    ⟨⟨true, d1⟩ :: ⟨true, d2⟩ :: ⟨true, d3⟩ :: ⟨true, d4⟩ :: ⟨true, d5⟩ :: ⟨true, d6⟩
      :: ⟨true, d7⟩ :: ⟨true, d8⟩ :: rest, log⟩
  simp only at e
  rw [e]
  simp [txStatus, txByte, payloadByte, writeOk, readOk, afterTransaction, usleep, sleep, h2,
    h4.1, h4.2, h6, h8.1, h8.2]

/-- Witness of `full_reset_sequence`: the hub answers `SUCCESS` to the four
transactions and reports the modes 0x02 and 0x00. -/
theorem full_reset_sequence_witness :
    softwareResetMAX32664
        ⟨[⟨true, []⟩, ⟨true, [0x00]⟩, ⟨true, []⟩, ⟨true, [0x00, 0x02]⟩, ⟨true, []⟩,
          ⟨true, [0x00]⟩, ⟨true, []⟩, ⟨true, [0x00, 0x00]⟩], []⟩
      = .ok (SUCCESS,
             ⟨[], [] ++ cycle [0x01, 0x00, 0x02] 6000 1 ++ cycle [0x02, 0x00] 6000 2
                    ++ [.sleep 10000]
                    ++ cycle [0x01, 0x00, 0x00] 6000 1 ++ cycle [0x02, 0x00] 6000 2
                    ++ [.sleep 2000000]⟩) :=
  full_reset_sequence [] [0x00] [] [0x00, 0x02] [] [0x00] [] [0x00, 0x00] [] [] (by decide)
    (by decide) (by decide) (by decide)

/-! ## LED pulse amplitudes -/

/-- Claim C26 fails on the code when the four LED registers hold 0x00: the
four reads complete with the status `SUCCESS`, `ledArray` gets the four
values read, `*statusByte` is `SUCCESS`, and `readPulseAmp` returns
`ERR_UNKNOWN` (0xFF), because the return value is `SUCCESS` only if the
bitwise or of the four values is not zero. -/
theorem readPulseAmp_all_zero_reports_unknown :
    readPulseAmp [0xAA, 0xAA, 0xAA, 0xAA]
        ⟨[⟨true, []⟩, ⟨true, [0x00, 0x00]⟩, ⟨true, []⟩, ⟨true, [0x00, 0x00]⟩, ⟨true, []⟩,
          ⟨true, [0x00, 0x00]⟩, ⟨true, []⟩, ⟨true, [0x00, 0x00]⟩], []⟩
      = .ok (0xFF, [0x00, 0x00, 0x00, 0x00], 0x00,
             ⟨[], cycle [0x41, 0x03, 0x0C] 6000 2 ++ cycle [0x41, 0x03, 0x0D] 6000 2
                  ++ cycle [0x41, 0x03, 0x0E] 6000 2 ++ cycle [0x41, 0x03, 0x0F] 6000 2⟩) :=
  rfl

theorem toUInt8_byte (b : Nat) (h : b < 256) : toUInt8 b = b := by
  unfold toUInt8
  omega

theorem or_byte_lt (a b : Nat) (ha : a < 256) (hb : b < 256) : a ||| b < 256 :=
  Nat.or_lt_two_pow (n := 8) ha hb

theorem or_eq_zero (a b : Nat) : a ||| b = 0 ↔ a = 0 ∧ b = 0 := by
  constructor
  · intro h
    constructor
    · apply Nat.eq_of_testBit_eq
      intro i
      have e := congrArg (fun n => Nat.testBit n i) h
      simp only [Nat.testBit_or, Nat.zero_testBit, Bool.or_eq_false_iff] at e
      simp [e.1]
    · apply Nat.eq_of_testBit_eq
      intro i
      have e := congrArg (fun n => Nat.testBit n i) h
      simp only [Nat.testBit_or, Nat.zero_testBit, Bool.or_eq_false_iff] at e
      simp [e.2]
  · rintro ⟨rfl, rfl⟩
    rfl

/-- The accumulator `success` of `readPulseAmp` after the four reads. -/
theorem pulse_accumulator (r0 r1 r2 r3 : Nat) (h0 : r0 < 256) (h1 : r1 < 256) (h2 : r2 < 256)
    (h3 : r3 < 256) :
    toUInt8 (toUInt8 (toUInt8 (toUInt8 (0 ||| r0) ||| r1) ||| r2) ||| r3) = 0
      ↔ r0 = 0 ∧ r1 = 0 ∧ r2 = 0 ∧ r3 = 0 := by
  have e0 : (0 ||| r0) = r0 := Nat.zero_or r0
  have l1 := or_byte_lt r0 r1 h0 h1
  have l2 := or_byte_lt _ r2 l1 h2
  have l3 := or_byte_lt _ r3 l2 h3
  rw [e0, toUInt8_byte r0 h0, toUInt8_byte _ l1, toUInt8_byte _ l2, toUInt8_byte _ l3]
  simp only [or_eq_zero, and_assoc]

/-- Claim C26, amended. For all register contents, when the four register
reads (LED1 to LED4, addresses 0x0C to 0x0F) complete with the status
`SUCCESS`, `ledArray[k]` holds the value read from the register 0x0C + k for
k = 0..3, `*statusByte` is `SUCCESS`, and `readPulseAmp` returns `SUCCESS` if
one of the four values is not zero and `ERR_UNKNOWN` if the four values are
zero. -/
theorem readPulseAmp_reports_values (a0 a1 a2 a3 : Nat) (tl : List Nat)
    (d1 d2 d3 d4 d5 d6 d7 d8 : List Nat) (rest : List BusReply) (log : List Event)
    (h2 : responseByte d2 0 = 0) (h4 : responseByte d4 0 = 0) (h6 : responseByte d6 0 = 0)
    (h8 : responseByte d8 0 = 0) :
    readPulseAmp (a0 :: a1 :: a2 :: a3 :: tl)
        ⟨⟨true, d1⟩ :: ⟨true, d2⟩ :: ⟨true, d3⟩ :: ⟨true, d4⟩ :: ⟨true, d5⟩ :: ⟨true, d6⟩
          :: ⟨true, d7⟩ :: ⟨true, d8⟩ :: rest, log⟩
      = .ok (if responseByte d2 1 = 0 ∧ responseByte d4 1 = 0 ∧ responseByte d6 1 = 0
                ∧ responseByte d8 1 = 0 then ERR_UNKNOWN else SUCCESS,
             responseByte d2 1 :: responseByte d4 1 :: responseByte d6 1 :: responseByte d8 1
               :: tl,
             SUCCESS,
             ⟨rest, log ++ cycle [0x41, 0x03, 0x0C] 6000 2 ++ cycle [0x41, 0x03, 0x0D] 6000 2
                    ++ cycle [0x41, 0x03, 0x0E] 6000 2 ++ cycle [0x41, 0x03, 0x0F] 6000 2⟩) := by
  have acc := pulse_accumulator (responseByte d2 1) (responseByte d4 1) (responseByte d6 1)
    (responseByte d8 1) (responseByte_lt _ _) (responseByte_lt _ _) (responseByte_lt _ _)
    (responseByte_lt _ _)
  simp only [readPulseAmp, readRegisterMAX30101, bind, Except.bind, pure, Except.pure,
    readBytewithWriteByte_run]
  simp only [txStatus, txByte, writeOk, readOk, afterTransaction, List.headD_cons,
    List.tail_cons, Bool.and_self, ↓reduceIte, h2, h4, h6, h8, bne_self_eq_false,
    Bool.false_eq_true, wr, List.length_cons, List.length_set, Nat.zero_lt_succ,
    Nat.lt_add_left_iff_pos, Nat.succ_lt_succ_iff, Nat.lt_add_one, List.set_cons_zero,
    List.set_cons_succ]
  generalize toUInt8 (toUInt8 (toUInt8 (toUInt8 (0 ||| responseByte d2 1)
    ||| responseByte d4 1) ||| responseByte d6 1) ||| responseByte d8 1) = s at acc ⊢
  by_cases hz : responseByte d2 1 = 0 ∧ responseByte d4 1 = 0 ∧ responseByte d6 1 = 0
      ∧ responseByte d8 1 = 0
  · have hacc : s = 0 := acc.2 hz
    subst hacc
    simp [hz, cycle]
  · have hacc : ¬ s = 0 := fun h => hz (acc.1 h)
    simp [hacc, hz, cycle]

/-- Witness of `readPulseAmp_reports_values`: the amplitudes 0x7F, 0x7F, 0x00
and 0x00. -/
theorem readPulseAmp_reports_values_witness :
    readPulseAmp [0xAA, 0xAA, 0xAA, 0xAA, 0xBB]
        ⟨[⟨true, []⟩, ⟨true, [0x00, 0x7F]⟩, ⟨true, []⟩, ⟨true, [0x00, 0x7F]⟩, ⟨true, []⟩,
          ⟨true, [0x00, 0x00]⟩, ⟨true, []⟩, ⟨true, [0x00, 0x00]⟩], []⟩
      = .ok (SUCCESS, [0x7F, 0x7F, 0x00, 0x00, 0xBB], SUCCESS,
             ⟨[], [] ++ cycle [0x41, 0x03, 0x0C] 6000 2 ++ cycle [0x41, 0x03, 0x0D] 6000 2
                    ++ cycle [0x41, 0x03, 0x0E] 6000 2 ++ cycle [0x41, 0x03, 0x0F] 6000 2⟩) :=
  readPulseAmp_reports_values 0xAA 0xAA 0xAA 0xAA [0xBB] [] [0x00, 0x7F] [] [0x00, 0x7F] []
    [0x00, 0x00] [] [0x00, 0x00] [] [] (by decide) (by decide) (by decide) (by decide)

/-! ## Units and decoding of the sensor data -/

theorem payloadByte_lt (w : World) (j : Nat) : payloadByte w j < 256 := by
  unfold payloadByte
  exact txByte_lt _ _

/-- Claim C27, as stated, fails: the hub sends the heart-rate word 0x02BF,
703 tenths of a beat per minute, the read is successful, and `readAlgoData`
returns the heart rate 70, not 703. -/
theorem heartRate_is_not_hub_word :
    ∃ v, readAlgoData 0x02 0x01
        ⟨[⟨true, []⟩, ⟨true, [0x00, 0x02, 0xBF, 0x5F, 0x03, 0xD4, 0x03]⟩], []⟩ = .ok v ∧
      v.2.1 = SUCCESS ∧ v.1.heartRate = 70 ∧ 256 * 0x02 + 0xBF = 703 ∧
      v.1.heartRate ≠ 256 * 0x02 + 0xBF :=
  ⟨_, rfl, rfl, rfl, rfl, by decide⟩

/-- Claim C27, amended. Heart-rate unit: for a successful read with the
payload `d`, the `heartRate` returned by `readAlgoData` in both algorithm
modes is the integer quotient of the 16-bit big-endian word `256*d[0] + d[1]`
by ten, and the one returned by `readRawAndAlgoData` is the integer quotient
of `256*d[12] + d[13]` by ten: the hub's word counts tenths of a beat per
minute, the field counts whole beats per minute. -/
theorem heartRate_in_whole_beats (w : World) (hs : txStatus w = 0) :
    (∃ v, readAlgoData 0x02 0x01 w = .ok v ∧
       v.1.heartRate = (256 * payloadByte w 0 + payloadByte w 1) / 10) ∧
    (∃ v, readAlgoData 0x02 0x02 w = .ok v ∧
       v.1.heartRate = (256 * payloadByte w 0 + payloadByte w 1) / 10) ∧
    (∃ v, readRawAndAlgoData 0x03 0x01 w = .ok v ∧
       v.1.heartRate = (256 * payloadByte w 12 + payloadByte w 13) / 10) ∧
    (∃ v, readRawAndAlgoData 0x03 0x02 w = .ok v ∧
       v.1.heartRate = (256 * payloadByte w 12 + payloadByte w 13) / 10) := by
  refine ⟨⟨_, readAlgoData_run_mode1 w, ?_⟩, ⟨_, readAlgoData_run_mode2 w, ?_⟩,
    ⟨_, readRawAndAlgoData_run_mode1 w, ?_⟩, ⟨_, readRawAndAlgoData_run_mode2 w, ?_⟩⟩ <;>
  simp only [hs, ↓reduceIte]

/-- Witness of `heartRate_in_whole_beats`: the heart-rate word 0x02BF at the
offsets 0 and 12 of the payload. -/
theorem heartRate_in_whole_beats_witness :
    (∃ v, readAlgoData 0x02 0x01
        ⟨[⟨true, []⟩, ⟨true, [0x00, 0x02, 0xBF, 0, 0, 0, 0, 0, 0, 0, 0, 0, 0, 0x02, 0xBF]⟩],
          []⟩ = .ok v ∧ v.1.heartRate = 70) ∧
    (∃ v, readAlgoData 0x02 0x02
        ⟨[⟨true, []⟩, ⟨true, [0x00, 0x02, 0xBF, 0, 0, 0, 0, 0, 0, 0, 0, 0, 0, 0x02, 0xBF]⟩],
          []⟩ = .ok v ∧ v.1.heartRate = 70) ∧
    (∃ v, readRawAndAlgoData 0x03 0x01
        ⟨[⟨true, []⟩, ⟨true, [0x00, 0x02, 0xBF, 0, 0, 0, 0, 0, 0, 0, 0, 0, 0, 0x02, 0xBF]⟩],
          []⟩ = .ok v ∧ v.1.heartRate = 70) ∧
    (∃ v, readRawAndAlgoData 0x03 0x02
        ⟨[⟨true, []⟩, ⟨true, [0x00, 0x02, 0xBF, 0, 0, 0, 0, 0, 0, 0, 0, 0, 0, 0x02, 0xBF]⟩],
          []⟩ = .ok v ∧ v.1.heartRate = 70) :=
  heartRate_in_whole_beats
    ⟨[⟨true, []⟩, ⟨true, [0x00, 0x02, 0xBF, 0, 0, 0, 0, 0, 0, 0, 0, 0, 0, 0x02, 0xBF]⟩], []⟩
    rfl

/-- Claim C29. readAlgoData decode: with `userOutputMode = ALGO_DATA`, in a
world where the transaction completes with the status `SUCCESS` and the
payload `d`, `readAlgoData` performs the transaction with the write buffer
[0x12, 0x01], which requests the status byte and 6 payload bytes in mode 1,
11 in mode 2, and returns with `*statusByte = SUCCESS` the data
`heartRate = (256*d[0] + d[1]) / 10`, `confidence = d[2]`,
`oxygen = (256*d[3] + d[4]) / 10`, `status = d[5]`, `irLed = redLed = 0`; in
mode 1 `rValue` and `extStatus` are 0, in mode 2 `extStatus` is `d[8]` read
as an 8-bit two's complement number (0xFA gives -6) and `rValue` is the
`float` that `rValue /= 10.0` leaves from the word `256*d[6] + d[7]`, which
is the quotient rounded to single precision: the word 1 gives
13421773/134217728, the `float` nearest to 0.1. -/
theorem readAlgoData_decodes (w : World) (hs : txStatus w = 0) :
    readAlgoData 0x02 0x01 w
      = .ok ({ irLed := 0, redLed := 0,
               heartRate := (256 * payloadByte w 0 + payloadByte w 1) / 10,
               confidence := payloadByte w 2,
               oxygen := (256 * payloadByte w 3 + payloadByte w 4) / 10,
               status := payloadByte w 5, rValue := 0, extStatus := 0 },
             SUCCESS, afterTransaction [0x12, 0x01] 6000 (1 + 6) w) ∧
    readAlgoData 0x02 0x02 w
      = .ok ({ irLed := 0, redLed := 0,
               heartRate := (256 * payloadByte w 0 + payloadByte w 1) / 10,
               confidence := payloadByte w 2,
               oxygen := (256 * payloadByte w 3 + payloadByte w 4) / 10,
               status := payloadByte w 5,
               rValue := floatDivTen (floatOfUInt (256 * payloadByte w 6 + payloadByte w 7)),
               extStatus := twosComplement8 (payloadByte w 8) },
             SUCCESS, afterTransaction [0x12, 0x01] 6000 (1 + 11) w) ∧
    twosComplement8 0xFA = -6 ∧
    floatDivTen (floatOfUInt 1) = 13421773 / 134217728 := by
  refine ⟨?_, ?_, by decide, by decide!⟩
  · rw [readAlgoData_run_mode1 w]
    simp only [hs, ↓reduceIte, SUCCESS, Nat.reduceAdd]
  · rw [readAlgoData_run_mode2 w]
    simp only [hs, ↓reduceIte, SUCCESS, Nat.reduceAdd]

/-- Witness of `readAlgoData_decodes`: heart rate 70.3, confidence 95,
oxygen 98.0, state 3, R value word 7 and extended status 0xFA; the `float`
nearest to 0.7 is 11744051/16777216. -/
theorem readAlgoData_decodes_witness :
    readAlgoData 0x02 0x01
        ⟨[⟨true, []⟩,
          ⟨true, [0x00, 0x02, 0xBF, 0x5F, 0x03, 0xD4, 0x03, 0x00, 0x07, 0xFA, 0x00, 0x00]⟩], []⟩
      = .ok ({ irLed := 0, redLed := 0, heartRate := 70, confidence := 95, oxygen := 98,
               status := 3, rValue := 0, extStatus := 0 },
             SUCCESS, ⟨[], cycle [0x12, 0x01] 6000 7⟩) ∧
    readAlgoData 0x02 0x02
        ⟨[⟨true, []⟩,
          ⟨true, [0x00, 0x02, 0xBF, 0x5F, 0x03, 0xD4, 0x03, 0x00, 0x07, 0xFA, 0x00, 0x00]⟩], []⟩
      = .ok ({ irLed := 0, redLed := 0, heartRate := 70, confidence := 95, oxygen := 98,
               status := 3, rValue := 11744051 / 16777216, extStatus := -6 },
             SUCCESS, ⟨[], cycle [0x12, 0x01] 6000 12⟩) ∧
    twosComplement8 0xFA = -6 ∧
    floatDivTen (floatOfUInt 1) = 13421773 / 134217728 := by
  have e : floatDivTen (floatOfUInt 7) = 11744051 / 16777216 := by decide!
  rw [← e]
  exact readAlgoData_decodes
    ⟨[⟨true, []⟩,
      ⟨true, [0x00, 0x02, 0xBF, 0x5F, 0x03, 0xD4, 0x03, 0x00, 0x07, 0xFA, 0x00, 0x00]⟩], []⟩
    rfl

/-- Claim C30. readRawData decode: with `userOutputMode = SENSOR_DATA`, in a
world where the transaction completes with the status `SUCCESS` and the
payload `d`, `readRawData` performs the one transaction with the write buffer
[0x12, 0x01], which requests the status byte and 12 payload bytes, and returns
with `*statusByte = SUCCESS` the data `irLed = 65536*d[0] + 256*d[1] + d[2]`
and `redLed = 65536*d[3] + 256*d[4] + d[5]`, both below 2^24, the six other
fields being 0; a world whose payload has the same bytes `d[0..5]` yields the
same data, whatever its bytes `d[6..11]`. -/
theorem readRawData_decodes (w : World) (hs : txStatus w = 0) :
    readRawData 0x01 w
      = .ok ({ irLed := 65536 * payloadByte w 0 + 256 * payloadByte w 1 + payloadByte w 2,
               redLed := 65536 * payloadByte w 3 + 256 * payloadByte w 4 + payloadByte w 5,
               heartRate := 0, confidence := 0, oxygen := 0, status := 0, rValue := 0,
               extStatus := 0 },
             SUCCESS, afterTransaction [0x12, 0x01] 6000 (1 + 12) w) ∧
    65536 * payloadByte w 0 + 256 * payloadByte w 1 + payloadByte w 2 < 2 ^ 24 ∧
    65536 * payloadByte w 3 + 256 * payloadByte w 4 + payloadByte w 5 < 2 ^ 24 ∧
    (∀ w2 : World, txStatus w2 = 0 → (∀ j, j < 6 → payloadByte w2 j = payloadByte w j) →
      ∃ v v2, readRawData 0x01 w = .ok v ∧ readRawData 0x01 w2 = .ok v2 ∧ v2.1 = v.1) := by
  have b0 := payloadByte_lt w 0
  have b1 := payloadByte_lt w 1
  have b2 := payloadByte_lt w 2
  have b3 := payloadByte_lt w 3
  have b4 := payloadByte_lt w 4
  have b5 := payloadByte_lt w 5
  refine ⟨?_, by norm_num; omega, by norm_num; omega, ?_⟩
  · rw [readRawData_run w]
    simp only [hs, ↓reduceIte, SUCCESS, Nat.reduceAdd]
  · intro w2 hs2 hd
    refine ⟨_, _, readRawData_run w, readRawData_run w2, ?_⟩
    simp only [hs, hs2, ↓reduceIte, hd 0 (by decide), hd 1 (by decide), hd 2 (by decide),
      hd 3 (by decide), hd 4 (by decide), hd 5 (by decide)]

/-- Witness of `readRawData_decodes`: the counts 0x012345 and 0x0A0B0C, and
a second payload with other bytes 6 to 11. -/
theorem readRawData_decodes_witness :
    readRawData 0x01
        ⟨[⟨true, []⟩,
          ⟨true, [0x00, 0x01, 0x23, 0x45, 0x0A, 0x0B, 0x0C, 1, 2, 3, 4, 5, 6]⟩], []⟩
      = .ok ({ irLed := 0x012345, redLed := 0x0A0B0C, heartRate := 0, confidence := 0,
               oxygen := 0, status := 0, rValue := 0, extStatus := 0 },
             SUCCESS, ⟨[], cycle [0x12, 0x01] 6000 13⟩) ∧
    readRawData 0x01
        ⟨[⟨true, []⟩,
          ⟨true, [0x00, 0x01, 0x23, 0x45, 0x0A, 0x0B, 0x0C, 9, 9, 9, 9, 9, 9]⟩], []⟩
      = .ok ({ irLed := 0x012345, redLed := 0x0A0B0C, heartRate := 0, confidence := 0,
               oxygen := 0, status := 0, rValue := 0, extStatus := 0 },
             SUCCESS, ⟨[], cycle [0x12, 0x01] 6000 13⟩) :=
  ⟨(readRawData_decodes
      ⟨[⟨true, []⟩, ⟨true, [0x00, 0x01, 0x23, 0x45, 0x0A, 0x0B, 0x0C, 1, 2, 3, 4, 5, 6]⟩], []⟩
      rfl).1, rfl⟩

/-! ## Readers and the output configuration -/

/-- Outcome of `readRawData` when the output mode is not `SENSOR_DATA`. -/
theorem readRawData_refuses (m : Nat) (w : World) (hm : m ≠ 1) :
    readRawData m w = .ok (allZero, INCORR_PARAM, w) := by
  have hv : (m != SENSOR_DATA) = true := by simpa using hm
  simp only [readRawData, hv, ↓reduceIte, pure, Except.pure]

/-- Outcome of `readAlgoData` when the output mode is not `ALGO_DATA` or the
algorithm mode is neither 1 nor 2. -/
theorem readAlgoData_refuses (m a : Nat) (w : World) (h : m ≠ 2 ∨ ¬ (a = 1 ∨ a = 2)) :
    readAlgoData m a w = .ok (allZero, INCORR_PARAM, w) := by
  by_cases hm : m = 2
  · have ha : ¬ (a = 1 ∨ a = 2) := by
      rcases h with h | h
      · exact absurd hm h
      · exact h
    simp only [not_or] at ha
    have h0 : (m != ALGO_DATA) = false := by simp [hm]
    have h1 : (a == MODE_ONE) = false := by simpa using ha.1
    have h2 : (a == MODE_TWO) = false := by simpa using ha.2
    simp only [readAlgoData, h0, h1, h2, Bool.false_eq_true, ↓reduceIte, pure, Except.pure]
  · have h0 : (m != ALGO_DATA) = true := by simpa using hm
    simp only [readAlgoData, h0, ↓reduceIte, pure, Except.pure]

/-- Outcome of `readRawAndAlgoData` when the output mode is not
`SENSOR_AND_ALGORITHM` or the algorithm mode is neither 1 nor 2. -/
theorem readRawAndAlgoData_refuses (m a : Nat) (w : World)
    (h : m ≠ 3 ∨ ¬ (a = 1 ∨ a = 2)) :
    readRawAndAlgoData m a w = .ok (allZero, INCORR_PARAM, w) := by
  by_cases hm : m = 3
  · have ha : ¬ (a = 1 ∨ a = 2) := by
      rcases h with h | h
      · exact absurd hm h
      · exact h
    simp only [not_or] at ha
    have h0 : (m != SENSOR_AND_ALGORITHM) = false := by simp [hm]
    have h1 : (a == MODE_ONE) = false := by simpa using ha.1
    have h2 : (a == MODE_TWO) = false := by simpa using ha.2
    simp only [readRawAndAlgoData, h0, h1, h2, Bool.false_eq_true, ↓reduceIte, pure,
      Except.pure]
  · have h0 : (m != SENSOR_AND_ALGORITHM) = true := by simpa using hm
    simp only [readRawAndAlgoData, h0, ↓reduceIte, pure, Except.pure]

/-- Claim C32. Readers refuse to run under the wrong configuration: in every
world, `readRawData` with `userOutputMode` other than 0x01, `readAlgoData`
with `userOutputMode` other than 0x02 or `userAlgoMode` not in {1, 2}, and
`readRawAndAlgoData` with `userOutputMode` other than 0x03 or `userAlgoMode`
not in {1, 2} return the data `allZero` with `*statusByte = INCORR_PARAM`
(0xEE) and leave the world as it is: no transfer, no sleep. -/
theorem readers_refuse_wrong_configuration (m1 m2 a2 m3 a3 : Nat) (w : World)
    (h1 : m1 ≠ 1) (h2 : m2 ≠ 2 ∨ ¬ (a2 = 1 ∨ a2 = 2)) (h3 : m3 ≠ 3 ∨ ¬ (a3 = 1 ∨ a3 = 2)) :
    readRawData m1 w = .ok (allZero, INCORR_PARAM, w) ∧
    readAlgoData m2 a2 w = .ok (allZero, INCORR_PARAM, w) ∧
    readRawAndAlgoData m3 a3 w = .ok (allZero, INCORR_PARAM, w) ∧
    INCORR_PARAM = 0xEE :=
  ⟨readRawData_refuses m1 w h1, readAlgoData_refuses m2 a2 w h2,
    readRawAndAlgoData_refuses m3 a3 w h3, rfl⟩

/-- Witness of `readers_refuse_wrong_configuration`: the output mode 0x02 for
`readRawData`, the algorithm mode 0 for `readAlgoData`, the algorithm mode 3
for `readRawAndAlgoData`, on a bus that would answer. -/
theorem readers_refuse_wrong_configuration_witness :
    readRawData 0x02 ⟨[⟨true, []⟩, ⟨true, [0x00, 0x01]⟩], []⟩
      = .ok (allZero, INCORR_PARAM, ⟨[⟨true, []⟩, ⟨true, [0x00, 0x01]⟩], []⟩) ∧
    readAlgoData 0x02 0x00 ⟨[⟨true, []⟩, ⟨true, [0x00, 0x01]⟩], []⟩
      = .ok (allZero, INCORR_PARAM, ⟨[⟨true, []⟩, ⟨true, [0x00, 0x01]⟩], []⟩) ∧
    readRawAndAlgoData 0x03 0x03 ⟨[⟨true, []⟩, ⟨true, [0x00, 0x01]⟩], []⟩
      = .ok (allZero, INCORR_PARAM, ⟨[⟨true, []⟩, ⟨true, [0x00, 0x01]⟩], []⟩) ∧
    INCORR_PARAM = 0xEE :=
  readers_refuse_wrong_configuration 0x02 0x02 0x00 0x03 0x03 _ (by decide)
    (Or.inr (by decide)) (Or.inr (by decide))

/-- The reset of the data on a status other than `SUCCESS`, in
`readSensorData`, changes nothing when the data are zero already. -/
theorem dispatch_id (r : Except Fault (bioData × Nat × World))
    (h : ∃ v, r = .ok v ∧ (v.2.1 = SUCCESS ∨ v.1 = allZero)) :
    (do
        let (libData, statusByte, w) ← r
        if statusByte != SUCCESS then
          return (allZero, statusByte, w)
        else
          return (libData, statusByte, w)) = r := by
  obtain ⟨⟨d, s, w1⟩, rfl, hz⟩ := h
  simp only [bind, Except.bind, pure, Except.pure]
  by_cases hs : s = 0
  · subst hs
    rfl
  · have hb : (s != SUCCESS) = true := by simpa using hs
    have hd : d = allZero := by
      rcases hz with h | h
      · exact absurd h hs
      · exact h
    simp only [hb, ↓reduceIte, hd]

/-- Outcome of `readSensorData` in any world. -/
theorem readSensorData_run (m a : Nat) (w : World) :
    let t1 := afterTransaction [0x00, 0x00] 6000 2 w
    let t2 := afterTransaction [0x12, 0x00] 6000 2 t1
    readSensorData m a w
      = if txStatus w = 0 ∧ payloadByte w 0 % 2 = 1 then .ok (allZero, ERR_UNKNOWN, t1)
        else if txStatus w ≠ 0 then .ok (allZero, txStatus w, t1)
        else if txStatus t1 ≠ 0 then .ok (allZero, txStatus t1, t2)
        else if m = 1 then readRawData m t2
        else if m = 2 then readAlgoData m a t2
        else if m = 3 then readRawAndAlgoData m a t2
        else .ok (allZero, INCORR_PARAM, t2) := by
  intro t1 t2
  have e1 := dispatch_id _ (readRawData_zero m t2)
  have e2 := dispatch_id _ (readAlgoData_zero m a t2)
  have e3 := dispatch_id _ (readRawAndAlgoData_zero m a t2)
  simp only [bind, Except.bind, pure, Except.pure] at e1 e2 e3
  simp only [readSensorData, readSensorHubStatus, numSamplesOutFifo, bind, Except.bind, pure,
    Except.pure, readByte_run, HUB_STATUS, READ_DATA_OUTPUT, NUM_SAMPLES]
  by_cases h1 : txStatus w = 0
  swap
  · simp [h1, t1]
  by_cases hb : payloadByte w 0 % 2 = 1
  · have hb1 : txByte w 1 % 2 = 1 := hb
    simp [h1, hb, hb1, t1, Nat.and_one_is_mod]
  have hb1 : ¬ txByte w 1 % 2 = 1 := hb
  by_cases h2 : txStatus t1 = 0
  swap
  · simp [h1, hb, hb1, h2, t1, t2, Nat.and_one_is_mod]
  simp only [h1, hb, hb1, h2, ↓reduceIte, Nat.and_one_is_mod, SUCCESS, bne_self_eq_false,
    Bool.false_eq_true, and_false, and_true, not_true_eq_false, ne_eq, true_and]
  have hb0 : txByte w 1 % 2 = 0 := by omega
  simp only [SUCCESS, t2, t1] at e1 e2 e3
  simp only [hb0, bne_self_eq_false, Bool.false_eq_true, ↓reduceIte, SENSOR_DATA, ALGO_DATA,
    SENSOR_AND_ALGORITHM, beq_iff_eq, e1, e2, e3, t2, t1]

/-- Claim C33. readSensorData dispatch: `readSensorData` first performs the
hub status transaction (write buffer [0x00, 0x00]). When that transaction
reports `SUCCESS` and bit 0 of the hub status is set, it returns the data
`allZero` with `*statusByte = ERR_UNKNOWN` after that one transaction. When
the hub status transaction reports `SUCCESS` with bit 0 clear and the sample
count transaction (write buffer [0x12, 0x00]) reports `SUCCESS`, the data and
`*statusByte` are those of `readRawData`, `readAlgoData` or
`readRawAndAlgoData` in the world after the two transactions, for
`userOutputMode` 1, 2 or 3, and `allZero` with `INCORR_PARAM` for any other
`userOutputMode`; the payload `d4` of the sample count response occurs
nowhere in the result. -/
theorem readSensorData_dispatch (m a : Nat) (d1 d2 d2s d3 d4 : List Nat)
    (rest : List BusReply) (log : List Event)
    (hSet : responseByte d2s 0 = 0 ∧ responseByte d2s 1 % 2 = 1)
    (hClear : responseByte d2 0 = 0 ∧ responseByte d2 1 % 2 = 0)
    (hCount : responseByte d4 0 = 0) :
    readSensorData m a ⟨⟨true, d1⟩ :: ⟨true, d2s⟩ :: rest, log⟩
      = .ok (allZero, ERR_UNKNOWN, ⟨rest, log ++ cycle [0x00, 0x00] 6000 2⟩) ∧
    readSensorData m a ⟨⟨true, d1⟩ :: ⟨true, d2⟩ :: ⟨true, d3⟩ :: ⟨true, d4⟩ :: rest, log⟩
      = (if m = 1 then
           readRawData m
             ⟨rest, log ++ cycle [0x00, 0x00] 6000 2 ++ cycle [0x12, 0x00] 6000 2⟩
         else if m = 2 then
           readAlgoData m a
             ⟨rest, log ++ cycle [0x00, 0x00] 6000 2 ++ cycle [0x12, 0x00] 6000 2⟩
         else if m = 3 then
           readRawAndAlgoData m a
             ⟨rest, log ++ cycle [0x00, 0x00] 6000 2 ++ cycle [0x12, 0x00] 6000 2⟩
         else
           .ok (allZero, INCORR_PARAM,
                ⟨rest, log ++ cycle [0x00, 0x00] 6000 2 ++ cycle [0x12, 0x00] 6000 2⟩)) := by
  constructor
  · have e := readSensorData_run m a ⟨⟨true, d1⟩ :: ⟨true, d2s⟩ :: rest, log⟩
    simp only at e
    rw [e]
    simp [txStatus, txByte, payloadByte, writeOk, readOk, afterTransaction, hSet.1, hSet.2]
  · have e := readSensorData_run m a
      ⟨⟨true, d1⟩ :: ⟨true, d2⟩ :: ⟨true, d3⟩ :: ⟨true, d4⟩ :: rest, log⟩
    simp only at e
    rw [e]
    simp [txStatus, txByte, payloadByte, writeOk, readOk, afterTransaction, hClear.1,
      hClear.2, hCount]

/-- Witness of `readSensorData_dispatch`: raw data mode; the hub status 0x01
in the first world, the hub status 0x00 and seven samples in the second. -/
theorem readSensorData_dispatch_witness :
    readSensorData 1 0 ⟨⟨true, []⟩ :: ⟨true, [0x00, 0x01]⟩ :: [], []⟩
      = .ok (allZero, ERR_UNKNOWN, ⟨[], [] ++ cycle [0x00, 0x00] 6000 2⟩) ∧
    readSensorData 1 0
        ⟨⟨true, []⟩ :: ⟨true, [0x00, 0x00]⟩ :: ⟨true, []⟩ :: ⟨true, [0x00, 0x07]⟩ :: [], []⟩
      = (if 1 = 1 then
           readRawData 1 ⟨[], [] ++ cycle [0x00, 0x00] 6000 2 ++ cycle [0x12, 0x00] 6000 2⟩
         else if 1 = 2 then
           readAlgoData 1 0 ⟨[], [] ++ cycle [0x00, 0x00] 6000 2 ++ cycle [0x12, 0x00] 6000 2⟩
         else if 1 = 3 then
           readRawAndAlgoData 1 0
             ⟨[], [] ++ cycle [0x00, 0x00] 6000 2 ++ cycle [0x12, 0x00] 6000 2⟩
         else
           .ok (allZero, INCORR_PARAM,
                ⟨[], [] ++ cycle [0x00, 0x00] 6000 2 ++ cycle [0x12, 0x00] 6000 2⟩)) :=
  readSensorData_dispatch 1 0 [] [0x00, 0x00] [0x00, 0x01] [] [0x00, 0x07] [] []
    (by decide) (by decide) (by decide)

/-- Claim C31. readRawAndAlgoData is the composition of the raw and algorithm
decoders: let the transaction of `readRawAndAlgoData` report `SUCCESS` with
the payload `d` in the world `w`, that of `readRawData` report `SUCCESS`
with the payload `d[0..11]` in the world `wr`, and that of `readAlgoData`
report `SUCCESS` with the payload `d[12..]` in the world `wa`. Then, in
algorithm mode 1 and in algorithm mode 2, `irLed` and `redLed` of
`readRawAndAlgoData` are those of `readRawData`, and `heartRate`,
`confidence`, `oxygen`, `status`, `rValue` and `extStatus` are those of
`readAlgoData` in the same algorithm mode. -/
theorem rawAndAlgo_composes_decoders (w wr wa : World) (hs : txStatus w = 0)
    (hr : txStatus wr = 0) (ha : txStatus wa = 0)
    (hraw : ∀ j, j < 12 → payloadByte wr j = payloadByte w j)
    (halgo : ∀ j, j < 11 → payloadByte wa j = payloadByte w (12 + j)) :
    (∃ v r g, readRawAndAlgoData 0x03 0x01 w = .ok v ∧ readRawData 0x01 wr = .ok r ∧
       readAlgoData 0x02 0x01 wa = .ok g ∧
       v.1.irLed = r.1.irLed ∧ v.1.redLed = r.1.redLed ∧ v.1.heartRate = g.1.heartRate ∧
       v.1.confidence = g.1.confidence ∧ v.1.oxygen = g.1.oxygen ∧ v.1.status = g.1.status ∧
       v.1.rValue = g.1.rValue ∧ v.1.extStatus = g.1.extStatus) ∧
    (∃ v r g, readRawAndAlgoData 0x03 0x02 w = .ok v ∧ readRawData 0x01 wr = .ok r ∧
       readAlgoData 0x02 0x02 wa = .ok g ∧
       v.1.irLed = r.1.irLed ∧ v.1.redLed = r.1.redLed ∧ v.1.heartRate = g.1.heartRate ∧
       v.1.confidence = g.1.confidence ∧ v.1.oxygen = g.1.oxygen ∧ v.1.status = g.1.status ∧
       v.1.rValue = g.1.rValue ∧ v.1.extStatus = g.1.extStatus) := by
  have r0 := hraw 0 (by decide)
  have r1 := hraw 1 (by decide)
  have r2 := hraw 2 (by decide)
  have r3 := hraw 3 (by decide)
  have r4 := hraw 4 (by decide)
  have r5 := hraw 5 (by decide)
  have a0 : payloadByte wa 0 = payloadByte w 12 := halgo 0 (by decide)
  have a1 : payloadByte wa 1 = payloadByte w 13 := halgo 1 (by decide)
  have a2 : payloadByte wa 2 = payloadByte w 14 := halgo 2 (by decide)
  have a3 : payloadByte wa 3 = payloadByte w 15 := halgo 3 (by decide)
  have a4 : payloadByte wa 4 = payloadByte w 16 := halgo 4 (by decide)
  have a5 : payloadByte wa 5 = payloadByte w 17 := halgo 5 (by decide)
  have a6 : payloadByte wa 6 = payloadByte w 18 := halgo 6 (by decide)
  have a7 : payloadByte wa 7 = payloadByte w 19 := halgo 7 (by decide)
  have a8 : payloadByte wa 8 = payloadByte w 20 := halgo 8 (by decide)
  constructor
  · refine ⟨_, _, _, readRawAndAlgoData_run_mode1 w, readRawData_run wr,
      readAlgoData_run_mode1 wa, ?_⟩
    simp only [hs, hr, ha, ↓reduceIte, r0, r1, r2, r3, r4, r5, a0, a1, a2, a3, a4, a5,
      and_self]
  · refine ⟨_, _, _, readRawAndAlgoData_run_mode2 w, readRawData_run wr,
      readAlgoData_run_mode2 wa, ?_⟩
    simp only [hs, hr, ha, ↓reduceIte, r0, r1, r2, r3, r4, r5, a0, a1, a2, a3, a4, a5, a6,
      a7, a8, and_self]

/-- Witness of `rawAndAlgo_composes_decoders`: a payload of 23 bytes, its
first 12 bytes as the payload of `readRawData` and its bytes from offset 12
as the payload of `readAlgoData`. -/
theorem rawAndAlgo_composes_decoders_witness :
    (∃ v r g, readRawAndAlgoData 0x03 0x01
        ⟨[⟨true, []⟩, ⟨true, [0x00, 0x01, 0x23, 0x45, 0x0A, 0x0B, 0x0C, 1, 2, 3, 4, 5, 6, 0x02,
          0xBF, 0x5F, 0x03, 0xD4, 0x03, 0x00, 0x2D, 0xFA, 0x00, 0x00]⟩], []⟩ = .ok v ∧
       readRawData 0x01
        ⟨[⟨true, []⟩, ⟨true, [0x00, 0x01, 0x23, 0x45, 0x0A, 0x0B, 0x0C, 1, 2, 3, 4, 5, 6]⟩], []⟩
          = .ok r ∧
       readAlgoData 0x02 0x01
        ⟨[⟨true, []⟩,
          ⟨true, [0x00, 0x02, 0xBF, 0x5F, 0x03, 0xD4, 0x03, 0x00, 0x2D, 0xFA, 0x00, 0x00]⟩], []⟩
          = .ok g ∧
       v.1.irLed = r.1.irLed ∧ v.1.redLed = r.1.redLed ∧ v.1.heartRate = g.1.heartRate ∧
       v.1.confidence = g.1.confidence ∧ v.1.oxygen = g.1.oxygen ∧ v.1.status = g.1.status ∧
       v.1.rValue = g.1.rValue ∧ v.1.extStatus = g.1.extStatus) ∧
    (∃ v r g, readRawAndAlgoData 0x03 0x02
        ⟨[⟨true, []⟩, ⟨true, [0x00, 0x01, 0x23, 0x45, 0x0A, 0x0B, 0x0C, 1, 2, 3, 4, 5, 6, 0x02,
          0xBF, 0x5F, 0x03, 0xD4, 0x03, 0x00, 0x2D, 0xFA, 0x00, 0x00]⟩], []⟩ = .ok v ∧
       readRawData 0x01
        ⟨[⟨true, []⟩, ⟨true, [0x00, 0x01, 0x23, 0x45, 0x0A, 0x0B, 0x0C, 1, 2, 3, 4, 5, 6]⟩], []⟩
          = .ok r ∧
       readAlgoData 0x02 0x02
        ⟨[⟨true, []⟩,
          ⟨true, [0x00, 0x02, 0xBF, 0x5F, 0x03, 0xD4, 0x03, 0x00, 0x2D, 0xFA, 0x00, 0x00]⟩], []⟩
          = .ok g ∧
       v.1.irLed = r.1.irLed ∧ v.1.redLed = r.1.redLed ∧ v.1.heartRate = g.1.heartRate ∧
       v.1.confidence = g.1.confidence ∧ v.1.oxygen = g.1.oxygen ∧ v.1.status = g.1.status ∧
       v.1.rValue = g.1.rValue ∧ v.1.extStatus = g.1.extStatus) :=
  rawAndAlgo_composes_decoders
    ⟨[⟨true, []⟩, ⟨true, [0x00, 0x01, 0x23, 0x45, 0x0A, 0x0B, 0x0C, 1, 2, 3, 4, 5, 6, 0x02,
          0xBF, 0x5F, 0x03, 0xD4, 0x03, 0x00, 0x2D, 0xFA, 0x00, 0x00]⟩], []⟩
    ⟨[⟨true, []⟩, ⟨true, [0x00, 0x01, 0x23, 0x45, 0x0A, 0x0B, 0x0C, 1, 2, 3, 4, 5, 6]⟩], []⟩
    ⟨[⟨true, []⟩,
          ⟨true, [0x00, 0x02, 0xBF, 0x5F, 0x03, 0xD4, 0x03, 0x00, 0x2D, 0xFA, 0x00, 0x00]⟩], []⟩
    rfl rfl rfl (by decide) (by decide)

/-! ## Reset of the MAX30101 -/

/-- The two assignments `regVal &= RESET_MASK; regVal |= SET_RESET_BIT;` on a
byte. -/
theorem reset_bit_byte :
    ∀ r, r < 256 → toUInt8 (toUInt8 (r &&& 0xBF) ||| 0x40) = r ||| 0x40 := by
  set_option maxRecDepth 20000 in decide

theorem or_reset_bit (r i : Nat) :
    (r ||| 0x40).testBit i = if i = 6 then true else r.testBit i := by
  have e : (0x40 : Nat) = 2 ^ 6 := by norm_num
  rw [Nat.testBit_or, e, Nat.testBit_two_pow]
  by_cases h : i = 6
  · subst h
    simp
  · have h6 : ¬ 6 = i := fun h6 => h h6.symm
    simp [h, h6]

/-- Outcome of `softwareResetMAX30101` in any world. -/
theorem resetMAX30101_run (w : World) :
    let t1 := afterTransaction [0x41, 0x03, 0x09] 6000 2 w
    let t2 := afterTransaction [0x40, 0x03, 0x09, payloadByte w 0 ||| 0x40] 6000 1 t1
    softwareResetMAX30101 w
      = if txStatus w ≠ 0 then .ok (txStatus w, t1)
        else if txStatus t1 ≠ 0 then .ok (txStatus t1, t2)
        else .ok (SUCCESS, sleep 2 t2) := by
  intro t1 t2
  have hr := reset_bit_byte (txByte w 1) (txByte_lt w 1)
  simp only [softwareResetMAX30101, readRegisterMAX30101, writeRegisterMAX30101, bind,
    Except.bind, pure, Except.pure, readBytewithWriteByte_run, write2Bytes_run, READ_REGISTER,
    READ_MAX30101, MODE_REGISTER, WRITE_REGISTER, WRITE_MAX30101, RESET_MASK, SET_RESET_BIT,
    SUCCESS]
  by_cases h1 : txStatus w = 0
  swap
  · simp [h1, t1]
  by_cases h2 : txStatus t1 = 0
  · simp [h1, h2, hr, t1, t2, payloadByte]
  · simp [h1, h2, hr, t1, t2, payloadByte]

/-- Claim C34. softwareResetMAX30101 is a read-modify-write of bit 6 only: in
every world, it performs the read transaction with the write buffer
[0x41, 0x03, 0x09]; if the status of that transaction is not `SUCCESS` it
returns that status and performs nothing else; otherwise, `r` being the value
read, it performs the write transaction with the write buffer
[0x40, 0x03, 0x09, v] where `v = r ||| 0x40`, returns the status of that
transaction if it is not `SUCCESS`, and else sleeps 2 s and returns
`SUCCESS`. Bit 6 of `v` is set and every other bit of `v` is the bit of
`r`. -/
theorem resetMAX30101_sets_bit_six (w : World) :
    let r := payloadByte w 0
    let v := r ||| 0x40
    let t1 := afterTransaction [0x41, 0x03, 0x09] 6000 2 w
    let t2 := afterTransaction [0x40, 0x03, 0x09, v] 6000 1 t1
    softwareResetMAX30101 w
      = (if txStatus w ≠ 0 then .ok (txStatus w, t1)
         else if txStatus t1 ≠ 0 then .ok (txStatus t1, t2)
         else .ok (SUCCESS, sleep 2 t2)) ∧
    v.testBit 6 = true ∧ (∀ i, i ≠ 6 → v.testBit i = r.testBit i) := by
  intro r v t1 t2
  refine ⟨resetMAX30101_run w, ?_, ?_⟩
  · simp only [v, or_reset_bit, ↓reduceIte]
  · intro i hi
    simp only [v, or_reset_bit, hi, ↓reduceIte]

/-! ## Fields of the MAX30101 configuration register -/

theorem samp_field : ∀ c, c < 256 → toUInt8 (toUInt8 (c &&& 0x1C) >>> 2) = (c >>> 2) % 8 := by
  set_option maxRecDepth 20000 in decide

theorem adc_field : ∀ c, c < 256 → toUInt8 (toUInt8 (c &&& 0x60) >>> 5) = (c >>> 5) % 4 := by
  set_option maxRecDepth 20000 in decide

theorem pulse_field : ∀ c, c < 256 → toUInt8 (c &&& 0x03) = c % 4 := by
  set_option maxRecDepth 20000 in decide

/-- Outcome of `readADCSampleRate` in any world. -/
theorem readADCSampleRate_run (w : World) :
    readADCSampleRate w
      = .ok (if txStatus w = 0 then
               [50, 100, 200, 400, 800, 1000, 1600, 3200].getD ((payloadByte w 0 >>> 2) % 8) 0
             else ERR_UNKNOWN,
             txStatus w, afterTransaction [0x41, 0x03, 0x0A] 6000 2 w) := by
  simp only [readADCSampleRate, readRegisterMAX30101, bind, Except.bind, pure, Except.pure,
    readBytewithWriteByte_run, READ_REGISTER, READ_MAX30101, CONFIGURATION_REGISTER,
    READ_SAMP_MASK, payloadByte, Nat.add_zero]
  by_cases h : txStatus w = 0
  swap
  · simp [h]
  simp only [h, ↓reduceIte, bne_self_eq_false, Bool.false_eq_true,
    samp_field _ (txByte_lt w 1)]
  have hk : (txByte w 1 >>> 2) % 8 < 8 := Nat.mod_lt _ (by decide)
  generalize (txByte w 1 >>> 2) % 8 = k at hk ⊢
  interval_cases k <;> rfl

/-- Outcome of `readADCRange` in any world. -/
theorem readADCRange_run (w : World) :
    readADCRange w
      = .ok (if txStatus w = 0 then 2048 * 2 ^ ((payloadByte w 0 >>> 5) % 4) else ERR_UNKNOWN,
             txStatus w, afterTransaction [0x41, 0x03, 0x0A] 6000 2 w) := by
  simp only [readADCRange, readRegisterMAX30101, bind, Except.bind, pure, Except.pure,
    readBytewithWriteByte_run, READ_REGISTER, READ_MAX30101, CONFIGURATION_REGISTER,
    READ_ADC_MASK, payloadByte, Nat.add_zero]
  by_cases h : txStatus w = 0
  swap
  · simp [h]
  simp only [h, ↓reduceIte, bne_self_eq_false, Bool.false_eq_true,
    adc_field _ (txByte_lt w 1)]
  have hk : (txByte w 1 >>> 5) % 4 < 4 := Nat.mod_lt _ (by decide)
  generalize (txByte w 1 >>> 5) % 4 = k at hk ⊢
  interval_cases k <;> rfl

/-- Outcome of `readPulseWidth` in any world. -/
theorem readPulseWidth_run (w : World) :
    readPulseWidth w
      = .ok (if txStatus w = 0 then [69, 118, 215, 411].getD (payloadByte w 0 % 4) 0
             else ERR_UNKNOWN,
             txStatus w, afterTransaction [0x41, 0x03, 0x0A] 6000 2 w) := by
  simp only [readPulseWidth, readRegisterMAX30101, bind, Except.bind, pure, Except.pure,
    readBytewithWriteByte_run, READ_REGISTER, READ_MAX30101, CONFIGURATION_REGISTER,
    READ_PULSE_MASK, payloadByte, Nat.add_zero]
  by_cases h : txStatus w = 0
  swap
  · simp [h]
  simp only [h, ↓reduceIte, bne_self_eq_false, Bool.false_eq_true,
    pulse_field _ (txByte_lt w 1)]
  have hk : txByte w 1 % 4 < 4 := Nat.mod_lt _ (by decide)
  generalize txByte w 1 % 4 = k at hk ⊢
  interval_cases k <;> rfl

/-- Claim C35. MAX30101 configuration-field decoders: in every world, `c`
being the value of the configuration register 0x0A read by the transaction
with the write buffer [0x41, 0x03, 0x0A], when the status is `SUCCESS`
`readADCSampleRate` returns the entry `(c >> 2) mod 8` of
[50, 100, 200, 400, 800, 1000, 1600, 3200], `readADCRange` returns
`2048 * 2^((c >> 5) mod 4)` and `readPulseWidth` returns the entry `c mod 4`
of [69, 118, 215, 411]; with any other status each returns `ERR_UNKNOWN`.
Each of the three returns `ERR_UNKNOWN` (255) if and only if `*statusByte` is
not `SUCCESS`. -/
theorem configuration_field_decoders (w : World) :
    (readADCSampleRate w
       = .ok (if txStatus w = 0 then
                [50, 100, 200, 400, 800, 1000, 1600, 3200].getD
                  ((payloadByte w 0 >>> 2) % 8) 0
              else ERR_UNKNOWN,
              txStatus w, afterTransaction [0x41, 0x03, 0x0A] 6000 2 w)) ∧
    (readADCRange w
       = .ok (if txStatus w = 0 then 2048 * 2 ^ ((payloadByte w 0 >>> 5) % 4)
              else ERR_UNKNOWN,
              txStatus w, afterTransaction [0x41, 0x03, 0x0A] 6000 2 w)) ∧
    (readPulseWidth w
       = .ok (if txStatus w = 0 then [69, 118, 215, 411].getD (payloadByte w 0 % 4) 0
              else ERR_UNKNOWN,
              txStatus w, afterTransaction [0x41, 0x03, 0x0A] 6000 2 w)) ∧
    (∃ v, readADCSampleRate w = .ok v ∧ (v.1 = ERR_UNKNOWN ↔ v.2.1 ≠ SUCCESS)) ∧
    (∃ v, readADCRange w = .ok v ∧ (v.1 = ERR_UNKNOWN ↔ v.2.1 ≠ SUCCESS)) ∧
    (∃ v, readPulseWidth w = .ok v ∧ (v.1 = ERR_UNKNOWN ↔ v.2.1 ≠ SUCCESS)) ∧
    ERR_UNKNOWN = 255 := by
  refine ⟨readADCSampleRate_run w, readADCRange_run w, readPulseWidth_run w,
    ⟨_, readADCSampleRate_run w, ?_⟩, ⟨_, readADCRange_run w, ?_⟩,
    ⟨_, readPulseWidth_run w, ?_⟩, rfl⟩
  · by_cases h : txStatus w = 0
    · have hk : (payloadByte w 0 >>> 2) % 8 < 8 := Nat.mod_lt _ (by decide)
      simp only [h, ↓reduceIte, SUCCESS, ne_eq, not_true_eq_false, iff_false]
      generalize (payloadByte w 0 >>> 2) % 8 = k at hk ⊢
      interval_cases k <;> decide
    · simp [h]
  · by_cases h : txStatus w = 0
    · have hk : (payloadByte w 0 >>> 5) % 4 < 4 := Nat.mod_lt _ (by decide)
      simp only [h, ↓reduceIte, SUCCESS, ne_eq, not_true_eq_false, iff_false]
      generalize (payloadByte w 0 >>> 5) % 4 = k at hk ⊢
      interval_cases k <;> decide
    · simp [h]
  · by_cases h : txStatus w = 0
    · have hk : payloadByte w 0 % 4 < 4 := Nat.mod_lt _ (by decide)
      simp only [h, ↓reduceIte, SUCCESS, ne_eq, not_true_eq_false, iff_false]
      generalize payloadByte w 0 % 4 = k at hk ⊢
      interval_cases k <;> decide
    · simp [h]

/-! ## Start of the library -/

/-- Outcome of `beginI2C` in any world. -/
theorem beginI2C_run (w : World) :
    let t1 := afterTransaction [0x02, 0x00] 6000 2 w
    beginI2C w
      = if txStatus w ≠ 0 then .ok (ERR_UNKNOWN, txStatus w, t1)
        else if payloadByte w 0 = 0x02 ∨ payloadByte w 0 = 0x08 then
          (setDeviceMode 0x00 t1).map fun r =>
            (if r.2.1 = SUCCESS then r.1 else ERR_UNKNOWN, r.2.1, sleep 2 r.2.2)
        else .ok (payloadByte w 0, SUCCESS, t1) := by
  intro t1
  simp only [beginI2C, readDeviceMode, bind, Except.bind, pure, Except.pure, readByte_run,
    READ_DEVICE_MODE, RESET, ENTER_BOOTLOADER, EXIT_BOOTLOADER, SUCCESS, payloadByte,
    Nat.add_zero]
  by_cases h1 : txStatus w = 0
  swap
  · simp [h1, t1]
  simp only [h1, ↓reduceIte, bne_self_eq_false, Bool.false_eq_true, ne_eq, not_true_eq_false,
    Bool.or_eq_true, beq_iff_eq]
  by_cases hm : txByte w 1 = 2 ∨ txByte w 1 = 8
  · simp only [hm, ↓reduceIte]
    rw [setDeviceMode_run 0 _ (Or.inl rfl)]
    by_cases h2 : txStatus (afterTransaction [2, 0] 6000 2 w) = 0
    swap
    · simp [h2, t1, Except.map]
    by_cases h3 : txStatus (afterTransaction [1, 0, 0] 6000 1
        (afterTransaction [2, 0] 6000 2 w)) = 0
    · simp [h2, h3, t1, Except.map]
    · simp [h2, h3, t1, Except.map]
  · simp only [hm, ↓reduceIte, t1]

/-- On return from `beginI2C`, `*statusByte` is `SUCCESS` or the value is
`ERR_UNKNOWN`. -/
theorem beginI2C_guard (w : World) :
    ∃ v, beginI2C w = .ok v ∧ (v.2.1 = SUCCESS ∨ v.1 = ERR_UNKNOWN) := by
  rw [beginI2C_run w]
  by_cases h1 : txStatus w = 0
  swap
  · exact ⟨_, by simp only [ne_eq, h1, not_false_eq_true, ↓reduceIte]; rfl, Or.inr rfl⟩
  by_cases hm : payloadByte w 0 = 0x02 ∨ payloadByte w 0 = 0x08
  · simp only [h1, ne_eq, not_true_eq_false, ↓reduceIte, hm]
    rw [setDeviceMode_run 0 _ (Or.inl rfl)]
    by_cases h2 : txStatus (afterTransaction [2, 0] 6000 2 w) = 0
    swap
    · simp [h2, Except.map]
    by_cases h3 : txStatus (afterTransaction [1, 0, 0] 6000 1
        (afterTransaction [2, 0] 6000 2 w)) = 0
    · simp [h2, h3, Except.map]
    · simp [h2, h3, Except.map]
  · simp only [h1, ne_eq, not_true_eq_false, ↓reduceIte, hm]
    exact ⟨_, rfl, Or.inl rfl⟩

/-- Value returned by `softwareResetMAX32664`, in any world. -/
theorem softwareReset_condition (w : World) :
    let t1 := afterTransaction [0x01, 0x00, 0x02] 6000 1 w
    let t2 := afterTransaction [0x02, 0x00] 6000 2 t1
    let w3 := usleep 10000 t2
    let t3 := afterTransaction [0x01, 0x00, 0x00] 6000 1 w3
    ∃ v, softwareResetMAX32664 w = .ok v ∧
      (v.1 = SUCCESS ↔
        txStatus w = 0 ∧ txStatus t1 = 0 ∧ txStatus w3 = 0 ∧ txStatus t3 = 0 ∧
          payloadByte t3 0 = 0x00) := by
  intro t1 t2 w3 t3
  have e := softwareReset_run w
  simp only at e
  rw [e]
  by_cases h1 : txStatus w = 0
  swap
  · exact ⟨_, by simp only [ne_eq, h1, not_false_eq_true, ↓reduceIte]; rfl, by simp [h1]⟩
  by_cases h2 : txStatus t1 = 0
  swap
  · refine ⟨(txStatus t1, t2), ?_, ?_⟩
    · simp [h1, h2, t1, t2]
    · simp [h1, h2]
  by_cases h3 : txStatus w3 = 0
  swap
  · refine ⟨(txStatus w3, t3), ?_, ?_⟩
    · simp [h1, h2, h3, t1, t2, w3, t3]
    · simp [h1, h2, h3]
  by_cases h4 : txStatus t3 = 0
  swap
  · refine ⟨(txStatus t3, afterTransaction [0x02, 0x00] 6000 2 t3), ?_, ?_⟩
    · simp [h1, h2, h3, h4, t1, t2, w3, t3]
    · simp [h1, h2, h3, h4]
  by_cases h5 : payloadByte t3 0 = 0
  · refine ⟨(SUCCESS, sleep 2 (afterTransaction [0x02, 0x00] 6000 2 t3)), ?_, ?_⟩
    · simp [h1, h2, h3, h4, h5, t1, t2, w3, t3]
    · simp [h1, h2, h3, h4, h5]
  · refine ⟨(ERR_UNKNOWN, sleep 2 (afterTransaction [0x02, 0x00] 6000 2 t3)), ?_, ?_⟩
    · simp [h1, h2, h3, h4, h5, t1, t2, w3, t3]
    · simp [h1, h2, h3, h4, h5]

/-- Claim C37. What softwareResetMAX32664 actually verifies: in every world,
`softwareResetMAX32664` returns, and it returns `SUCCESS` if and only if the
statuses of the Reset mode-set transaction, of its read-back, of the
Application mode-set transaction and of its read-back are `SUCCESS` and the
mode of the second read-back is 0x00. The mode of the first read-back does
not occur in the condition: on a bus that answers `SUCCESS` to the four
transactions and reports the mode 0x00 at both read-backs, the call returns
`SUCCESS`. -/
theorem reset_success_condition (w : World) :
    let t1 := afterTransaction [0x01, 0x00, 0x02] 6000 1 w
    let t2 := afterTransaction [0x02, 0x00] 6000 2 t1
    let w3 := usleep 10000 t2
    let t3 := afterTransaction [0x01, 0x00, 0x00] 6000 1 w3
    (∃ v, softwareResetMAX32664 w = .ok v ∧
      (v.1 = SUCCESS ↔
        txStatus w = 0 ∧ txStatus t1 = 0 ∧ txStatus w3 = 0 ∧ txStatus t3 = 0 ∧
          payloadByte t3 0 = 0x00)) ∧
    softwareResetMAX32664
        ⟨[⟨true, []⟩, ⟨true, [0x00]⟩, ⟨true, []⟩, ⟨true, [0x00, 0x00]⟩, ⟨true, []⟩,
          ⟨true, [0x00]⟩, ⟨true, []⟩, ⟨true, [0x00, 0x00]⟩], []⟩
      = .ok (SUCCESS,
             ⟨[], cycle [0x01, 0x00, 0x02] 6000 1 ++ cycle [0x02, 0x00] 6000 2
                  ++ [.sleep 10000]
                  ++ cycle [0x01, 0x00, 0x00] 6000 1 ++ cycle [0x02, 0x00] 6000 2
                  ++ [.sleep 2000000]⟩) := by
  intro t1 t2 w3 t3
  exact ⟨softwareReset_condition w, rfl⟩

/-! ## Globals of the configuration -/

/-- The globals after `configMAX32664`, in any world. -/
theorem config_globals (f a t : Nat) (g : Globals) (w : World) :
    ∃ s g1 w1, configMAX32664 f a t g w = .ok (s, g1, w1) ∧
      g1.userOutputMode = (if f = 1 ∨ f = 2 ∨ f = 3 then f else g.userOutputMode) ∧
      g1.userAlgoMode
        = (if (f = 1 ∨ f = 2 ∨ f = 3) ∧ (a = 1 ∨ a = 2) then a else g.userAlgoMode) ∧
      (((f = 1 ∨ f = 2 ∨ f = 3) ∧ (a = 1 ∨ a = 2)) ∨ s = INCORR_PARAM) := by
  by_cases hf : f = 1 ∨ f = 2 ∨ f = 3
  swap
  · exact ⟨_, _, _, config_bad_format f a t g w hf, by simp [hf], by simp [hf], Or.inr rfl⟩
  by_cases ha : a = 1 ∨ a = 2
  swap
  · exact ⟨_, _, _, config_bad_mode f a t g w hf ha, by simp [hf], by simp [hf, ha],
      Or.inr rfl⟩
  have e := config_run f a t g w hf ha
  simp only at e
  rw [e]
  simp only [hf, ha, and_self, ↓reduceIte, true_or]
  repeat' split
  all_goals exact ⟨_, _, _, rfl, rfl, rfl, trivial⟩

/-- Claim C38. configMAX32664 is not atomic on failure: in every world the
call returns; if `outputFormat` is not valid, `userOutputMode` and
`userAlgoMode` keep their values; if `outputFormat` is valid and `algoMode`
is not, `userOutputMode` is `outputFormat` and `userAlgoMode` keeps its
value, the status being `INCORR_PARAM`; if both are valid, the two variables
hold the new values whatever the bus does, as on a bus whose first transfer
fails, where the status returned is `ERR_UNKNOWN`. -/
theorem config_not_atomic (outputFormat algoMode intThresh : Nat) (g : Globals) (w : World) :
    (∃ s g1 w1, configMAX32664 outputFormat algoMode intThresh g w = .ok (s, g1, w1) ∧
      g1.userOutputMode
        = (if outputFormat = 1 ∨ outputFormat = 2 ∨ outputFormat = 3 then outputFormat
           else g.userOutputMode) ∧
      g1.userAlgoMode
        = (if (outputFormat = 1 ∨ outputFormat = 2 ∨ outputFormat = 3)
              ∧ (algoMode = 1 ∨ algoMode = 2) then algoMode
           else g.userAlgoMode) ∧
      (((outputFormat = 1 ∨ outputFormat = 2 ∨ outputFormat = 3)
          ∧ (algoMode = 1 ∨ algoMode = 2)) ∨ s = INCORR_PARAM)) ∧
    configMAX32664 0x03 0x02 0x0F initialGlobals ⟨[], []⟩
      = .ok (ERR_UNKNOWN, { userAlgoMode := 0x02, userOutputMode := 0x03, sampleNum := 100 },
             ⟨[], [.sleep 20000, .sleep 20000, .transfer BIO_ADDRESS [0x10, 0x00, 0x03] 0]⟩) ∧
    configMAX32664 0x03 0x07 0x0F initialGlobals ⟨[], []⟩
      = .ok (INCORR_PARAM, { userAlgoMode := 0x00, userOutputMode := 0x03, sampleNum := 100 },
             ⟨[], [.sleep 20000]⟩) :=
  ⟨config_globals outputFormat algoMode intThresh g w, rfl, rfl⟩

/-! ## Buffer bounds -/

theorem readSensorHubVersion_world (w : World) :
    ∃ v, readSensorHubVersion w = .ok v ∧
      v.2.2 = afterTransaction [IDENTITY, READ_SENSOR_HUB_VERS] 6000 (1 + 3) w := by
  simp only [readSensorHubVersion, bind, Except.bind, readFillArray_fresh _ _ 3 w (by decide),
    pure, Except.pure]
  by_cases h : txStatus w = 0
  · simp only [h, SUCCESS, bne_self_eq_false, Bool.false_eq_true, ↓reduceIte,
      rd_map_range _ 3 0 (by decide),
      rd_map_range _ 3 1 (by decide),
      rd_map_range _ 3 2 (by decide)]
    repeat (first
      | exact ⟨_, rfl, rfl⟩
      | apply returns_ite)
  · have hb : (txStatus w != 0) = true := by simpa using h
    simp only [SUCCESS, hb, ↓reduceIte]
    repeat (first
      | exact ⟨_, rfl, rfl⟩
      | apply returns_ite)

theorem readAlgorithmVersion_world (w : World) :
    ∃ v, readAlgorithmVersion w = .ok v ∧
      v.2.2 = afterTransaction [IDENTITY, READ_ALGO_VERS] 6000 (1 + 3) w := by
  simp only [readAlgorithmVersion, bind, Except.bind, readFillArray_fresh _ _ 3 w (by decide),
    pure, Except.pure]
  by_cases h : txStatus w = 0
  · simp only [h, bne_self_eq_false, Bool.false_eq_true, ↓reduceIte,
      rd_map_range _ 3 0 (by decide),
      rd_map_range _ 3 1 (by decide),
      rd_map_range _ 3 2 (by decide)]
    repeat (first
      | exact ⟨_, rfl, rfl⟩
      | apply returns_ite)
  · have hb : (txStatus w != 0) = true := by simpa using h
    simp only [hb, ↓reduceIte]
    repeat (first
      | exact ⟨_, rfl, rfl⟩
      | apply returns_ite)

theorem readBootloaderVersion_world (w : World) :
    ∃ v, readBootloaderVersion w = .ok v ∧
      v.2.2 = afterTransaction [BOOTLOADER_INFO, BOOTLOADER_VERS] 6000 (1 + 3) w := by
  simp only [readBootloaderVersion, bind, Except.bind, readFillArray_fresh _ _ 3 w (by decide),
    pure, Except.pure]
  by_cases h : txStatus w = 0
  · simp only [h, bne_self_eq_false, Bool.false_eq_true, ↓reduceIte,
      rd_map_range _ 3 0 (by decide),
      rd_map_range _ 3 1 (by decide),
      rd_map_range _ 3 2 (by decide)]
    repeat (first
      | exact ⟨_, rfl, rfl⟩
      | apply returns_ite)
  · have hb : (txStatus w != 0) = true := by simpa using h
    simp only [hb, ↓reduceIte]
    repeat (first
      | exact ⟨_, rfl, rfl⟩
      | apply returns_ite)

theorem getAfeAttributesMAX30101_world (w : World) :
    ∃ v, getAfeAttributesMAX30101 w = .ok v ∧
      v.2.2 = afterTransaction [READ_ATTRIBUTES_AFE, RETRIEVE_AFE_MAX30101] 6000 (1 + 2) w := by
  have e : ([0, 0] : List Nat) = List.replicate 2 0 := rfl
  simp only [getAfeAttributesMAX30101, e, bind, Except.bind,
    readFillArray_fresh _ _ 2 w (by decide),
    pure, Except.pure]
  by_cases h : txStatus w = 0
  · simp only [h, SUCCESS, bne_self_eq_false, Bool.false_eq_true, ↓reduceIte,
      rd_map_range _ 2 0 (by decide),
      rd_map_range _ 2 1 (by decide)]
    repeat (first
      | exact ⟨_, rfl, rfl⟩
      | apply returns_ite)
  · have hb : (txStatus w != 0) = true := by simpa using h
    simp only [SUCCESS, hb, ↓reduceIte]
    repeat (first
      | exact ⟨_, rfl, rfl⟩
      | apply returns_ite)

theorem getAfeAttributesAccelerometer_world (w : World) :
    ∃ v, getAfeAttributesAccelerometer w = .ok v ∧
      v.2.2
        = afterTransaction [READ_ATTRIBUTES_AFE, RETRIEVE_AFE_ACCELEROMETER] 6000 (1 + 2) w := by
  have e : ([0, 0] : List Nat) = List.replicate 2 0 := rfl
  simp only [getAfeAttributesAccelerometer, e, bind, Except.bind,
    readFillArray_fresh _ _ 2 w (by decide),
    pure, Except.pure]
  by_cases h : txStatus w = 0
  · simp only [h, SUCCESS, bne_self_eq_false, Bool.false_eq_true, ↓reduceIte,
      rd_map_range _ 2 0 (by decide),
      rd_map_range _ 2 1 (by decide)]
    repeat (first
      | exact ⟨_, rfl, rfl⟩
      | apply returns_ite)
  · have hb : (txStatus w != 0) = true := by simpa using h
    simp only [SUCCESS, hb, ↓reduceIte]
    repeat (first
      | exact ⟨_, rfl, rfl⟩
      | apply returns_ite)

theorem getExtAccelMode_world (w : World) :
    ∃ v, getExtAccelMode w = .ok v ∧
      v.2.2 = afterTransaction [READ_SENSOR_MODE, READ_ENABLE_ACCELEROMETER] 6000 (1 + 2) w := by
  have e : ([0, 0] : List Nat) = List.replicate 2 0 := rfl
  simp only [getExtAccelMode, e, bind, Except.bind, readFillArray_fresh _ _ 2 w (by decide),
    pure, Except.pure]
  by_cases h : txStatus w = 0
  · simp only [h, ↓reduceIte, rd_map_range _ 2 0 (by decide), rd_map_range _ 2 1 (by decide)]
    repeat (first
      | exact ⟨_, rfl, rfl⟩
      | apply returns_ite)
  · simp only [h, ↓reduceIte]
    repeat (first
      | exact ⟨_, rfl, rfl⟩
      | apply returns_ite)

theorem readMaximFastCoef_world (c0 c1 c2 : Int) (rest : List Int) (w : World) :
    ∃ v, readMaximFastCoef (c0 :: c1 :: c2 :: rest) w = .ok v ∧
      v.2.2 = afterTransaction [READ_ALGORITHM_CONFIG, READ_MAX_FAST_COEF, READ_MAX_FAST_COEF_ID]
        6000 (1 + 4 * 3) w := by
  simp only [readMaximFastCoef, NUM_MAXIM_FAST_COEF, bind, Except.bind, pure, Except.pure,
    readMultiple32_run _ _ _ 3 (c0 :: c1 :: c2 :: rest) w (by decide) (by simp)]
  exact ⟨_, rfl, rfl⟩

/-- `I2CReadFillArray` returns in every world if and only if it requests at
most 23 payload bytes, the caller's array being large enough. -/
theorem readFillArray_safe_iff (n : Nat) :
    (∀ (f i : Nat) (arr : List Nat) (w : World), n ≤ arr.length →
        ∃ r, I2CReadFillArray f i n arr w = .ok r) ↔ n ≤ 23 := by
  constructor
  · intro h
    by_contra hn
    obtain ⟨r, hr⟩ := h 0 0 (List.replicate n 0) ⟨[⟨true, []⟩], []⟩ (by simp)
    rw [readFillArray_overrun 0 0 n (List.replicate n 0) ⟨[⟨true, []⟩], []⟩ rfl (by omega)]
      at hr
    cases hr
  · intro hn f i arr w ha
    exact ⟨_, readFillArray_run f i n arr w hn ha⟩

/-- `I2CReadMultiple32BitValues` returns in every world if and only if it
requests at most 3 words, the caller's array being large enough. -/
theorem readMultiple32_safe_iff (n : Nat) :
    (∀ (f i x : Nat) (arr : List Int) (w : World), n ≤ arr.length →
        ∃ r, I2CReadMultiple32BitValues f i x n arr w = .ok r) ↔ n ≤ 3 := by
  constructor
  · intro h
    by_contra hn
    obtain ⟨r, hr⟩ := h 0 0 0 (List.replicate n 0) ⟨[⟨true, []⟩], []⟩ (by simp)
    rw [readMultiple32_overrun 0 0 0 n (List.replicate n 0) ⟨[⟨true, []⟩], []⟩ rfl
      (by omega)] at hr
    cases hr
  · intro hn f i x arr w ha
    exact ⟨_, readMultiple32_run f i x n arr w hn ha⟩

/-- The three enable operations return in every world. -/
theorem agcAlgoControl_returns (x : Nat) (w : World) : ∃ r, agcAlgoControl x w = .ok r := by
  by_cases h : x = 0 ∨ x = 1
  · exact ⟨_, agcAlgoControl_run x w h⟩
  · exact ⟨_, agcAlgoControl_invalid x w h⟩

theorem max30101Control_returns (x : Nat) (w : World) : ∃ r, max30101Control x w = .ok r := by
  by_cases h : x = 0 ∨ x = 1
  · exact ⟨_, max30101Control_run x w h⟩
  · exact ⟨_, max30101Control_invalid x w h⟩

theorem maximFastAlgoControl_returns (x : Nat) (w : World) :
    ∃ r, maximFastAlgoControl x w = .ok r := by
  by_cases h : x = 0 ∨ x = 1 ∨ x = 2
  · exact ⟨_, maximFastAlgoControl_run x w h⟩
  · exact ⟨_, maximFastAlgoControl_invalid x w h⟩

theorem resetMAX30101_returns (w : World) : ∃ r, softwareResetMAX30101 w = .ok r := by
  have e := resetMAX30101_run w
  simp only at e
  rw [e]
  repeat' split
  all_goals exact ⟨_, rfl⟩

/-- Every library-level operation returns, in every world and for every value
of the globals. -/
theorem perform_returns (c : Call) (g : Globals) (w : World) (h : libraryCall c = true) :
    ∃ r, perform c g w = .ok r := by
  cases c <;> simp only [libraryCall, Bool.false_eq_true, decide_eq_true_eq] at h
  case configMAX32664 f a t =>
    obtain ⟨s, g1, w1, e, _⟩ := config_globals f a t g w
    refine ⟨(g1, w1), ?_⟩
    simp only [perform, e, bind, Except.bind, pure, Except.pure]
  case beginI2C =>
    obtain ⟨⟨a, b, w1⟩, e, _⟩ := beginI2C_guard w
    refine ⟨(g, w1), ?_⟩
    simp only [perform, e, bind, Except.bind, pure, Except.pure]
  case softwareResetMAX32664 =>
    obtain ⟨⟨a, w1⟩, e, _⟩ := softwareReset_condition w
    refine ⟨(g, w1), ?_⟩
    simp only [perform, e, bind, Except.bind, pure, Except.pure]
  case softwareResetMAX30101 =>
    obtain ⟨⟨a, w1⟩, e⟩ := resetMAX30101_returns w
    refine ⟨(g, w1), ?_⟩
    simp only [perform, e, bind, Except.bind, pure, Except.pure]
  case agcAlgoControl x =>
    obtain ⟨⟨a, w1⟩, e⟩ := agcAlgoControl_returns x w
    refine ⟨(g, w1), ?_⟩
    simp only [perform, e, bind, Except.bind, pure, Except.pure]
  case max30101Control x =>
    obtain ⟨⟨a, w1⟩, e⟩ := max30101Control_returns x w
    refine ⟨(g, w1), ?_⟩
    simp only [perform, e, bind, Except.bind, pure, Except.pure]
  case maximFastAlgoControl x =>
    obtain ⟨⟨a, w1⟩, e⟩ := maximFastAlgoControl_returns x w
    refine ⟨(g, w1), ?_⟩
    simp only [perform, e, bind, Except.bind, pure, Except.pure]
  case readMaximFastCoef coefArray =>
    rcases coefArray with _ | ⟨c0, _ | ⟨c1, _ | ⟨c2, rest⟩⟩⟩
    · simp at h
    · simp at h
    · simp at h
    · obtain ⟨⟨a, b, w1⟩, e, _⟩ := readMaximFastCoef_settle c0 c1 c2 rest w
      refine ⟨(g, w1), ?_⟩
      simp only [perform, e, bind, Except.bind, pure, Except.pure]
  case readPulseAmp ledArray =>
    rcases ledArray with _ | ⟨a0, _ | ⟨a1, _ | ⟨a2, _ | ⟨a3, rest⟩⟩⟩⟩
    · simp at h
    · simp at h
    · simp at h
    · simp at h
    · obtain ⟨⟨a, b, c, w1⟩, e, _⟩ := readPulseAmp_settle a0 a1 a2 a3 rest w
      refine ⟨(g, w1), ?_⟩
      simp only [perform, e, bind, Except.bind, pure, Except.pure]
  case readSensorData =>
    obtain ⟨⟨a, b, w1⟩, e, _⟩ := readSensorData_settle g.userOutputMode g.userAlgoMode w
    refine ⟨(g, w1), ?_⟩
    simp only [perform, e, bind, Except.bind, pure, Except.pure]
  case readRawData =>
    obtain ⟨⟨a, b, w1⟩, e, _⟩ := readRawData_settle g.userOutputMode w
    refine ⟨(g, w1), ?_⟩
    simp only [perform, e, bind, Except.bind, pure, Except.pure]
  case readAlgoData =>
    obtain ⟨⟨a, b, w1⟩, e, _⟩ := readAlgoData_settle g.userOutputMode g.userAlgoMode w
    refine ⟨(g, w1), ?_⟩
    simp only [perform, e, bind, Except.bind, pure, Except.pure]
  case readRawAndAlgoData =>
    obtain ⟨⟨a, b, w1⟩, e, _⟩ := readRawAndAlgoData_settle g.userOutputMode g.userAlgoMode w
    refine ⟨(g, w1), ?_⟩
    simp only [perform, e, bind, Except.bind, pure, Except.pure]
  case numSamplesOutFifo =>
    obtain ⟨⟨a, b, w1⟩, e, _⟩ := numSamplesOutFifo_settle w
    refine ⟨(g, w1), ?_⟩
    simp only [perform, e, bind, Except.bind, pure, Except.pure]
  case readMAX30101State =>
    obtain ⟨⟨a, b, w1⟩, e, _⟩ := readMAX30101State_settle w
    refine ⟨(g, w1), ?_⟩
    simp only [perform, e, bind, Except.bind, pure, Except.pure]
  case readDeviceMode =>
    obtain ⟨⟨a, b, w1⟩, e, _⟩ := readDeviceMode_settle w
    refine ⟨(g, w1), ?_⟩
    simp only [perform, e, bind, Except.bind, pure, Except.pure]
  case setDeviceMode x =>
    obtain ⟨⟨a, b, w1⟩, e, _⟩ := setDeviceMode_settle x w
    refine ⟨(g, w1), ?_⟩
    simp only [perform, e, bind, Except.bind, pure, Except.pure]
  case readSensorHubStatus =>
    obtain ⟨⟨a, b, w1⟩, e, _⟩ := readSensorHubStatus_settle w
    refine ⟨(g, w1), ?_⟩
    simp only [perform, e, bind, Except.bind, pure, Except.pure]
  case readAlgoSamples =>
    obtain ⟨⟨a, b, w1⟩, e, _⟩ := readAlgoSamples_settle w
    refine ⟨(g, w1), ?_⟩
    simp only [perform, e, bind, Except.bind, pure, Except.pure]
  case readAlgoRange =>
    obtain ⟨⟨a, b, w1⟩, e, _⟩ := readAlgoRange_settle w
    refine ⟨(g, w1), ?_⟩
    simp only [perform, e, bind, Except.bind, pure, Except.pure]
  case readAlgoStepSize =>
    obtain ⟨⟨a, b, w1⟩, e, _⟩ := readAlgoStepSize_settle w
    refine ⟨(g, w1), ?_⟩
    simp only [perform, e, bind, Except.bind, pure, Except.pure]
  case readAlgoSensitivity =>
    obtain ⟨⟨a, b, w1⟩, e, _⟩ := readAlgoSensitivity_settle w
    refine ⟨(g, w1), ?_⟩
    simp only [perform, e, bind, Except.bind, pure, Except.pure]
  case readAlgoSampleRate =>
    obtain ⟨⟨a, b, w1⟩, e, _⟩ := readAlgoSampleRate_settle w
    refine ⟨(g, w1), ?_⟩
    simp only [perform, e, bind, Except.bind, pure, Except.pure]
  case readSensorHubVersion =>
    obtain ⟨⟨a, b, w1⟩, e, _⟩ := readSensorHubVersion_settle w
    refine ⟨(g, w1), ?_⟩
    simp only [perform, e, bind, Except.bind, pure, Except.pure]
  case readAlgorithmVersion =>
    obtain ⟨⟨a, b, w1⟩, e, _⟩ := readAlgorithmVersion_settle w
    refine ⟨(g, w1), ?_⟩
    simp only [perform, e, bind, Except.bind, pure, Except.pure]
  case readBootloaderVersion =>
    obtain ⟨⟨a, b, w1⟩, e, _⟩ := readBootloaderVersion_settle w
    refine ⟨(g, w1), ?_⟩
    simp only [perform, e, bind, Except.bind, pure, Except.pure]
  case getMcuType =>
    obtain ⟨⟨a, b, w1⟩, e, _⟩ := getMcuType_settle w
    refine ⟨(g, w1), ?_⟩
    simp only [perform, e, bind, Except.bind, pure, Except.pure]
  case readADCSampleRate =>
    obtain ⟨⟨a, b, w1⟩, e, _⟩ := readADCSampleRate_settle w
    refine ⟨(g, w1), ?_⟩
    simp only [perform, e, bind, Except.bind, pure, Except.pure]
  case readADCRange =>
    obtain ⟨⟨a, b, w1⟩, e, _⟩ := readADCRange_settle w
    refine ⟨(g, w1), ?_⟩
    simp only [perform, e, bind, Except.bind, pure, Except.pure]
  case readPulseWidth =>
    obtain ⟨⟨a, b, w1⟩, e, _⟩ := readPulseWidth_settle w
    refine ⟨(g, w1), ?_⟩
    simp only [perform, e, bind, Except.bind, pure, Except.pure]
  case readMAX30101Mode =>
    obtain ⟨⟨a, b, w1⟩, e, _⟩ := readMAX30101Mode_settle w
    refine ⟨(g, w1), ?_⟩
    simp only [perform, e, bind, Except.bind, pure, Except.pure]
  case getAfeAttributesMAX30101 =>
    obtain ⟨⟨a, b, w1⟩, e, _⟩ := getAfeAttributesMAX30101_settle w
    refine ⟨(g, w1), ?_⟩
    simp only [perform, e, bind, Except.bind, pure, Except.pure]
  case getAfeAttributesAccelerometer =>
    obtain ⟨⟨a, b, w1⟩, e, _⟩ := getAfeAttributesAccelerometer_settle w
    refine ⟨(g, w1), ?_⟩
    simp only [perform, e, bind, Except.bind, pure, Except.pure]
  case getExtAccelMode =>
    obtain ⟨⟨a, b, w1⟩, e, _⟩ := getExtAccelMode_settle w
    refine ⟨(g, w1), ?_⟩
    simp only [perform, e, bind, Except.bind, pure, Except.pure]
  case readRegisterMAX30101 x =>
    obtain ⟨⟨a, b, w1⟩, e, _⟩ := readRegisterMAX30101_settle x w
    refine ⟨(g, w1), ?_⟩
    simp only [perform, e, bind, Except.bind, pure, Except.pure]
  case setOutputMode x =>
    obtain ⟨⟨a, w1⟩, e, _⟩ := setOutputMode_settle x w
    refine ⟨(g, w1), ?_⟩
    simp only [perform, e, bind, Except.bind, pure, Except.pure]
  case setFifoThreshold x =>
    obtain ⟨⟨a, w1⟩, e, _⟩ := setFifoThreshold_settle x w
    refine ⟨(g, w1), ?_⟩
    simp only [perform, e, bind, Except.bind, pure, Except.pure]
  case writeRegisterMAX30101 x y =>
    obtain ⟨⟨a, w1⟩, e, _⟩ := writeRegisterMAX30101_settle x y w
    refine ⟨(g, w1), ?_⟩
    simp only [perform, e, bind, Except.bind, pure, Except.pure]

/-- Claim C39. Receive-buffer bounds: with a caller array that holds the
requested elements, `I2CReadFillArray` runs in every world without an access
outside its 24-byte receive buffer if and only if `arraySize <= 23`, and
`I2CReadMultiple32BitValues` without an access outside its 13-byte receive
buffer if and only if `numReads <= 3`. The library calls the first with the
sizes 3 (the three version readers), 2 (the two attribute readers and
`getExtAccelMode`), 12 (`readRawData`), 6 and 11 (`readAlgoData`), 18 and 23
(`readRawAndAlgoData`), and the second with 3 reads (`readMaximFastCoef`):
the read transfer of each asks for one byte more than the size, or than four
times the number of reads. Every library-level operation returns in every
world, so none indexes outside a buffer. -/
theorem receive_buffer_bounds (w : World) (c0 c1 c2 : Int) (coefs : List Int) :
    (∀ n, (∀ (f i : Nat) (arr : List Nat) (w : World), n ≤ arr.length →
        ∃ r, I2CReadFillArray f i n arr w = .ok r) ↔ n ≤ 23) ∧
    (∀ n, (∀ (f i x : Nat) (arr : List Int) (w : World), n ≤ arr.length →
        ∃ r, I2CReadMultiple32BitValues f i x n arr w = .ok r) ↔ n ≤ 3) ∧
    ((∃ v, readSensorHubVersion w = .ok v ∧
        v.2.2 = afterTransaction [IDENTITY, READ_SENSOR_HUB_VERS] 6000 (1 + 3) w) ∧
     (∃ v, readAlgorithmVersion w = .ok v ∧
        v.2.2 = afterTransaction [IDENTITY, READ_ALGO_VERS] 6000 (1 + 3) w) ∧
     (∃ v, readBootloaderVersion w = .ok v ∧
        v.2.2 = afterTransaction [BOOTLOADER_INFO, BOOTLOADER_VERS] 6000 (1 + 3) w) ∧
     (∃ v, getAfeAttributesMAX30101 w = .ok v ∧
        v.2.2 = afterTransaction [READ_ATTRIBUTES_AFE, RETRIEVE_AFE_MAX30101] 6000 (1 + 2) w) ∧
     (∃ v, getAfeAttributesAccelerometer w = .ok v ∧
        v.2.2
          = afterTransaction [READ_ATTRIBUTES_AFE, RETRIEVE_AFE_ACCELEROMETER] 6000 (1 + 2) w) ∧
     (∃ v, getExtAccelMode w = .ok v ∧
        v.2.2 = afterTransaction [READ_SENSOR_MODE, READ_ENABLE_ACCELEROMETER] 6000 (1 + 2) w) ∧
     (∃ v, readRawData 0x01 w = .ok v ∧
        v.2.2 = afterTransaction [READ_DATA_OUTPUT, READ_DATA] 6000 (1 + 12) w) ∧
     (∃ v, readAlgoData 0x02 0x01 w = .ok v ∧
        v.2.2 = afterTransaction [READ_DATA_OUTPUT, READ_DATA] 6000 (1 + 6) w) ∧
     (∃ v, readAlgoData 0x02 0x02 w = .ok v ∧
        v.2.2 = afterTransaction [READ_DATA_OUTPUT, READ_DATA] 6000 (1 + 11) w) ∧
     (∃ v, readRawAndAlgoData 0x03 0x01 w = .ok v ∧
        v.2.2 = afterTransaction [READ_DATA_OUTPUT, READ_DATA] 6000 (1 + 18) w) ∧
     (∃ v, readRawAndAlgoData 0x03 0x02 w = .ok v ∧
        v.2.2 = afterTransaction [READ_DATA_OUTPUT, READ_DATA] 6000 (1 + 23) w) ∧
     (∃ v, readMaximFastCoef (c0 :: c1 :: c2 :: coefs) w = .ok v ∧
        v.2.2
          = afterTransaction [READ_ALGORITHM_CONFIG, READ_MAX_FAST_COEF, READ_MAX_FAST_COEF_ID]
              6000 (1 + 4 * 3) w)) ∧
    (∀ (c : Call) (g : Globals) (w : World), libraryCall c = true →
      ∃ r, perform c g w = .ok r) :=
  ⟨readFillArray_safe_iff, readMultiple32_safe_iff,
    ⟨readSensorHubVersion_world w, readAlgorithmVersion_world w, readBootloaderVersion_world w,
      getAfeAttributesMAX30101_world w, getAfeAttributesAccelerometer_world w,
      getExtAccelMode_world w, ⟨_, readRawData_run w, rfl⟩, ⟨_, readAlgoData_run_mode1 w, rfl⟩,
      ⟨_, readAlgoData_run_mode2 w, rfl⟩, ⟨_, readRawAndAlgoData_run_mode1 w, rfl⟩,
      ⟨_, readRawAndAlgoData_run_mode2 w, rfl⟩, readMaximFastCoef_world c0 c1 c2 coefs w⟩,
    perform_returns⟩

/-! ## Invariant of the configuration state -/

/-- No call but one of `configMAX32664` changes the globals. -/
theorem perform_keeps_globals (c : Call) (g g1 : Globals) (w w1 : World)
    (h : perform c g w = .ok (g1, w1)) :
    (∃ f a t, c = .configMAX32664 f a t) ∨ g1 = g := by
  cases c
  case configMAX32664 f a t => exact Or.inl ⟨f, a, t, rfl⟩
  all_goals
    right
    simp only [perform, bind, Except.bind, pure, Except.pure] at h
    split at h
    · cases h
    · cases h
      rfl

theorem modesValid_initial : modesValid initialGlobals := by
  simp [modesValid, initialGlobals]

/-- A call keeps the two mode variables valid. -/
theorem modesValid_step (c : Call) (g g1 : Globals) (w w1 : World) (hg : modesValid g)
    (h : perform c g w = .ok (g1, w1)) : modesValid g1 := by
  rcases perform_keeps_globals c g g1 w w1 h with ⟨f, a, t, rfl⟩ | rfl
  · obtain ⟨s, g2, w2, e, ho, ha, _⟩ := config_globals f a t g w
    simp only [perform, e, bind, Except.bind, pure, Except.pure, Except.ok.injEq,
      Prod.mk.injEq] at h
    obtain ⟨rfl, _⟩ := h
    obtain ⟨h1, h2, h3⟩ := hg
    unfold modesValid
    rw [ho, ha]
    by_cases hf : f = 1 ∨ f = 2 ∨ f = 3
    · by_cases hm : a = 1 ∨ a = 2
      · rw [if_pos hf, if_pos ⟨hf, hm⟩]
        exact ⟨Or.inr hf, Or.inr hm, fun _ => by omega⟩
      · rw [if_pos hf, if_neg (fun h => hm h.2)]
        exact ⟨Or.inr hf, h2, fun _ => by omega⟩
    · rw [if_neg hf, if_neg (fun h => hf h.1)]
      exact ⟨h1, h2, h3⟩
  · exact hg

/-- The two mode variables are valid in every reachable state. -/
theorem reachable_valid (w0 : World) (g : Globals) (w : World) (h : Reachable w0 g w) :
    modesValid g := by
  induction h with
  | start => exact modesValid_initial
  | call c g g1 w w1 _ hp ih => exact modesValid_step c g g1 w w1 ih hp

/-- Claim C40. Configuration-state invariant: starting from the initial
globals (`userOutputMode = 0`, `userAlgoMode = 0`) in any world, after any
sequence of calls of the public operations with any arguments,
`userOutputMode` is in {0, 1, 2, 3}, `userAlgoMode` is in {0, 1, 2}, and
`userAlgoMode` is 0 unless `userOutputMode` is not 0 (`modesValid`); and a
call that leaves the globals other than it found them is a call of
`configMAX32664`. -/
theorem configuration_state_invariant (w0 : World) (g : Globals) (w : World)
    (h : Reachable w0 g w) :
    ((g.userOutputMode = 0 ∨ g.userOutputMode = 1 ∨ g.userOutputMode = 2
        ∨ g.userOutputMode = 3) ∧
      (g.userAlgoMode = 0 ∨ g.userAlgoMode = 1 ∨ g.userAlgoMode = 2) ∧
      (g.userAlgoMode ≠ 0 → g.userOutputMode ≠ 0)) ∧
    (∀ (c : Call) (g1 : Globals) (w1 : World), perform c g w = .ok (g1, w1) →
      (∃ f a t, c = .configMAX32664 f a t) ∨ g1 = g) :=
  ⟨reachable_valid w0 g w h, fun c g1 w1 hp => perform_keeps_globals c g g1 w w1 hp⟩

/-- Witness of `configuration_state_invariant`: a configuration with the
output format 0x03 and the algorithm mode 0x02 on a bus whose first transfer
fails, then a read of the sensor data. -/
theorem configuration_state_invariant_witness :
    (((3 : Nat) = 0 ∨ (3 : Nat) = 1 ∨ (3 : Nat) = 2 ∨ (3 : Nat) = 3) ∧
      ((2 : Nat) = 0 ∨ (2 : Nat) = 1 ∨ (2 : Nat) = 2) ∧
      ((2 : Nat) ≠ 0 → (3 : Nat) ≠ 0)) ∧
    (∀ (c : Call) (g1 : Globals) (w1 : World),
      perform c { userAlgoMode := 2, userOutputMode := 3, sampleNum := 100 }
          ⟨[], [.sleep 20000, .sleep 20000, .transfer BIO_ADDRESS [0x10, 0x00, 0x03] 0,
                .transfer BIO_ADDRESS [0x00, 0x00] 0]⟩ = .ok (g1, w1) →
        (∃ f a t, c = .configMAX32664 f a t)
          ∨ g1 = { userAlgoMode := 2, userOutputMode := 3, sampleNum := 100 }) :=
  configuration_state_invariant ⟨[], []⟩
    { userAlgoMode := 2, userOutputMode := 3, sampleNum := 100 }
    ⟨[], [.sleep 20000, .sleep 20000, .transfer BIO_ADDRESS [0x10, 0x00, 0x03] 0,
          .transfer BIO_ADDRESS [0x00, 0x00] 0]⟩
    (Reachable.call .readSensorData _ _ _ _
      (Reachable.call (.configMAX32664 0x03 0x02 0x0F) _ _ _ _ Reachable.start rfl) rfl)

end BioSensor
